import Mathlib

/-!
# go-pfcp-networking: session rule state, session table, entity dispatch, reply path and handlers

A shallow embedding of the Go sources `pfcp/session.go`, `pfcp/session_map.go`,
`pfcp/entity.go`, `pfcp/handlers.go`, `pfcp_entity.go` and `association.go`.

Conventions of the embedding

* Machine integers are natural numbers; where the source can overflow the
  wrap-around is written out (`% 2 ^ 32`, `% 2 ^ 64`).
* A Go `error` result is an `Option Error` (`none` is Go's `nil`).
* A Go map is a reference to a table of bindings.  It is embedded as the list
  of its bindings (`GoMap`); `range` visits the bindings in list order.  Go
  leaves the iteration order unspecified, and every statement below quantifies
  over all binding lists, hence over every order.
* A Go slice is a header (length, capacity) over a backing array (`Slice`).
  Copying a struct copies the header and shares the array.
* A method with a value receiver (`func (s PFCPSession) ...`) runs on a copy of
  the caller's struct.  Its embedding returns the struct *as the caller holds it
  after the call*: the tables behind map fields (shared by reference) carry the
  writes of the body, scalar fields and slice headers keep the caller's values.
* Code that can dereference a nil pointer, call a nil function or assign to a nil
  map returns a `Run` value, whose `panic` is the run-time panic.
* A map field of a struct may hold nil: the session records it for its two tables
  (`pdrIsNil`, `farIsNil`).  A pointer to an information element may be nil: it is an
  `Option`, and the constructors of the codec, which read the type of every element
  they are given, panic on `none` (`constructorElements`).
* Goroutines that call `AddUpdatePDRsFARs` on one session are embedded as a machine
  (`Machine`) that runs the statements of the calls in the order of a schedule.  A
  mutex is the state that its methods read and write; a `Lock` that has to wait is a
  step that does not move.
* Functions and types the sources use but do not contain are parameters (`Env`,
  `Ext`, `GoRuntime`) or, where the specification describes them, definitions whose
  comment starts with "Modelled from the spec".
-/

namespace Pfcp

/-! ## Errors -/

/-- The error values built by `fmt.Errorf` in the embedded sources, one constructor
per message. -/
inductive Error where
  | pdrAlreadyExists (id : Nat)
  | farAlreadyExists (id : Nat)
  | noFARWithId (id : Nat)
  | receivedShallBeRequest
  | responseShallBeResponse
  | sequenceMismatch
  | marshalFailed
  | writeFailed
  | readFailed
  | unexpectedMessageType
  | alreadyStarted
  | onlyRequestsHaveHandler
  | unexpectedEOF
  | invalidIE
  | issueWithRequest
  | entityNodeIDIsNil
  | recoveryTimeStampIsNil
  | associationAlreadyExists
  | noActiveAssociation
  | peerFailed
  | cannotResolveNodeID
  | resolveFailed
  | cannotCreateFSEID
  | noPDRInSession
  | noFARInSession
  | ruleIDFailed
  | ruleParseFailed
  | sessionAlreadyEstablished
  | notCPorUP
  | sendFailed
  | localIPNotSet
  | remoteIPNotSet
  | sessionNotFound
  | sessionCreationFailed
deriving DecidableEq, Repr

/-- Outcome of running code that may stop in a run-time panic. -/
inductive Run (α : Type) where
  | done (a : α)
  | panic
deriving DecidableEq, Repr

/-! ## Go maps -/

/-- A Go map, as the list of its bindings. -/
structure GoMap (K V : Type) where
  entries : List (K × V)
deriving DecidableEq, Repr

namespace GoMap

variable {K V : Type} [DecidableEq K]

/-- The Go expression `make(map[K]V)`. -/
def empty : GoMap K V := ⟨[]⟩

/-- Lookup in a binding list: the first binding of the key. -/
def lookupList : List (K × V) → K → Option V
  | [], _ => none
  | (k', v) :: rest, k => if k' = k then some v else lookupList rest k

/-- Replace the binding of a key in a binding list, or add one at the end. -/
def assignList : List (K × V) → K → V → List (K × V)
  | [], k, v => [(k, v)]
  | (k', v') :: rest, k, v =>
    if k' = k then (k, v) :: rest else (k', v') :: assignList rest k v

/-- The Go expression `v, ok := m[k]`: `some v` when `ok`, `none` otherwise. -/
def get (m : GoMap K V) (k : K) : Option V := lookupList m.entries k

/-- The Go statement `m[k] = v`. -/
def set (m : GoMap K V) (k : K) (v : V) : GoMap K V := ⟨assignList m.entries k v⟩

/-- The keys of the map, in iteration order. -/
def keys (m : GoMap K V) : List K := m.entries.map Prod.fst

/-- The test `_, exists := m[k]; exists`. -/
def contains (m : GoMap K V) (k : K) : Bool := (m.get k).isSome

end GoMap

/-! ## Rules -/

/-- Modelled from the spec: the package `pfcprules` (types `PDR`, `FAR`, `PDRMap`,
`FARMap`, `PDRs`) is not among the sources.  A PDR is an identifier-keyed rule with a
precedence and a reference to a FAR; only these three attributes are used by the core. -/
structure PDR where
  id : Nat
  precedence : Nat
  farid : Nat
deriving DecidableEq, Repr

/-- Modelled from the spec: a FAR is an identifier-keyed action rule (package
`pfcprules`, not among the sources); `action` stands for its content. -/
structure FAR where
  id : Nat
  action : Nat := 0
deriving DecidableEq, Repr

/-- The type `pfcprule.PDRMap`, a map from PDR id to rule. -/
abbrev PDRMap := GoMap Nat PDR

/-- The type `pfcprule.FARMap`, a map from FAR id to rule. -/
abbrev FARMap := GoMap Nat FAR

/-- Modelled from the spec: `PDRs.Less`, the order used by `sort.Sort` on the
precedence-ordered sequence ("sorted ascending by precedence"). -/
def PDR.le (a b : PDR) : Prop := a.precedence ≤ b.precedence

instance : DecidableRel PDR.le := fun a b => inferInstanceAs (Decidable (a.precedence ≤ b.precedence))

/-! ## The Go runtime pieces the session code relies on -/

/-- What the session code uses of the Go runtime and standard library, with the
guarantees Go gives: `sort.Sort` leaves a permutation of its input that is ordered
by `Less` (it is not stable, so nothing is fixed for rules of equal precedence), and
`append` on a full slice moves to a larger array whose capacity is chosen by the
runtime. -/
structure GoRuntime where
  sortPDRs : List PDR → List PDR
  sortPDRs_perm : ∀ l, (sortPDRs l).Perm l
  sortPDRs_sorted : ∀ l, (sortPDRs l).Sorted PDR.le
  growCap : Nat → Nat
  growCap_gt : ∀ c, c < growCap c

instance : IsTotal PDR PDR.le := ⟨fun a b => Nat.le_total a.precedence b.precedence⟩

instance : IsTrans PDR PDR.le := ⟨fun _ _ _ h1 h2 => Nat.le_trans h1 h2⟩

/-- A concrete runtime: insertion sort, and capacity doubling (1, 2, 4, ...) as the
gc runtime does for small slices. -/
def stdRuntime : GoRuntime where
  sortPDRs := List.insertionSort PDR.le
  sortPDRs_perm := fun l => List.perm_insertionSort PDR.le l
  sortPDRs_sorted := fun l => List.sorted_insertionSort PDR.le l
  growCap := fun c => if c = 0 then 1 else 2 * c
  growCap_gt := fun c => by
    show c < if c = 0 then 1 else 2 * c
    split <;> omega

/-! ## Slices -/

/-- A Go slice of PDRs (`pfcprule.PDRs`).  `arr` holds the cells of the backing array
that have been written so far (the other `cap - arr.length` cells still hold nil and
are never read); `len` is the length in the header.  Two headers copied from one
another share `arr`. -/
structure Slice where
  arr : List PDR
  cap : Nat
  len : Nat
deriving DecidableEq, Repr

/-- The elements seen through the header: cells `0 .. len - 1`. -/
def Slice.toList (s : Slice) : List PDR := s.arr.take s.len

/-- The Go expression `make(pfcprule.PDRs, 0)`. -/
def Slice.make0 : Slice := { arr := [], cap := 0, len := 0 }

/-! ## Sessions -/

/-- Decoded F-SEID (`ie.FSEIDFields`): a session id and the address of its owner. -/
structure FSEID where
  SEID : Nat
  IPv4Address : Option String := none
  IPv6Address : Option String := none
deriving DecidableEq, Repr

/-- The struct `PFCPSession` of `pfcp/session.go`.  The field `association` (a back
reference) and the lock `atomicMu` carry no rule state and are left out.

A Go map field holds either nil or a reference to an allocated table, and
`newEstablishedPFCPSession` stores the maps it is given as they are (`pdr: pdrs`,
`far: fars`).  `pdrIsNil` and `farIsNil` tell that the field holds nil; the table then
has no binding, so `pdr` (`far`) is the empty list of bindings.  Reading a nil map
finds nothing and ranging over it visits nothing; assigning to it panics. -/
structure PFCPSession where
  isEstablished : Bool := false
  localFseid : Option FSEID := none
  remoteFseid : Option FSEID := none
  pdr : PDRMap
  sortedPDR : Slice
  far : FARMap
  timeUpdated : Nat := 0
  pdrIsNil : Bool := false
  farIsNil : Bool := false
deriving DecidableEq, Repr

/-- The working state of a method body that runs on a copy `s` of the caller's
struct.  `callerArr` is the current content of the backing array that the *caller's*
`sortedPDR` header designates, and `aliased` tells whether the header of the copy
still designates that same array (it does until an `append` moves the copy to a new
array). -/
structure Frame where
  s : PFCPSession
  callerArr : List PDR
  aliased : Bool
deriving DecidableEq, Repr

/-- Entering a method with a value receiver: the body gets a copy of the struct. -/
def Frame.enter (s : PFCPSession) : Frame :=
  { s := s, callerArr := s.sortedPDR.arr, aliased := true }

/-- Leaving a method with a value receiver: the caller's struct keeps its scalar
fields and its slice header; the map tables and the caller's backing array are shared
with the copy and hold whatever the body wrote. -/
def Frame.leave (f : Frame) (caller : PFCPSession) : PFCPSession :=
  { caller with
    pdr := f.s.pdr
    far := f.s.far
    sortedPDR := { caller.sortedPDR with arr := f.callerArr } }

/-- The Go statement `s.sortedPDR = append(s.sortedPDR, pdr)` in a frame.  With spare
capacity the rule is written into cell `len` of the current array; otherwise the
elements move to a fresh array of capacity `growCap cap`. -/
def Frame.appendSortedPDR (rt : GoRuntime) (f : Frame) (p : PDR) : Frame :=
  let sl := f.s.sortedPDR
  if sl.len < sl.cap then
    let arr := sl.arr.take sl.len ++ p :: sl.arr.drop (sl.len + 1)
    { s := { f.s with sortedPDR := { arr := arr, cap := sl.cap, len := sl.len + 1 } }
      callerArr := if f.aliased then arr else f.callerArr
      aliased := f.aliased }
  else
    { s := { f.s with
             sortedPDR := { arr := sl.arr.take sl.len ++ [p], cap := rt.growCap sl.cap,
                            len := sl.len + 1 } }
      callerArr := f.callerArr
      aliased := false }

/-- The Go statement `sort.Sort(s.sortedPDR)` in a frame: cells `0 .. len - 1` of the
current array are reordered in place. -/
def Frame.sortSortedPDR (rt : GoRuntime) (f : Frame) : Frame :=
  let sl := f.s.sortedPDR
  let arr := rt.sortPDRs (sl.arr.take sl.len) ++ sl.arr.drop sl.len
  { s := { f.s with sortedPDR := { sl with arr := arr } }
    callerArr := if f.aliased then arr else f.callerArr
    aliased := f.aliased }

/-- The method `TimeUpdated`. -/
def PFCPSession.TimeUpdated (session : PFCPSession) : Nat := session.timeUpdated

/-- The method `GetPDRs`: the slice header stored in the struct. -/
def PFCPSession.GetPDRs (s : PFCPSession) : Slice := s.sortedPDR

/-- The method `GetFAR`. -/
def PFCPSession.GetFAR (s : PFCPSession) (farid : Nat) : Except Error FAR :=
  match s.far.get farid with
  | some far => .ok far
  | none => .error (.noFARWithId farid)

/-- The loop body of `updatePDRsUnsafe`: `s.pdr[id] = pdr` and the append. -/
def updatePDRsStep (rt : GoRuntime) (f : Frame) (e : Nat × PDR) : Frame :=
  let f1 : Frame := { f with s := { f.s with pdr := f.s.pdr.set e.1 e.2 } }
  f1.appendSortedPDR rt e.2

/-- The method `updatePDRsUnsafe` (pointer receiver: it works on the struct of the
frame).  `none` is the nil map.  This is what the method does when its assignments
`s.pdr[id] = pdr` go through; `PFCPSession.assignsToNilPDR` tells when the first of
them panics instead. -/
def updatePDRsUnsafe (rt : GoRuntime) (f : Frame) (pdrs : Option PDRMap) : Frame :=
  match pdrs with
  | none => f
  | some m => (m.entries.foldl (updatePDRsStep rt) f).sortSortedPDR rt

/-- The method `updateFARsUnsafe`, when its assignments `s.far[id] = far` go through;
`PFCPSession.assignsToNilFAR` tells when the first of them panics instead. -/
def updateFARsUnsafe (f : Frame) (fars : Option FARMap) : Frame :=
  match fars with
  | none => f
  | some m =>
    m.entries.foldl (fun g e => { g with s := { g.s with far := g.s.far.set e.1 e.2 } }) f

/-- The loop of `checkPDRsNotExistUnsafe` over the bindings still to visit. -/
def checkPDRsLoop (s : PFCPSession) : List (Nat × PDR) → Option Error
  | [] => none
  | (id, _) :: rest => if s.pdr.contains id then some (.pdrAlreadyExists id) else checkPDRsLoop s rest

/-- The method `checkPDRsNotExistUnsafe`. -/
def checkPDRsNotExistUnsafe (s : PFCPSession) (pdrs : Option PDRMap) : Option Error :=
  match pdrs with
  | none => none
  | some m => checkPDRsLoop s m.entries

/-- The loop of `checkFARsNotExistUnsafe` over the bindings still to visit. -/
def checkFARsLoop (s : PFCPSession) : List (Nat × FAR) → Option Error
  | [] => none
  | (id, _) :: rest => if s.far.contains id then some (.farAlreadyExists id) else checkFARsLoop s rest

/-- The method `checkFARsNotExistUnsafe`. -/
def checkFARsNotExistUnsafe (s : PFCPSession) (fars : Option FARMap) : Option Error :=
  match fars with
  | none => none
  | some m => checkFARsLoop s m.entries

/-- Whether `updatePDRsUnsafe(pdrs)` assigns to a nil table: the field `pdr` of the
struct holds nil and the loop over `pdrs` has a binding to visit.  The first
`s.pdr[id] = pdr` then panics ("assignment to entry in nil map"). -/
def PFCPSession.assignsToNilPDR (s : PFCPSession) (pdrs : Option PDRMap) : Bool :=
  match pdrs with
  | none => false
  | some m => s.pdrIsNil && !m.entries.isEmpty

/-- Whether `updateFARsUnsafe(fars)` assigns to a nil table, likewise. -/
def PFCPSession.assignsToNilFAR (s : PFCPSession) (fars : Option FARMap) : Bool :=
  match fars with
  | none => false
  | some m => s.farIsNil && !m.entries.isEmpty

/-- Whether one of the four update calls of `AddUpdatePDRsFARs` assigns to a nil
table.  No statement of the body assigns a map to `s.pdr` or `s.far`, so a field that
holds nil when the call starts holds nil at each of the four calls. -/
def PFCPSession.assignsToNilTable (s : PFCPSession)
    (createpdrs : Option PDRMap) (createfars : Option FARMap)
    (updatepdrs : Option PDRMap) (updatefars : Option FARMap) : Bool :=
  s.assignsToNilPDR createpdrs || s.assignsToNilFAR createfars ||
    s.assignsToNilPDR updatepdrs || s.assignsToNilFAR updatefars

/-- The body of the method `AddUpdatePDRsFARs`, statement by statement, on the struct
of the frame, when the assignments of the four update calls go through (the lock taken
first guards the copy's own mutex and has no effect on the rule state). -/
def AddUpdatePDRsFARsBody (rt : GoRuntime) (f0 : Frame)
    (createpdrs : Option PDRMap) (createfars : Option FARMap)
    (updatepdrs : Option PDRMap) (updatefars : Option FARMap) : Option Error × Frame :=
  match checkPDRsNotExistUnsafe f0.s createpdrs with
  | some err => (some err, f0)
  | none =>
    match checkFARsNotExistUnsafe f0.s createfars with
    | some err => (some err, f0)
    | none =>
      let f1 := updatePDRsUnsafe rt f0 createpdrs
      let f2 := updateFARsUnsafe f1 createfars
      let f3 := updatePDRsUnsafe rt f2 updatepdrs
      let f4 := updateFARsUnsafe f3 updatefars
      let f5 : Frame := { f4 with s := { f4.s with timeUpdated := (f4.s.timeUpdated + 1) % 2 ^ 32 } }
      (none, f5)

/-- The method `AddUpdatePDRsFARs`.  Its receiver is a value (`func (s PFCPSession)`),
so the body runs in a frame on a copy.  The two checks only read the tables; a check
that fails returns its error with nothing written.  After them the four update calls
assign to `s.pdr` and `s.far`: if one of them assigns to a nil table the call panics,
otherwise the result is the error returned (nil) and the caller's struct after the
call. -/
def PFCPSession.AddUpdatePDRsFARs (rt : GoRuntime) (s : PFCPSession)
    (createpdrs : Option PDRMap) (createfars : Option FARMap)
    (updatepdrs : Option PDRMap) (updatefars : Option FARMap) :
    Run (Option Error × PFCPSession) :=
  match checkPDRsNotExistUnsafe s createpdrs with
  | some err => .done (some err, s)
  | none =>
    match checkFARsNotExistUnsafe s createfars with
    | some err => .done (some err, s)
    | none =>
      if s.assignsToNilTable createpdrs createfars updatepdrs updatefars then .panic
      else
        let r := AddUpdatePDRsFARsBody rt (Frame.enter s) createpdrs createfars updatepdrs
          updatefars
        .done (r.1, r.2.leave s)

/-- The rule state that `newEstablishedPFCPSession` builds (lines 52-62 and 77-81 of
`pfcp/session.go`): the struct literal (both map fields taken from the arguments as they
are, an empty `sortedPDR`, counter 0), then the loop appending every rule of `pdrs`, then
`sort.Sort`.  A map argument is `none` when the caller passes a nil map: the field then
holds nil (`pdrIsNil`, `farIsNil`) and the loop over `pdrs` visits nothing.  The
constructor works on its own local struct, so the result is the struct of the frame
itself.  The F-SEID fields and the call of `Setup` are not part of this fragment; `Setup`
has a value receiver and changes no field of the struct built here. -/
def newSessionRuleState (rt : GoRuntime) (pdrs : Option PDRMap) (fars : Option FARMap) :
    PFCPSession :=
  let s0 : PFCPSession :=
    { isEstablished := false, localFseid := none, remoteFseid := none,
      pdr := pdrs.getD GoMap.empty, far := fars.getD GoMap.empty,
      sortedPDR := Slice.make0, timeUpdated := 0,
      pdrIsNil := pdrs.isNone, farIsNil := fars.isNone }
  let f := s0.pdr.entries.foldl (fun g e => g.appendSortedPDR rt e.2) (Frame.enter s0)
  (f.sortSortedPDR rt).s

/-! ## Messages and the external collaborators -/

/-- The type `pfcputil.MessageType` (`uint8`). -/
abbrev MessageType := Nat

/-- A datagram payload. -/
abbrev Bytes := List Nat

/-- A transport address (`net.Addr`). -/
abbrev Addr := String

/-- Information elements, as far as the core builds or reads them. -/
inductive IE where
  | recoveryTimeStamp (t : Nat)
  | nodeID (id : String)
  | cause (c : Nat)
  | offendingIE (t : Nat)
  | fseid (f : FSEID)
deriving DecidableEq, Repr

/-- A field of a message struct that points to an information element, together with
what the accessor of the codec (`FSEID()`, `NodeID()`) returns for it: the pointer is
nil (`absent`), the accessor returns an error (`malformed`; `Error.unexpectedEOF` is
`io.ErrUnexpectedEOF`), or it returns the decoded value (`present`). -/
inductive IEField (α : Type) where
  | absent
  | malformed (err : Error)
  | present (v : α)
deriving DecidableEq, Repr

/-- An undecoded grouped rule element (Create PDR, Create FAR, Update PDR, Update FAR). -/
abbrev RuleIE := List Nat

/-- What the core reads of a decoded message (`message.Message`): `MessageType()`,
`SEID()`, `Sequence()`, the information elements a constructor of the codec was given
(`ies`, for the messages the core builds), and the typed fields of the message structs
the core reads (`NodeID`, `CPFSEID`, `UPFSEID` and the rule lists, for the messages it
receives).  The codec picks the struct type from the message type, so the type
assertion `msg.Message.(*message.X)` succeeds exactly when `msgType` is the type of
`X`. -/
structure Message where
  msgType : MessageType
  seid : Nat := 0
  sequence : Nat
  ies : List IE := []
  NodeID : IEField String := .absent
  CPFSEID : IEField FSEID := .absent
  UPFSEID : IEField FSEID := .absent
  CreatePDR : List RuleIE := []
  CreateFAR : List RuleIE := []
  UpdatePDR : List RuleIE := []
  UpdateFAR : List RuleIE := []
deriving DecidableEq, Repr

/-- Message type numbers of the message codec (3GPP TS 29.244, table 7.3-1). -/
def MsgTypeHeartbeatRequest : MessageType := 1

/-- Heartbeat Response. -/
def MsgTypeHeartbeatResponse : MessageType := 2

/-- Association Setup Request. -/
def MsgTypeAssociationSetupRequest : MessageType := 5

/-- Association Setup Response. -/
def MsgTypeAssociationSetupResponse : MessageType := 6

/-- Session Establishment Request. -/
def MsgTypeSessionEstablishmentRequest : MessageType := 50

/-- Session Establishment Response. -/
def MsgTypeSessionEstablishmentResponse : MessageType := 51

/-- Session Modification Request. -/
def MsgTypeSessionModificationRequest : MessageType := 52

/-- Session Modification Response. -/
def MsgTypeSessionModificationResponse : MessageType := 53

/-- The collaborators that are not among the sources, taken as parameters: the
message-type classification of `pfcputil`, the message codec (`MarshalTo`, `Parse`) and
the socket (`WriteTo`, `ListenUDP`). -/
structure Env where
  IsMessageTypeRequest : MessageType → Bool
  IsMessageTypeResponse : MessageType → Bool
  MarshalTo : Message → Except Error Bytes
  Parse : Bytes → Option Message
  WriteTo : Bytes → Addr → Option Error
  ListenUDP : String → Option Error

/-- Modelled from the spec: the request-class message types (`pfcputil.IsMessageTypeRequest`
is not among the sources), by the numbering of table 7.3-1: heartbeat, PFD management,
association setup, update and release, node report, session set deletion, session
establishment, modification, deletion and report requests. -/
def stdIsMessageTypeRequest (t : MessageType) : Bool :=
  decide (t ∈ [1, 3, 5, 7, 9, 12, 14, 50, 52, 54, 56])

/-- Modelled from the spec: the response-class message types
(`pfcputil.IsMessageTypeResponse` is not among the sources): the responses to the
requests above and Version Not Supported Response. -/
def stdIsMessageTypeResponse (t : MessageType) : Bool :=
  decide (t ∈ [2, 4, 6, 8, 10, 11, 13, 15, 51, 53, 55, 57])

/-- The response type paired with a request type: in table 7.3-1 every response has the
number following that of its request. -/
def pairedResponseType (t : MessageType) : MessageType := t + 1

/-- A concrete environment for evaluating the code: the classification above, a codec
that writes a message as type, sequence number and SEID and reads it back, a socket
on which every operation succeeds. -/
def stdEnv : Env where
  IsMessageTypeRequest := stdIsMessageTypeRequest
  IsMessageTypeResponse := stdIsMessageTypeResponse
  MarshalTo := fun m => .ok [m.msgType, m.sequence, m.seid]
  Parse := fun b =>
    match b with
    | [t, sq, sd] => some { msgType := t, sequence := sq, seid := sd }
    | _ => none
  WriteTo := fun _ _ => none
  ListenUDP := fun _ => none

/-! ## The entity -/

/-- The struct `SessionsMap` of `pfcp/session_map.go`: sessions by the text of the
local address, then by local SEID.  The lock is left out. -/
structure SessionsMap where
  sessions : GoMap String (GoMap Nat PFCPSession)
deriving DecidableEq, Repr

/-- The constructor `NewSessionsMap`. -/
def NewSessionsMap : SessionsMap := { sessions := GoMap.empty }

/-- The struct `PFCPAssociation` of `association.go`: the identity of the peer and the
sessions of the association by remote SEID.  The liveness monitor, the lock and the
table `remoteSessions` are left out. -/
structure PFCPAssociation where
  nodeID : String
  sessions : GoMap Nat PFCPSession := GoMap.empty
deriving DecidableEq, Repr

/-- Modelled from the spec: the association table (`AssociationsMap` is not among the
sources), an identity-keyed mapping from peer node identity to association. -/
structure AssociationsMap where
  associations : GoMap String PFCPAssociation
deriving DecidableEq, Repr

/-- Modelled from the spec: the constructor `NewAssociationsMap` (not among the
sources), the empty table. -/
def NewAssociationsMap : AssociationsMap := { associations := GoMap.empty }

/-- The fields of the struct `PFCPEntity` other than the handler table (a handler
takes the entity as an argument, so the table is kept out of the type handlers act
on).  `writes` stands for `conn`: the datagrams handed to `conn.WriteTo`, oldest
first.  `sessionsMap` is the session table the handlers and the session constructor
reach through the entity (`GetPFCPSession`, `AddEstablishedPFCPSession`).  The two
locks are left out: calls are taken one at a time.  `nodeID` is the string that
`NewPFCPEntity` was given; the element built from it, which may be nil, is
`EntityCore.NodeID`. -/
structure EntityCore where
  nodeID : String
  recoveryTimeStamp : Option Nat := none
  writes : List (Bytes × Addr) := []
  nextRemoteSessionID : Nat := 1
  associationsMap : AssociationsMap := NewAssociationsMap
  kind : String := ""
  sessionsMap : SessionsMap := NewSessionsMap
deriving DecidableEq, Repr

/-- The struct `ReceivedMessage`; its field `Entity` is passed alongside. -/
structure ReceivedMessage where
  Message : Message
  SenderAddr : Addr
deriving DecidableEq, Repr

/-- The type `handler` (`func(receivedMessage ReceivedMessage) error`); `none` is the
nil function value. -/
abbrev handler := Option (ReceivedMessage → EntityCore → Run (Option Error × EntityCore))

/-- The struct `PFCPEntity`. -/
structure PFCPEntity extends EntityCore where
  handlers : GoMap MessageType handler

/-- The method `sendTo` (`SendTo` in `pfcp/entity.go`). -/
def EntityCore.sendTo (env : Env) (e : EntityCore) (msg : Bytes) (dst : Addr) :
    Option Error × EntityCore :=
  let e1 := { e with writes := e.writes ++ [(msg, dst)] }
  match env.WriteTo msg dst with
  | some err => (some err, e1)
  | none => (none, e1)

/-- The method `GetNextRemoteSessionID`. -/
def EntityCore.GetNextRemoteSessionID (e : EntityCore) : Nat × EntityCore :=
  let id := e.nextRemoteSessionID
  (id, { e with nextRemoteSessionID := (id + 1) % 2 ^ 64 })

/-- The method `GetNextRemoteSessionID` on the whole entity. -/
def PFCPEntity.GetNextRemoteSessionID (e : PFCPEntity) : Nat × PFCPEntity :=
  let r := e.toEntityCore.GetNextRemoteSessionID
  (r.1, { e with toEntityCore := r.2 })

/-- The method `RecoveryTimeStamp`. -/
def EntityCore.RecoveryTimeStamp (e : EntityCore) : Option Nat := e.recoveryTimeStamp

/-- The method `NodeID`: the pointer stored by `NewPFCPEntity`, which is
`ie.NewNodeIDHeuristic(nodeID)`.  The codec builds a Node ID element from an IPv4
address, an IPv6 address or a name, and returns nil when the string is empty, so the
pointer is nil (`none`) for the entity built from the empty string. -/
def EntityCore.NodeID (e : EntityCore) : Option IE :=
  if e.nodeID = "" then none else some (IE.nodeID e.nodeID)

/-- The method `ReplyTo` of `pfcp_entity.go`. -/
def ReceivedMessage.ReplyTo (env : Env) (receivedMessage : ReceivedMessage) (entity : EntityCore)
    (responseMessage : Pfcp.Message) : Option Error × EntityCore :=
  if !env.IsMessageTypeRequest receivedMessage.Message.msgType then
    (some .receivedShallBeRequest, entity)
  else if !env.IsMessageTypeResponse responseMessage.msgType then
    (some .responseShallBeResponse, entity)
  else if receivedMessage.Message.sequence ≠ responseMessage.sequence then
    (some .sequenceMismatch, entity)
  else
    match env.MarshalTo responseMessage with
    | .error err => (some err, entity)
    | .ok b => entity.sendTo env b receivedMessage.SenderAddr

/-- The pointers handed to a response constructor of the codec.  The constructor
ranges over them and reads the type of each (`switch i.Type`), so a nil pointer among
them makes it panic; otherwise it gets the elements. -/
def constructorElements (ies : List (Option IE)) : Run (List IE) :=
  if ies.all Option.isSome then .done ies.reduceOption else .panic

/-- The constructor `message.NewHeartbeatResponse(seq, ies...)` on elements none of
which is nil. -/
def NewHeartbeatResponse (seq : Nat) (ies : List IE) : Message :=
  { msgType := MsgTypeHeartbeatResponse, sequence := seq, ies := ies }

/-- The handler `handleHeartbeatRequest`; the element it hands to the constructor is
`msg.Entity.RecoveryTimeStamp()`, nil before the entity is started. -/
def handleHeartbeatRequest (env : Env) (msg : ReceivedMessage) (entity : EntityCore) :
    Run (Option Error × EntityCore) :=
  match constructorElements [entity.RecoveryTimeStamp.map IE.recoveryTimeStamp] with
  | .panic => .panic
  | .done l => .done (msg.ReplyTo env entity (NewHeartbeatResponse msg.Message.sequence l))

/-- The function `newDefaultPFCPEntityHandlers`. -/
def newDefaultPFCPEntityHandlers (env : Env) : GoMap MessageType handler :=
  (GoMap.empty).set MsgTypeHeartbeatRequest (some (handleHeartbeatRequest env))

/-- The constructor `NewPFCPEntity`. -/
def NewPFCPEntity (env : Env) (nodeID : String) (kind : String) : PFCPEntity :=
  { nodeID := nodeID
    recoveryTimeStamp := none
    handlers := newDefaultPFCPEntityHandlers env
    writes := []
    nextRemoteSessionID := 1
    associationsMap := NewAssociationsMap
    kind := kind }

/-- The method `listen`: the recovery timestamp is set first, then the socket is
opened (`now` is the reading of the clock). -/
def PFCPEntity.listen (env : Env) (now : Nat) (e : PFCPEntity) : Option Error × PFCPEntity :=
  let e1 : PFCPEntity := { e with recoveryTimeStamp := some now }
  (env.ListenUDP e1.nodeID, e1)

/-- The method `GetHandler`: the handler and the error, as the Go pair `(h, err)`. -/
def PFCPEntity.GetHandler (e : PFCPEntity) (t : MessageType) : handler × Option Error :=
  match e.handlers.get t with
  | some f => (f, none)
  | none => (none, some .unexpectedMessageType)

/-- The method `AddHandler`. -/
def PFCPEntity.AddHandler (env : Env) (e : PFCPEntity) (t : MessageType) (h : handler) :
    Option Error × PFCPEntity :=
  if e.RecoveryTimeStamp ≠ none then
    (some .alreadyStarted, e)
  else if !env.IsMessageTypeRequest t then
    (some .onlyRequestsHaveHandler, e)
  else
    (none, { e with handlers := e.handlers.set t h })

/-- What one pass through the body of the receive loop of `Start` leads to: the
goroutine returns, the loop goes on to the next `ReadFrom`, or the goroutine panics. -/
inductive LoopOutcome where
  | exit (err : Error)
  | next (e : PFCPEntity)
  | panic

/-- One pass through the body of the `for` loop in `Start`; `rd` is what
`conn.ReadFrom` returned.  The error of `GetHandler` is only logged, after which `f`
is called whatever it is; calling a nil function value panics.  The error a handler
returns is only logged. -/
def PFCPEntity.receiveStep (env : Env) (e : PFCPEntity) (rd : Except Error (Bytes × Addr)) :
    LoopOutcome :=
  match rd with
  | .error err => .exit err
  | .ok (buf, addr) =>
    match env.Parse buf with
    | none => .next e
    | some msg =>
      match (e.GetHandler msg.msgType).1 with
      | none => .panic
      | some f =>
        match f { Message := msg, SenderAddr := addr } e.toEntityCore with
        | .panic => .panic
        | .done r => .next { e with toEntityCore := r.2 }

/-! ## F-SEID accessors of a session -/

/-- The accessor `FSEID()` of the codec on an F-SEID pointer stored in a session.  The
accessor begins by reading the type field of the element, so through a nil pointer it
panics; an element built by `ie.NewFSEID` decodes to the fields it was built from. -/
def storedFSEID (p : Option FSEID) : Run (Except Error FSEID) :=
  match p with
  | none => .panic
  | some f => .done (.ok f)

/-- The method `HasIPv6` of `ie.FSEIDFields`. -/
def FSEID.HasIPv6 (f : FSEID) : Bool := f.IPv6Address.isSome

/-- The method `HasIPv4` of `ie.FSEIDFields`. -/
def FSEID.HasIPv4 (f : FSEID) : Bool := f.IPv4Address.isSome

/-- The `switch` of `LocalIPAddress` and `RemoteIPAddress` on the decoded fields. -/
def FSEID.pickAddress (f : FSEID) (notSet : Error) : Except Error String :=
  match f.IPv6Address, f.IPv4Address with
  | some a, _ => .ok a
  | none, some a => .ok a
  | none, none => .error notSet

/-- The method `LocalFSEID`. -/
def PFCPSession.LocalFSEID (s : PFCPSession) : Option FSEID := s.localFseid

/-- The method `LocalSEID`. -/
def PFCPSession.LocalSEID (s : PFCPSession) : Run (Except Error Nat) :=
  match storedFSEID s.localFseid with
  | .panic => .panic
  | .done (.error err) => .done (.error err)
  | .done (.ok fseid) => .done (.ok fseid.SEID)

/-- The method `LocalIPAddress`. -/
def PFCPSession.LocalIPAddress (s : PFCPSession) : Run (Except Error String) :=
  match storedFSEID s.localFseid with
  | .panic => .panic
  | .done (.error err) => .done (.error err)
  | .done (.ok fseid) => .done (fseid.pickAddress .localIPNotSet)

/-- The method `RemoteFSEID`. -/
def PFCPSession.RemoteFSEID (s : PFCPSession) : Option FSEID := s.remoteFseid

/-- The method `RemoteSEID`. -/
def PFCPSession.RemoteSEID (s : PFCPSession) : Run (Except Error Nat) :=
  match storedFSEID s.remoteFseid with
  | .panic => .panic
  | .done (.error err) => .done (.error err)
  | .done (.ok fseid) => .done (.ok fseid.SEID)

/-- The method `RemoteIPAddress`. -/
def PFCPSession.RemoteIPAddress (s : PFCPSession) : Run (Except Error String) :=
  match storedFSEID s.remoteFseid with
  | .panic => .panic
  | .done (.error err) => .done (.error err)
  | .done (.ok fseid) => .done (fseid.pickAddress .remoteIPNotSet)

/-! ## The session table and the association table -/

/-- The method `SessionsMap.Add`. -/
def SessionsMap.Add (sm : SessionsMap) (session : PFCPSession) : Run (Option Error × SessionsMap) :=
  match session.LocalIPAddress with
  | .panic => .panic
  | .done (.error err) => .done (some err, sm)
  | .done (.ok localIP) =>
    match session.LocalSEID with
    | .panic => .panic
    | .done (.error err) => .done (some err, sm)
    | .done (.ok localSEID) =>
      let sessions1 :=
        if sm.sessions.contains localIP then sm.sessions else sm.sessions.set localIP GoMap.empty
      let inner := (sessions1.get localIP).getD GoMap.empty
      .done (none, { sessions := sessions1.set localIP (inner.set localSEID session) })

/-- The method `SessionsMap.GetPFCPSessions`. -/
def SessionsMap.GetPFCPSessions (sm : SessionsMap) : List PFCPSession :=
  sm.sessions.entries.foldl (fun acc byseid => acc ++ byseid.2.entries.map Prod.snd) []

/-- Modelled from the spec: `GetPFCPSession(localIP, seid)` is declared in
`SessionsMapInterface` but its body is not among the sources.  It looks the session up
under the two keys and fails with a not-found error if either is absent. -/
def SessionsMap.GetPFCPSession (sm : SessionsMap) (localIP : String) (seid : Nat) :
    Except Error PFCPSession :=
  match sm.sessions.get localIP with
  | none => .error .sessionNotFound
  | some inner =>
    match inner.get seid with
    | none => .error .sessionNotFound
    | some session => .ok session

/-- The session stored under a key pair is replaced by its state after a call.  The
table holds a session as a struct whose tables and backing array are shared with every
copy of it, so what a method wrote through a copy is seen through the table. -/
def SessionsMap.store (sm : SessionsMap) (localIP : String) (seid : Nat) (session : PFCPSession) :
    SessionsMap :=
  match sm.sessions.get localIP with
  | none => sm
  | some inner => { sessions := sm.sessions.set localIP (inner.set seid session) }

/-- Modelled from the spec: `AssociationsMap.Get` (not among the sources) fails with
not-found if no association is stored for the identity. -/
def AssociationsMap.Get (am : AssociationsMap) (nid : String) : Except Error PFCPAssociation :=
  match am.associations.get nid with
  | some a => .ok a
  | none => .error .noActiveAssociation

/-- Modelled from the spec: `AssociationsMap.CheckNonExist` (not among the sources), the
existence probe that does not fail: true when no association is stored for the
identity. -/
def AssociationsMap.CheckNonExist (am : AssociationsMap) (nid : String) : Bool :=
  !am.associations.contains nid

/-- Modelled from the spec: `AssociationsMap.Add` (not among the sources) fails if an
entry for the identity of the association already exists, and stores the association
under its identity otherwise. -/
def AssociationsMap.Add (am : AssociationsMap) (a : PFCPAssociation) :
    Option Error × AssociationsMap :=
  if am.associations.contains a.nodeID then (some .associationAlreadyExists, am)
  else (none, { associations := am.associations.set a.nodeID a })

/-- The method `GetPFCPAssociation` of the entity. -/
def EntityCore.GetPFCPAssociation (e : EntityCore) (nid : String) : Except Error PFCPAssociation :=
  e.associationsMap.Get nid

/-- Modelled from the spec: the method `GetPFCPSession` of the entity (not among the
sources) looks the session up in the session table of the entity. -/
def EntityCore.GetPFCPSession (e : EntityCore) (localIP : String) (seid : Nat) :
    Except Error PFCPSession :=
  e.sessionsMap.GetPFCPSession localIP seid

/-- Modelled from the spec: the method `AddEstablishedPFCPSession` of the entity (not
among the sources; "Add to SessionFSEIDMap of LocalEntity" in `pfcp/session.go`) adds
the session to the session table of the entity.  Its caller drops the result. -/
def EntityCore.AddEstablishedPFCPSession (e : EntityCore) (session : PFCPSession) : Run EntityCore :=
  match e.sessionsMap.Add session with
  | .panic => .panic
  | .done r => .done { e with sessionsMap := r.2 }

/-- The method `IsUserPlane` of `pfcp/entity.go`, as written there. -/
def EntityCore.IsUserPlane (e : EntityCore) : Bool := decide (e.kind = "CP")

/-- The method `IsControlPlane` of `pfcp/entity.go`, as written there. -/
def EntityCore.IsControlPlane (e : EntityCore) : Bool := decide (e.kind = "UP")

/-! ## Collaborators of the session and handler code -/

/-- A peer (`PFCPPeer`), known by its node identity. -/
structure PFCPPeer where
  nodeID : String
deriving DecidableEq, Repr

/-- The collaborators of the session, association and handler code that are not among
the sources, taken as parameters.

* `NodeIDType`, `NodeIDValue`: the first payload byte (0 IPv4, 1 IPv6, 2 FQDN) and the
  value returned by `NodeID()` for the node-identity element the entity was built with.
* `ResolveIPAddr network name`: `net.ResolveIPAddr`, the address as text.
* `IPString`: the text of the IP of a sender address.
* `NewPDRs`, `NewFARs`: the rule parsers of `pfcprules`; on failure the error, the cause
  and the offending element type.
* `PDRID`, `FARID`: the method `ID()` of a rule.
* `NewCreatePDRs`, `NewCreateFARs`: the elements built from the tables of a session.
* `Send`: the method `Send` of the association (request out, correlated response in).
* `newPFCPPeerUP`, `NewEstablishedPFCPAssociation`: the peer constructor and the method
  of the peer that builds its association.
* `CreateSession`: the three-argument `CreateSession` of the association that
  `pfcp/handlers.go` calls. -/
structure Ext where
  NodeIDType : String → Nat
  NodeIDValue : String → Except Error String
  ResolveIPAddr : String → String → Except Error String
  IPString : Addr → String
  NewPDRs : List RuleIE → Except (Error × Nat × Nat) (List (Option PDR))
  NewFARs : List RuleIE → Except (Error × Nat × Nat) (List (Option FAR))
  PDRID : PDR → Except Error Nat
  FARID : FAR → Except Error Nat
  NewCreatePDRs : PDRMap → List RuleIE
  NewCreateFARs : FARMap → List RuleIE
  Send : Message → Except Error Message
  newPFCPPeerUP : EntityCore → IEField String → Except Error PFCPPeer
  NewEstablishedPFCPAssociation : PFCPPeer → Except Error PFCPAssociation
  CreateSession : EntityCore → PFCPAssociation → IEField FSEID → List (Option PDR) →
    List (Option FAR) → Run (Except Error PFCPSession × EntityCore)

/-! ## Session setup -/

/-- The node-identity element of the entity as a field of a message the entity builds. -/
def EntityCore.nodeIDField (ext : Ext) (e : EntityCore) : IEField String :=
  match ext.NodeIDValue e.nodeID with
  | .ok nid => .present nid
  | .error err => .malformed err

/-- The request built in the initiator branch of `Setup`:
`message.NewSessionEstablishmentRequest(0, 0, 0, 0, 0, ies...)` with the node identity
of the local entity, the local F-SEID and the elements made from the two tables. -/
def setupRequest (ext : Ext) (entity : EntityCore) (s : PFCPSession) : Message :=
  { msgType := MsgTypeSessionEstablishmentRequest
    seid := 0
    sequence := 0
    NodeID := entity.nodeIDField ext
    CPFSEID := match s.localFseid with
      | some f => .present f
      | none => .absent
    CreatePDR := ext.NewCreatePDRs s.pdr
    CreateFAR := ext.NewCreateFARs s.far }

/-- The body of the method `Setup`, on the struct it is given: the outcome and the
struct as the body leaves it.  `entity` is `s.association.LocalEntity()`.  In the
initiator branch the request constructor is handed the Node ID pointer of the entity
and the local F-SEID pointer of the session, whatever they are, before the elements
made from the two tables; a failed type assertion is logged and the body goes on with
a nil `ser`, whose field `UPFSEID` cannot be read; a nil `UPFSEID` cannot be decoded
either. -/
def SetupBody (ext : Ext) (entity : EntityCore) (s : PFCPSession) : Run (Option Error × PFCPSession) :=
  if s.isEstablished then .done (some .sessionAlreadyEstablished, s)
  else if entity.IsUserPlane then .done (none, { s with isEstablished := true })
  else if entity.IsControlPlane then
    match constructorElements [entity.NodeID, s.localFseid.map IE.fseid] with
    | .panic => .panic
    | .done _ =>
      match ext.Send (setupRequest ext entity s) with
      | .error err => .done (some err, s)
      | .ok resp =>
        if resp.msgType = MsgTypeSessionEstablishmentResponse then
          match resp.UPFSEID with
          | .absent => .panic
          | .malformed err => .done (some err, s)
          | .present f => .done (none, { s with remoteFseid := some f, isEstablished := true })
        else .panic
  else .done (some .notCPorUP, s)

/-- The method `Setup`.  Its receiver is a value (`func (s PFCPSession) Setup()`): the
body runs on a copy and writes no table, so the caller's struct is what it was. -/
def PFCPSession.Setup (ext : Ext) (entity : EntityCore) (s : PFCPSession) :
    Run (Option Error × PFCPSession) :=
  match SetupBody ext entity s with
  | .panic => .panic
  | .done r => .done (r.1, s)

/-- The two `if fseid != nil` blocks of `newEstablishedPFCPSession`: the fields are read
(`fseidFields.SEID`) before the error of `FSEID()` is tested, so an element that does
not decode makes the constructor panic. -/
def copyFSEID (fseid : IEField FSEID) : Run (Option FSEID) :=
  match fseid with
  | .absent => .done none
  | .malformed _ => .panic
  | .present f => .done (some f)

/-- The constructor `newEstablishedPFCPSession`; `entity` is
`association.LocalEntity()`, and a map argument is `none` when the caller passes a nil
map.  The result is the session returned (or the error) and the entity with the session
added to its session table. -/
def newEstablishedPFCPSession (rt : GoRuntime) (ext : Ext) (entity : EntityCore)
    (fseid rfseid : IEField FSEID) (pdrs : Option PDRMap) (fars : Option FARMap) :
    Run (Except Error PFCPSession × EntityCore) :=
  match copyFSEID fseid with
  | .panic => .panic
  | .done localFseid =>
    match copyFSEID rfseid with
    | .panic => .panic
    | .done remoteFseid =>
      let s : PFCPSession :=
        { newSessionRuleState rt pdrs fars with localFseid := localFseid, remoteFseid := remoteFseid }
      match s.Setup ext entity with
      | .panic => .panic
      | .done (some err, _) => .done (.error err, entity)
      | .done (none, s1) =>
        match entity.AddEstablishedPFCPSession s1 with
        | .panic => .panic
        | .done entity1 => .done (.ok s1, entity1)

/-! ## Creating a session under an association (`association.go`) -/

/-- The function `NewFSEID` of `association.go`. -/
def NewFSEID (seid : Nat) (v4 v6 : Option String) : Except Error FSEID :=
  if v4 = none ∧ v6 = none then .error .cannotCreateFSEID
  else .ok { SEID := seid, IPv4Address := v4, IPv6Address := v6 }

/-- The method `getFSEID`; `entity` is `association.Srv`.  The result `none` is the nil
element returned when no case of the `switch` applies.  In the FQDN case `ip4.IP` and
`ip6.IP` are both read once one of the two resolutions succeeded; reading the one that
failed goes through a nil pointer. -/
def PFCPAssociation.getFSEID (ext : Ext) (entity : EntityCore) (seid : Nat) :
    Run (Except Error (Option FSEID)) :=
  match ext.NodeIDValue entity.nodeID with
  | .error err => .done (.error err)
  | .ok nodeID =>
    if ext.NodeIDType entity.nodeID = 0 then
      match ext.ResolveIPAddr "ip4" nodeID with
      | .error err => .done (.error err)
      | .ok ip4 =>
        match NewFSEID seid (some ip4) none with
        | .error err => .done (.error err)
        | .ok f => .done (.ok (some f))
    else if ext.NodeIDType entity.nodeID = 1 then
      match ext.ResolveIPAddr "ip6" nodeID with
      | .error err => .done (.error err)
      | .ok ip6 =>
        match NewFSEID seid none (some ip6) with
        | .error err => .done (.error err)
        | .ok f => .done (.ok (some f))
    else if ext.NodeIDType entity.nodeID = 2 then
      match ext.ResolveIPAddr "ip4" nodeID, ext.ResolveIPAddr "ip6" nodeID with
      | .error _, .error _ => .done (.error .cannotResolveNodeID)
      | .ok ip4, .ok ip6 =>
        .done (.ok (some { SEID := seid, IPv4Address := some ip4, IPv6Address := some ip6 }))
      | _, _ => .panic
    else .done (.ok none)

/-- The two loops of `CreateSession` and of the session modification handler that index
rules by id: a nil rule is skipped, a rule whose `ID()` fails ends the loop with the
error, any other rule is assigned to its id. -/
def rulesToMap {R : Type} (idOf : R → Except Error Nat) :
    List (Option R) → GoMap Nat R → Except Error (GoMap Nat R)
  | [], m => .ok m
  | none :: rest, m => rulesToMap idOf rest m
  | some r :: rest, m =>
    match idOf r with
    | .error err => .error err
    | .ok id => rulesToMap idOf rest (m.set id r)

/-- Modelled from the spec: `NewPFCPSession(localFseid, rseid)` followed by `AddFARs`
and `AddPDRs` (none of the three is among the sources): a session with the local
F-SEID, the remote session id and the two tables of rules indexed by identifier. -/
def NewPFCPSession (rt : GoRuntime) (localFseid : Option FSEID) (rseid : Nat)
    (pdrs : PDRMap) (fars : FARMap) : PFCPSession :=
  { newSessionRuleState rt (some pdrs) (some fars) with
    localFseid := localFseid, remoteFseid := some { SEID := rseid } }

/-- The method `CreateSession` of `association.go`; `entity` is `association.Srv`.  A
list argument is `none` when the slice is nil.  The result is the session (or the
error) and the association after the call. -/
def PFCPAssociation.CreateSession (rt : GoRuntime) (ext : Ext) (entity : EntityCore)
    (association : PFCPAssociation) (seid rseid : Nat)
    (pdrs : Option (List (Option PDR))) (fars : Option (List (Option FAR))) :
    Run (Except Error PFCPSession × PFCPAssociation) :=
  match PFCPAssociation.getFSEID ext entity seid with
  | .panic => .panic
  | .done (.error err) => .done (.error err, association)
  | .done (.ok localFseid) =>
    match pdrs with
    | none => .done (.error .noPDRInSession, association)
    | some pdrs =>
      match rulesToMap ext.PDRID pdrs GoMap.empty with
      | .error err => .done (.error err, association)
      | .ok tmpPDR =>
        match fars with
        | none => .done (.error .noFARInSession, association)
        | some fars =>
          match rulesToMap ext.FARID fars GoMap.empty with
          | .error err => .done (.error err, association)
          | .ok tmpFAR =>
            let s := NewPFCPSession rt localFseid rseid tmpPDR tmpFAR
            .done (.ok s, { association with sessions := association.sessions.set rseid s })

/-! ## Request handlers (`pfcp/handlers.go`) -/

/-- Cause values of the codec (3GPP TS 29.244, table 8.2.1-1): Request accepted. -/
def CauseRequestAccepted : Nat := 1

/-- Request rejected. -/
def CauseRequestRejected : Nat := 64

/-- Session context not found. -/
def CauseSessionContextNotFound : Nat := 65

/-- Mandatory IE missing. -/
def CauseMandatoryIEMissing : Nat := 66

/-- Invalid length. -/
def CauseInvalidLength : Nat := 68

/-- Mandatory IE incorrect. -/
def CauseMandatoryIEIncorrect : Nat := 69

/-- No established PFCP Association. -/
def CauseNoEstablishedPFCPAssociation : Nat := 72

/-- Rule creation/modification Failure. -/
def CauseRuleCreationModificationFailure : Nat := 73

/-- Element type numbers of the codec (table 8.1.2-1): Create PDR. -/
def IETypeCreatePDR : Nat := 1

/-- Create FAR. -/
def IETypeCreateFAR : Nat := 3

/-- F-SEID. -/
def IETypeFSEID : Nat := 57

/-- Node ID. -/
def IETypeNodeID : Nat := 60

/-- The first F-SEID among the elements given to a response constructor, as the typed
field of the response. -/
def firstFSEID : List IE → IEField FSEID
  | [] => .absent
  | IE.fseid f :: _ => .present f
  | _ :: rest => firstFSEID rest

/-- The constructor `message.NewSessionEstablishmentResponse(mp, fo, seid, seq, pri,
ies...)` on elements none of which is nil. -/
def NewSessionEstablishmentResponse (seid seq : Nat) (ies : List IE) : Message :=
  { msgType := MsgTypeSessionEstablishmentResponse
    seid := seid
    sequence := seq
    ies := ies
    UPFSEID := firstFSEID ies }

/-- The constructor `message.NewSessionModificationResponse(mp, fo, seid, seq, pri,
ies...)` on elements none of which is nil. -/
def NewSessionModificationResponse (seid seq : Nat) (ies : List IE) : Message :=
  { msgType := MsgTypeSessionModificationResponse
    seid := seid
    sequence := seq
    ies := ies }

/-- The constructor `message.NewAssociationSetupResponse(seq, ies...)` on elements none
of which is nil. -/
def NewAssociationSetupResponse (seq : Nat) (ies : List IE) : Message :=
  { msgType := MsgTypeAssociationSetupResponse
    sequence := seq
    ies := ies }

/-- The cause of a response, if it carries one. -/
def Message.cause (m : Message) : Option Nat :=
  m.ies.findSome? (fun i => match i with
    | IE.cause c => some c
    | _ => none)

/-- The offending element type of a response, if it carries one. -/
def Message.offendingIE (m : Message) : Option Nat :=
  m.ies.findSome? (fun i => match i with
    | IE.offendingIE t => some t
    | _ => none)

/-- How the body of a handler ends: `return msg.ReplyTo(res)`, `return err`, or a
panic; with the entity as the body leaves it. -/
inductive HandlerStep where
  | reply (res : Message) (entity : EntityCore)
  | ret (err : Option Error) (entity : EntityCore)
  | panic
deriving DecidableEq, Repr

/-- The end of a handler body carried out: the reply goes through `ReplyTo`. -/
def HandlerStep.finish (env : Env) (msg : ReceivedMessage) :
    HandlerStep → Run (Option Error × EntityCore)
  | .reply res entity => .done (msg.ReplyTo env entity res)
  | .ret err entity => .done (err, entity)
  | .panic => .panic

/-- The two statements `res := message.NewSessionEstablishmentResponse(0, 0, seid, seq,
0, ies...)` and `return msg.ReplyTo(res)`, for pointers `ies` that may be nil. -/
def replySessionEstablishmentResponse (seid seq : Nat) (ies : List (Option IE))
    (entity : EntityCore) : HandlerStep :=
  match constructorElements ies with
  | .panic => .panic
  | .done l => .reply (NewSessionEstablishmentResponse seid seq l) entity

/-- The two statements `res := message.NewAssociationSetupResponse(seq, ies...)` and
`return msg.ReplyTo(res)`, for pointers `ies` that may be nil. -/
def replyAssociationSetupResponse (seq : Nat) (ies : List (Option IE))
    (entity : EntityCore) : HandlerStep :=
  match constructorElements ies with
  | .panic => .panic
  | .done l => .reply (NewAssociationSetupResponse seq l) entity

/-- The cause chosen for an element that does not decode: Invalid length for
`io.ErrUnexpectedEOF`, Mandatory IE incorrect otherwise. -/
def decodeFailureCause (err : Error) : Nat :=
  if err = .unexpectedEOF then CauseInvalidLength else CauseMandatoryIEIncorrect

/-- The function `checkSenderAssociation`. -/
def checkSenderAssociation (ext : Ext) (entity : EntityCore) (senderAddr : Addr) :
    Except Error PFCPAssociation :=
  match entity.GetPFCPAssociation (ext.IPString senderAddr) with
  | .ok association => .ok association
  | .error _ => .error .noActiveAssociation

/-- The body of `handleSessionEstablishmentRequest`, up to its final statement.  Every
response is built with `msg.Entity.NodeID()` as its first element, whatever that
pointer is. -/
def handleSessionEstablishmentRequestStep (ext : Ext) (msg : ReceivedMessage)
    (entity : EntityCore) : HandlerStep :=
  let m := msg.Message
  let nodeID := entity.NodeID
  if m.msgType ≠ MsgTypeSessionEstablishmentRequest then .ret (some .issueWithRequest) entity
  else
    match m.CPFSEID with
    | .absent =>
      replySessionEstablishmentResponse 0 m.sequence
        [nodeID, some (.cause CauseMandatoryIEMissing), some (.offendingIE IETypeFSEID)] entity
    | .malformed err =>
      replySessionEstablishmentResponse 0 m.sequence
        [nodeID, some (.cause (decodeFailureCause err)), some (.offendingIE IETypeFSEID)] entity
    | .present fseid =>
      let rseid := fseid.SEID
      match checkSenderAssociation ext entity msg.SenderAddr with
      | .error _ =>
        replySessionEstablishmentResponse rseid m.sequence
          [nodeID, some (.cause CauseNoEstablishedPFCPAssociation)] entity
      | .ok _ =>
        match m.NodeID with
        | .absent =>
          replySessionEstablishmentResponse rseid m.sequence
            [nodeID, some (.cause CauseMandatoryIEMissing), some (.offendingIE IETypeNodeID)] entity
        | .malformed err =>
          replySessionEstablishmentResponse rseid m.sequence
            [nodeID, some (.cause (decodeFailureCause err)), some (.offendingIE IETypeNodeID)] entity
        | .present nid =>
          match entity.GetPFCPAssociation nid with
          | .error _ =>
            replySessionEstablishmentResponse rseid m.sequence
              [nodeID, some (.cause CauseNoEstablishedPFCPAssociation)] entity
          | .ok association =>
            if m.CreatePDR.isEmpty then
              replySessionEstablishmentResponse rseid m.sequence
                [nodeID, some (.cause CauseMandatoryIEMissing),
                  some (.offendingIE IETypeCreatePDR)] entity
            else if m.CreateFAR.isEmpty then
              replySessionEstablishmentResponse rseid m.sequence
                [nodeID, some (.cause CauseMandatoryIEMissing),
                  some (.offendingIE IETypeCreateFAR)] entity
            else
              match ext.NewPDRs m.CreatePDR with
              | .error (_, cause, offendingie) =>
                replySessionEstablishmentResponse rseid m.sequence
                  [nodeID, some (.cause cause), some (.offendingIE offendingie)] entity
              | .ok pdrs =>
                match ext.NewFARs m.CreateFAR with
                | .error (_, cause, offendingie) =>
                  replySessionEstablishmentResponse rseid m.sequence
                    [nodeID, some (.cause cause), some (.offendingIE offendingie)] entity
                | .ok fars =>
                  match ext.CreateSession entity association m.CPFSEID pdrs fars with
                  | .panic => .panic
                  | .done (.error _, entity1) =>
                    replySessionEstablishmentResponse rseid m.sequence
                      [entity1.NodeID,
                        some (.cause CauseRuleCreationModificationFailure)] entity1
                  | .done (.ok session, entity1) =>
                    replySessionEstablishmentResponse rseid m.sequence
                      [entity1.NodeID, some (.cause CauseRequestAccepted),
                        session.LocalFSEID.map IE.fseid] entity1

/-- The handler `handleSessionEstablishmentRequest`. -/
def handleSessionEstablishmentRequest (env : Env) (ext : Ext) (msg : ReceivedMessage)
    (entity : EntityCore) : Run (Option Error × EntityCore) :=
  (handleSessionEstablishmentRequestStep ext msg entity).finish env msg

/-- The `switch` of `handleSessionModificationRequest` that turns the node identity of
the entity into the text of its local address.  With no case applying `localip` stays
the empty string. -/
def localIPOfNodeID (ext : Ext) (entity : EntityCore) (localnodeid : String) : Except Error String :=
  if ext.NodeIDType entity.nodeID = 0 then ext.ResolveIPAddr "ip4" localnodeid
  else if ext.NodeIDType entity.nodeID = 1 then ext.ResolveIPAddr "ip6" localnodeid
  else if ext.NodeIDType entity.nodeID = 2 then
    match ext.ResolveIPAddr "ip6" localnodeid, ext.ResolveIPAddr "ip4" localnodeid with
    | .ok ip6, _ => .ok ip6
    | .error _, .ok ip4 => .ok ip4
    | .error _, .error _ => .error .cannotResolveNodeID
  else .ok ""

/-- Why one of the four parse-and-index stages of the session modification handler
stops: the parser failed (cause and offending element type), or `ID()` of a rule
failed. -/
inductive StageFailure where
  | parse (cause offendingie : Nat)
  | id (err : Error)
deriving DecidableEq, Repr

/-- A stage on a list of PDR elements: `pfcprule.NewPDRs`, then the loop filling a
fresh map. -/
def pdrStage (ext : Ext) (ies : List RuleIE) : Except StageFailure PDRMap :=
  match ext.NewPDRs ies with
  | .error (_, cause, offendingie) => .error (.parse cause offendingie)
  | .ok pdrs =>
    match rulesToMap ext.PDRID pdrs GoMap.empty with
    | .error err => .error (.id err)
    | .ok m => .ok m

/-- A stage on a list of FAR elements: `pfcprule.NewFARs`, then the loop filling a
fresh map. -/
def farStage (ext : Ext) (ies : List RuleIE) : Except StageFailure FARMap :=
  match ext.NewFARs ies with
  | .error (_, cause, offendingie) => .error (.parse cause offendingie)
  | .ok fars =>
    match rulesToMap ext.FARID fars GoMap.empty with
    | .error err => .error (.id err)
    | .ok m => .ok m

/-- How the session modification handler ends when a stage stops: on a parser failure
it replies with the message built by `message.NewSessionEstablishmentResponse`, on a
failure of `ID()` it returns the error.  The first element is `msg.Entity.NodeID()`,
the pointer that the handler dereferenced when it began (`ielocalnodeid.NodeID()`). -/
def stageFailureStep (entity : EntityCore) (rseid seq : Nat) : StageFailure → HandlerStep
  | .parse cause offendingie =>
    .reply (NewSessionEstablishmentResponse rseid seq
      [IE.nodeID entity.nodeID, .cause cause, .offendingIE offendingie]) entity
  | .id err => .ret (some err) entity

/-- The body of `handleSessionModificationRequest`, up to its final statement. -/
def handleSessionModificationRequestStep (rt : GoRuntime) (ext : Ext) (msg : ReceivedMessage)
    (entity : EntityCore) : HandlerStep :=
  let m := msg.Message
  if m.msgType ≠ MsgTypeSessionModificationRequest then .ret (some .issueWithRequest) entity
  else
    match ext.NodeIDValue entity.nodeID with
    | .error err => .ret (some err) entity
    | .ok localnodeid =>
      match localIPOfNodeID ext entity localnodeid with
      | .error err => .ret (some err) entity
      | .ok localip =>
        match entity.GetPFCPSession localip m.seid with
        | .error _ =>
          .reply (NewSessionModificationResponse 0 m.sequence
            [.cause CauseSessionContextNotFound]) entity
        | .ok session =>
          match session.RemoteSEID with
          | .panic => .panic
          | .done (.error err) => .ret (some err) entity
          | .done (.ok rseid) =>
            match pdrStage ext m.CreatePDR with
            | .error f => stageFailureStep entity rseid m.sequence f
            | .ok createpdrsmap =>
              match farStage ext m.CreateFAR with
              | .error f => stageFailureStep entity rseid m.sequence f
              | .ok createfarsmap =>
                match pdrStage ext m.UpdatePDR with
                | .error f => stageFailureStep entity rseid m.sequence f
                | .ok updatepdrsmap =>
                  match farStage ext m.UpdateFAR with
                  | .error f => stageFailureStep entity rseid m.sequence f
                  | .ok updatefarsmap =>
                    match session.AddUpdatePDRsFARs rt (some createpdrsmap)
                      (some createfarsmap) (some updatepdrsmap) (some updatefarsmap) with
                    | .panic => .panic
                    | .done r =>
                      let entity1 : EntityCore :=
                        { entity with sessionsMap := entity.sessionsMap.store localip m.seid r.2 }
                      match r.1 with
                      | some _ =>
                        .reply (NewSessionModificationResponse rseid m.sequence
                          [.cause CauseRequestRejected]) entity1
                      | none =>
                        .reply (NewSessionModificationResponse rseid m.sequence
                          [.cause CauseRequestAccepted]) entity1

/-- The handler `handleSessionModificationRequest`. -/
def handleSessionModificationRequest (rt : GoRuntime) (env : Env) (ext : Ext)
    (msg : ReceivedMessage) (entity : EntityCore) : Run (Option Error × EntityCore) :=
  (handleSessionModificationRequestStep rt ext msg entity).finish env msg

/-- The method `NewEstablishedPFCPAssociation` of the entity.  The test
`e.RecoveryTimeStamp == nil` compares a method value with nil and never holds, so it
has no branch here.  `nodeID.NodeID()` on a nil element reads through a nil pointer. -/
def EntityCore.NewEstablishedPFCPAssociation (ext : Ext) (e : EntityCore) (nodeID : IEField String) :
    Run (Except Error PFCPAssociation × EntityCore) :=
  match ext.newPFCPPeerUP e nodeID with
  | .error err => .done (.error err, e)
  | .ok peer =>
    match nodeID with
    | .absent => .panic
    | .malformed err => .done (.error err, e)
    | .present nid =>
      if !e.associationsMap.CheckNonExist nid then .done (.error .associationAlreadyExists, e)
      else
        match ext.NewEstablishedPFCPAssociation peer with
        | .error err => .done (.error err, e)
        | .ok a =>
          match e.associationsMap.Add a with
          | (some err, _) => .done (.error err, e)
          | (none, am) => .done (.ok a, { e with associationsMap := am })

/-- The body of `handleAssociationSetupRequest`, up to its final statement.  Of the
cases of its `switch`, `msg.Message == nil` and `msg.Entity == nil` cannot hold once
the type assertion succeeded and the entity is there, and `msg.Sequence == nil`
compares a method value with nil; the cases `msg.Entity.NodeID() == nil` and
`msg.Entity.RecoveryTimeStamp() == nil` are tested in this order. -/
def handleAssociationSetupRequestStep (ext : Ext) (msg : ReceivedMessage) (entity : EntityCore) :
    HandlerStep :=
  let m := msg.Message
  if m.msgType ≠ MsgTypeAssociationSetupRequest then .ret (some .issueWithRequest) entity
  else if entity.NodeID = none then .ret (some .entityNodeIDIsNil) entity
  else if entity.RecoveryTimeStamp = none then .ret (some .recoveryTimeStampIsNil) entity
  else
    match entity.NewEstablishedPFCPAssociation ext m.NodeID with
    | .panic => .panic
    | .done (.error _, entity1) =>
      replyAssociationSetupResponse m.sequence
        [entity1.NodeID, some (.cause CauseRequestRejected),
          entity1.RecoveryTimeStamp.map IE.recoveryTimeStamp] entity1
    | .done (.ok _, entity1) =>
      replyAssociationSetupResponse m.sequence
        [entity1.NodeID, some (.cause CauseRequestAccepted),
          entity1.RecoveryTimeStamp.map IE.recoveryTimeStamp] entity1

/-- The handler `handleAssociationSetupRequest`. -/
def handleAssociationSetupRequest (env : Env) (ext : Ext) (msg : ReceivedMessage)
    (entity : EntityCore) : Run (Option Error × EntityCore) :=
  (handleAssociationSetupRequestStep ext msg entity).finish env msg

/-! ## A concrete set of collaborators -/

/-- A sample rule parser: an element `[id, precedence, farid]` is a PDR, anything else
fails with cause Mandatory IE incorrect and offending element Create PDR. -/
def stdNewPDRs : List RuleIE → Except (Error × Nat × Nat) (List (Option PDR))
  | [] => .ok []
  | [i, p, f] :: rest =>
    match stdNewPDRs rest with
    | .ok l => .ok (some { id := i, precedence := p, farid := f } :: l)
    | .error e => .error e
  | _ :: _ => .error (.ruleParseFailed, CauseMandatoryIEIncorrect, IETypeCreatePDR)

/-- A sample rule parser: an element `[id]` is a FAR, anything else fails with cause
Mandatory IE incorrect and offending element Create FAR. -/
def stdNewFARs : List RuleIE → Except (Error × Nat × Nat) (List (Option FAR))
  | [] => .ok []
  | [i] :: rest =>
    match stdNewFARs rest with
    | .ok l => .ok (some { id := i } :: l)
    | .error e => .error e
  | _ :: _ => .error (.ruleParseFailed, CauseMandatoryIEIncorrect, IETypeCreateFAR)

/-- A concrete set of collaborators for evaluating the code.  The node identity
`upf.example.org` is an FQDN that resolves for IPv4 only (to `10.0.0.1`), `2001:db8::1`
is an IPv6 address, every other identity an IPv4 address that resolves to itself.  The
peer answers a Session Establishment Request with a Session Establishment Response
carrying the F-SEID 77 at `10.0.0.2`.  Peers and associations are created without
failure; the three-argument `CreateSession` refuses every request. -/
def stdExt : Ext where
  NodeIDType := fun n => if n = "upf.example.org" then 2 else if n = "2001:db8::1" then 1 else 0
  NodeIDValue := fun n => .ok n
  ResolveIPAddr := fun network name =>
    if name = "upf.example.org" then
      if network = "ip4" then .ok "10.0.0.1" else .error .resolveFailed
    else .ok name
  IPString := fun a => a
  NewPDRs := stdNewPDRs
  NewFARs := stdNewFARs
  PDRID := fun p => .ok p.id
  FARID := fun f => .ok f.id
  NewCreatePDRs := fun m => m.entries.map (fun e => [e.2.id, e.2.precedence, e.2.farid])
  NewCreateFARs := fun m => m.entries.map (fun e => [e.2.id])
  Send := fun m =>
    .ok { msgType := MsgTypeSessionEstablishmentResponse, sequence := m.sequence,
          UPFSEID := .present { SEID := 77, IPv4Address := some "10.0.0.2" } }
  newPFCPPeerUP := fun _ nodeID =>
    match nodeID with
    | .present n => .ok { nodeID := n }
    | .malformed err => .error err
    | .absent => .error .peerFailed
  NewEstablishedPFCPAssociation := fun peer => .ok { nodeID := peer.nodeID }
  CreateSession := fun entity _ _ _ _ => .done (.error .sessionCreationFailed, entity)

/-- The same collaborators with a peer that answers every request with a Heartbeat
Response. -/
def wrongAnswerExt : Ext :=
  { stdExt with
    Send := fun m => .ok { msgType := MsgTypeHeartbeatResponse, sequence := m.sequence } }

/-! ## Concurrent calls on one session

Goroutines use a session through the struct that a table or an interface value holds.
The methods of `PFCPSession` that take `atomicMu` (`AddUpdatePDRsFARs`, `GetPDRs`,
`GetFAR`) have a value receiver: each call works on its own copy of the struct, with
its own scalar fields, slice header and mutex, and shares the two map tables and the
backing array with every other copy.  The machine below runs calls of
`AddUpdatePDRsFARs` one statement at a time, in the order a schedule gives, with the
statements `updatePDRsUnsafe` and `updateFARsUnsafe` as they are when their assignments
go through (the tables of the session are allocated). -/

/-- The state of a `sync.RWMutex` as `Lock`, `Unlock`, `RLock` and `RUnlock` use it:
whether a writer holds it and how many readers hold it.  The zero value is unlocked. -/
structure RWMutex where
  writer : Bool := false
  readers : Nat := 0
deriving DecidableEq, Repr

/-- The method `Lock`: the mutex once the caller holds it, `none` while the caller has
to wait (a writer or a reader holds it). -/
def RWMutex.Lock (m : RWMutex) : Option RWMutex :=
  if m.writer = false ∧ m.readers = 0 then some { m with writer := true } else none

/-- The method `Unlock`. -/
def RWMutex.Unlock (m : RWMutex) : RWMutex := { m with writer := false }

/-- The method `RLock`: the mutex once the caller holds it for reading, `none` while
the caller has to wait (a writer holds it). -/
def RWMutex.RLock (m : RWMutex) : Option RWMutex :=
  if m.writer = false then some { m with readers := m.readers + 1 } else none

/-- The method `RUnlock`. -/
def RWMutex.RUnlock (m : RWMutex) : RWMutex := { m with readers := m.readers - 1 }

/-- The frame of a running call seen again after other goroutines ran: the map tables
are shared, so the copy sees their current content; the backing array is shared as
long as the header of the copy designates it.  `shared` is the struct the calls were
made on, with the current content of the tables and of the array. -/
def Frame.refresh (f : Frame) (shared : PFCPSession) : Frame :=
  { s := { f.s with
           pdr := shared.pdr
           far := shared.far
           sortedPDR := if f.aliased then { f.s.sortedPDR with arr := shared.sortedPDR.arr }
                        else f.s.sortedPDR }
    callerArr := shared.sortedPDR.arr
    aliased := f.aliased }

/-- The statement of `AddUpdatePDRsFARs` a call is about to run. -/
inductive CallPc where
  | lock
  | checkPDRs
  | checkFARs
  | createPDRs
  | createFARs
  | updatePDRs
  | updateFARs
  | count
  | unlock
  | returned
deriving DecidableEq, Repr

/-- A call of `AddUpdatePDRsFARs` in progress: its arguments, the copy of the receiver
it works on (`frame`), the field `atomicMu` of that copy, the next statement, and the
value it is going to return. -/
structure Call where
  createpdrs : Option PDRMap
  createfars : Option FARMap
  updatepdrs : Option PDRMap
  updatefars : Option FARMap
  frame : Frame
  atomicMu : RWMutex
  pc : CallPc
  result : Option Error
deriving DecidableEq, Repr

/-- Making the call: the receiver, with its mutex, is copied. -/
def Call.start (s : PFCPSession) (atomicMu : RWMutex)
    (createpdrs : Option PDRMap) (createfars : Option FARMap)
    (updatepdrs : Option PDRMap) (updatefars : Option FARMap) : Call :=
  { createpdrs := createpdrs, createfars := createfars
    updatepdrs := updatepdrs, updatefars := updatefars
    frame := Frame.enter s, atomicMu := atomicMu, pc := .lock, result := none }

/-- One statement of a call.  `s.atomicMu.Lock()` and the deferred
`s.atomicMu.Unlock()` act on the mutex of the copy; a call that has to wait for the
mutex does not move.  The result is the call and the shared struct afterwards. -/
def Call.step (rt : GoRuntime) (shared : PFCPSession) (c : Call) : Call × PFCPSession :=
  match c.pc with
  | .lock =>
    match c.atomicMu.Lock with
    | none => (c, shared)
    | some mu => ({ c with atomicMu := mu, pc := .checkPDRs }, shared)
  | .checkPDRs =>
    let f := c.frame.refresh shared
    match checkPDRsNotExistUnsafe f.s c.createpdrs with
    | some err => ({ c with frame := f, result := some err, pc := .unlock }, shared)
    | none => ({ c with frame := f, pc := .checkFARs }, shared)
  | .checkFARs =>
    let f := c.frame.refresh shared
    match checkFARsNotExistUnsafe f.s c.createfars with
    | some err => ({ c with frame := f, result := some err, pc := .unlock }, shared)
    | none => ({ c with frame := f, pc := .createPDRs }, shared)
  | .createPDRs =>
    let f := updatePDRsUnsafe rt (c.frame.refresh shared) c.createpdrs
    ({ c with frame := f, pc := .createFARs }, f.leave shared)
  | .createFARs =>
    let f := updateFARsUnsafe (c.frame.refresh shared) c.createfars
    ({ c with frame := f, pc := .updatePDRs }, f.leave shared)
  | .updatePDRs =>
    let f := updatePDRsUnsafe rt (c.frame.refresh shared) c.updatepdrs
    ({ c with frame := f, pc := .updateFARs }, f.leave shared)
  | .updateFARs =>
    let f := updateFARsUnsafe (c.frame.refresh shared) c.updatefars
    ({ c with frame := f, pc := .count }, f.leave shared)
  | .count =>
    let f := c.frame.refresh shared
    ({ c with
       frame := { f with s := { f.s with timeUpdated := (f.s.timeUpdated + 1) % 2 ^ 32 } }
       pc := .unlock }, shared)
  | .unlock => ({ c with atomicMu := c.atomicMu.Unlock, pc := .returned }, shared)
  | .returned => (c, shared)

/-- A session used by several calls at once: the struct the calls are made on (with
the current content of the shared tables and array), the field `atomicMu` of that
struct, and the calls in progress. -/
structure Machine where
  session : PFCPSession
  atomicMu : RWMutex
  calls : List Call
deriving DecidableEq, Repr

/-- The machine after call number `i` ran one statement. -/
def Machine.step (rt : GoRuntime) (m : Machine) (i : Nat) : Machine :=
  match m.calls[i]? with
  | none => m
  | some c =>
    { m with session := (c.step rt m.session).2, calls := m.calls.set i (c.step rt m.session).1 }

/-- The machine after the calls ran in the order of a schedule. -/
def Machine.run (rt : GoRuntime) (m : Machine) (schedule : List Nat) : Machine :=
  schedule.foldl (Machine.step rt) m

/-- A call of `GetFAR` on the session of the machine: the receiver is copied, `RLock`
is taken on the mutex of the copy, and the FAR table is read.  `none` means that the
call has to wait. -/
def Machine.GetFAR (m : Machine) (farid : Nat) : Option (Except Error FAR) :=
  match m.atomicMu.RLock with
  | none => none
  | some _ => some (m.session.GetFAR farid)

/-- A call of `GetPDRs` on the session of the machine, likewise. -/
def Machine.GetPDRs (m : Machine) : Option Slice :=
  match m.atomicMu.RLock with
  | none => none
  | some _ => some m.session.GetPDRs

/-! ## Statement helpers -/

/-- The ids of a map argument; the nil map has none. -/
def argKeys {V : Type} (m : Option (GoMap Nat V)) : List Nat :=
  match m with
  | none => []
  | some m => m.keys

/-- The binding of an id in a map argument; the nil map has none. -/
def argGet {V : Type} (m : Option (GoMap Nat V)) (id : Nat) : Option V :=
  match m with
  | none => none
  | some m => m.get id

/-- A map argument is a Go map: no key occurs twice among its bindings. -/
def argWF {V : Type} (m : Option (GoMap Nat V)) : Prop := (argKeys m).Nodup

instance {V : Type} (m : Option (GoMap Nat V)) : Decidable (argWF m) :=
  inferInstanceAs (Decidable (argKeys m).Nodup)

/-- Referential integrity of a session: every PDR of the PDR table refers to a FAR id
that is a key of the FAR table. -/
def PFCPSession.refsResolved (s : PFCPSession) : Prop :=
  ∀ id p, s.pdr.get id = some p → p.farid ∈ s.far.keys

/-- Assigning the bindings of a list one after the other, as a `range` loop does. -/
def GoMap.setAll {K V : Type} [DecidableEq K] (m : GoMap K V) (l : List (K × V)) : GoMap K V :=
  l.foldl (fun acc e => acc.set e.1 e.2) m

/-- The table after a `range` loop assigning the bindings of a map argument. -/
def argSetAll {V : Type} (m : GoMap Nat V) (a : Option (GoMap Nat V)) : GoMap Nat V :=
  match a with
  | none => m
  | some a => m.setAll a.entries

/-- The bindings of a map argument; the nil map has none. -/
def argEntries {V : Type} (m : Option (GoMap Nat V)) : List (Nat × V) :=
  match m with
  | none => []
  | some m => m.entries

/-! ### Sample data -/

/-- A sample PDR: id 1, precedence 10, FAR 1. -/
def pdrA : PDR := { id := 1, precedence := 10, farid := 1 }

/-- A sample PDR: id 2, precedence 5, FAR 1. -/
def pdrB : PDR := { id := 2, precedence := 5, farid := 1 }

/-- A sample PDR: id 3, precedence 20, FAR 1. -/
def pdrC : PDR := { id := 3, precedence := 20, farid := 1 }

/-- A sample PDR: id 4, precedence 1, FAR 1. -/
def pdrD : PDR := { id := 4, precedence := 1, farid := 1 }

/-- A sample PDR that refers to FAR 99: id 5, precedence 7. -/
def pdrE : PDR := { id := 5, precedence := 7, farid := 99 }

/-- A sample FAR with id 1. -/
def farA : FAR := { id := 1 }

/-- A sample FAR with id 2. -/
def farB : FAR := { id := 2 }

/-- A map argument binding id 2 to `pdrB`. -/
def mapB : Option PDRMap := some ⟨[(2, pdrB)]⟩

/-- A map argument binding id 2 to `pdrD` and id 3 to `pdrC`. -/
def mapDC : Option PDRMap := some ⟨[(2, pdrD), (3, pdrC)]⟩

/-- A map argument binding id 2 to `farB`. -/
def mapFarB : Option FARMap := some ⟨[(2, farB)]⟩

/-- A session established with the one PDR `pdrA` and the one FAR `farA`. -/
def sessionOne : PFCPSession :=
  newSessionRuleState stdRuntime (some ⟨[(1, pdrA)]⟩) (some ⟨[(1, farA)]⟩)

/-- A session established with the PDRs `pdrA`, `pdrB`, `pdrC` and the FAR `farA`. -/
def sessionThree : PFCPSession :=
  newSessionRuleState stdRuntime (some ⟨[(1, pdrA), (2, pdrB), (3, pdrC)]⟩) (some ⟨[(1, farA)]⟩)

/-- A sample received message: a Session Modification Request with sequence number 7. -/
def sampleModificationRequest : ReceivedMessage :=
  { Message := { msgType := MsgTypeSessionModificationRequest, sequence := 7 }, SenderAddr := "peer" }

/-- A sample response: a Session Establishment Response with sequence number 7. -/
def sampleEstablishmentResponse : Message :=
  { msgType := MsgTypeSessionEstablishmentResponse, sequence := 7 }

/-- A sample response: a Session Modification Response with sequence number 8. -/
def sampleMismatchedResponse : Message :=
  { msgType := MsgTypeSessionModificationResponse, sequence := 8 }

/-- A sample entity, as built by `NewPFCPEntity`. -/
def sampleEntity : PFCPEntity := NewPFCPEntity stdEnv "10.0.0.1" "UP"

/-- A sample handler: it sends nothing and returns nil. -/
def sampleHandler : handler := some (fun _ entity => .done (none, entity))

/-- A sample datagram: a Session Establishment Request (type 50), sequence number 1. -/
def sampleDatagram : Bytes := [50, 1, 0]

/-- The body of a handler ends in a reply, with the entity `entity`, whose message has
type `t`, header SEID `seid`, sequence number `seq`, cause `cause` and offending element
type `off` (`none`: it carries no Offending IE). -/
def HandlerStep.repliesWith (st : HandlerStep) (entity : EntityCore) (t seid seq cause : Nat)
    (off : Option Nat) : Prop :=
  ∃ res, st = .reply res entity ∧ res.msgType = t ∧ res.seid = seid ∧ res.sequence = seq ∧
    res.cause = some cause ∧ res.offendingIE = off

/-- The pair (text of the local address, local SEID) is a key of the session table. -/
def SessionsMap.hasKey (sm : SessionsMap) (localIP : String) (seid : Nat) : Prop :=
  ∃ inner, sm.sessions.get localIP = some inner ∧ seid ∈ inner.keys

/-- A started entity with node identity `10.0.0.1` for which `IsUserPlane()` holds as
`pfcp/entity.go` is written (kind `CP`); it has no association and no session. -/
def coreResponder : EntityCore := { nodeID := "10.0.0.1", kind := "CP", recoveryTimeStamp := some 1000 }

/-- A started entity with node identity `10.0.0.1` for which `IsControlPlane()` holds as
`pfcp/entity.go` is written (kind `UP`). -/
def coreInitiator : EntityCore := { nodeID := "10.0.0.1", kind := "UP", recoveryTimeStamp := some 1000 }

/-- A Session Establishment Request without CP F-SEID, otherwise complete, from the
sender `10.0.0.9`. -/
def requestWithoutFSEID : ReceivedMessage :=
  { Message := { msgType := MsgTypeSessionEstablishmentRequest, sequence := 9,
                 NodeID := .present "10.0.0.9", CreatePDR := [[1, 10, 1]], CreateFAR := [[1]] }
    SenderAddr := "10.0.0.9" }

/-- A complete Session Establishment Request with CP F-SEID 42, from the sender
`10.0.0.9`. -/
def requestWithFSEID : ReceivedMessage :=
  { Message := { msgType := MsgTypeSessionEstablishmentRequest, sequence := 9,
                 NodeID := .present "10.0.0.9",
                 CPFSEID := .present { SEID := 42, IPv4Address := some "10.0.0.9" },
                 CreatePDR := [[1, 10, 1]], CreateFAR := [[1]] }
    SenderAddr := "10.0.0.9" }

/-- The entity `coreResponder` with an association for the peer `10.0.0.9`. -/
def coreWithPeer : EntityCore :=
  { coreResponder with
    associationsMap := { associations := ⟨[("10.0.0.9", { nodeID := "10.0.0.9" })]⟩ } }

/-- A Session Establishment Request with CP F-SEID 42 and Node ID, whose Create PDR and
Create FAR lists are both empty, from the sender `10.0.0.9`. -/
def requestWithoutRules : ReceivedMessage :=
  { Message := { msgType := MsgTypeSessionEstablishmentRequest, sequence := 9,
                 NodeID := .present "10.0.0.9",
                 CPFSEID := .present { SEID := 42, IPv4Address := some "10.0.0.9" } }
    SenderAddr := "10.0.0.9" }

/-- The session `sessionOne` with local F-SEID 5 at `10.0.0.1` and remote F-SEID 42 at
`10.0.0.9`. -/
def sessionFive : PFCPSession :=
  { sessionOne with
    localFseid := some { SEID := 5, IPv4Address := some "10.0.0.1" }
    remoteFseid := some { SEID := 42, IPv4Address := some "10.0.0.9" } }

/-- The entity `coreWithPeer` holding `sessionFive` in its session table. -/
def coreWithSession : EntityCore :=
  { coreWithPeer with sessionsMap := { sessions := ⟨[("10.0.0.1", ⟨[(5, sessionFive)]⟩)]⟩ } }

/-- A Session Modification Request for local SEID 5 that creates PDR 2 and FAR 2. -/
def modificationForFive : ReceivedMessage :=
  { Message := { msgType := MsgTypeSessionModificationRequest, seid := 5, sequence := 11,
                 CreatePDR := [[2, 5, 1]], CreateFAR := [[2]] }
    SenderAddr := "10.0.0.9" }

/-- A Session Modification Request for local SEID 5 that creates PDR 1, which
`sessionFive` already holds. -/
def modificationClash : ReceivedMessage :=
  { Message := { msgType := MsgTypeSessionModificationRequest, seid := 5, sequence := 12,
                 CreatePDR := [[1, 3, 1]] }
    SenderAddr := "10.0.0.9" }

/-- A Session Modification Request for local SEID 6, which no session has. -/
def modificationForSix : ReceivedMessage :=
  { Message := { msgType := MsgTypeSessionModificationRequest, seid := 6, sequence := 13 }
    SenderAddr := "10.0.0.9" }

/-- An Association Setup Request from the peer `10.0.0.9`. -/
def setupRequestFromPeer : ReceivedMessage :=
  { Message := { msgType := MsgTypeAssociationSetupRequest, sequence := 3,
                 NodeID := .present "10.0.0.9" }
    SenderAddr := "10.0.0.9" }

/-- An association with the peer `10.0.0.9` that has no session. -/
def associationNine : PFCPAssociation := { nodeID := "10.0.0.9" }

/-- The session the table holds under a key pair: `sm.sessions[localIP][seid]`. -/
def SessionsMap.lookup (sm : SessionsMap) (localIP : String) (seid : Nat) : Option PFCPSession :=
  match sm.sessions.get localIP with
  | none => none
  | some inner => inner.get seid

/-- The session `sessionOne` with a local F-SEID that carries no address. -/
def sessionNoAddress : PFCPSession := { sessionOne with localFseid := some { SEID := 7 } }

/-- A session table holding `sessionFive` under `10.0.0.1` / 5. -/
def tableWithFive : SessionsMap := { sessions := ⟨[("10.0.0.1", ⟨[(5, sessionFive)]⟩)]⟩ }

/-- The session `sessionThree` with local F-SEID 6 at `10.0.0.1`. -/
def sessionSix : PFCPSession :=
  { sessionThree with localFseid := some { SEID := 6, IPv4Address := some "10.0.0.1" } }

/-- A sample PDR: id 1 again, with precedence 3 and FAR 1. -/
def pdrA2 : PDR := { id := 1, precedence := 3, farid := 1 }

/-- A sample PDR: id 2 again, with precedence 30 and FAR 1. -/
def pdrB2 : PDR := { id := 2, precedence := 30, farid := 1 }

/-- An entity whose node identity is the FQDN `upf.example.org`. -/
def coreFQDN : EntityCore :=
  { nodeID := "upf.example.org", kind := "CP", recoveryTimeStamp := some 1000 }

/-- A Session Modification Request for local SEID 5 whose Create PDR list does not
parse. -/
def modificationBadCreatePDR : ReceivedMessage :=
  { Message := { msgType := MsgTypeSessionModificationRequest, seid := 5, sequence := 21,
                 CreatePDR := [[9]] }
    SenderAddr := "10.0.0.9" }

/-- A Session Modification Request for local SEID 5 whose Create FAR list does not
parse. -/
def modificationBadCreateFAR : ReceivedMessage :=
  { Message := { msgType := MsgTypeSessionModificationRequest, seid := 5, sequence := 22,
                 CreateFAR := [[9, 9]] }
    SenderAddr := "10.0.0.9" }

/-- A Session Modification Request for local SEID 5 whose Update PDR list does not
parse. -/
def modificationBadUpdatePDR : ReceivedMessage :=
  { Message := { msgType := MsgTypeSessionModificationRequest, seid := 5, sequence := 23,
                 UpdatePDR := [[9]] }
    SenderAddr := "10.0.0.9" }

/-- A Session Modification Request for local SEID 5 whose Update FAR list does not
parse. -/
def modificationBadUpdateFAR : ReceivedMessage :=
  { Message := { msgType := MsgTypeSessionModificationRequest, seid := 5, sequence := 24,
                 UpdateFAR := [[9, 9]] }
    SenderAddr := "10.0.0.9" }

/-- A sample FAR: id 1 again, with another action. -/
def farA2 : FAR := { id := 1, action := 2 }

/-- Two calls made on `sessionOne`, each creating a PDR under id 2. -/
def twoCreators : Machine :=
  { session := sessionOne, atomicMu := {}
    calls := [Call.start sessionOne {} (some ⟨[(2, pdrB)]⟩) none none none,
              Call.start sessionOne {} (some ⟨[(2, pdrB2)]⟩) none none none] }

/-- One call made on `sessionOne` that creates FAR 2 and updates FAR 1. -/
def oneWriter : Machine :=
  { session := sessionOne, atomicMu := {}
    calls := [Call.start sessionOne {} none (some ⟨[(2, farB)]⟩) none (some ⟨[(1, farA2)]⟩)] }

/-- The schedule in which two calls take turns, one statement each, until both have
returned. -/
def takingTurns : List Nat := [0, 1, 0, 1, 0, 1, 0, 1, 0, 1, 0, 1, 0, 1, 0, 1, 0, 1]

/-- What a call shows once it has returned: its result. -/
def Call.returnedValue (c : Call) : Option (Option Error) :=
  if c.pc = .returned then some c.result else none

/-- The header of the copy designates the caller's array as long as the frame says
so. -/
def Frame.linked (f : Frame) : Prop := f.aliased = true → f.s.sortedPDR.arr = f.callerArr

/-- The machine with one call made on a session. -/
def Machine.single (s : PFCPSession)
    (createpdrs : Option PDRMap) (createfars : Option FARMap)
    (updatepdrs : Option PDRMap) (updatefars : Option FARMap) : Machine :=
  { session := s, atomicMu := {}
    calls := [Call.start s {} createpdrs createfars updatepdrs updatefars] }

/-- The struct that `newEstablishedPFCPSession` builds when its caller passes nil for
both maps (`pdr: pdrs`, `far: fars`), with local F-SEID 8 at `10.0.0.1` and remote
F-SEID 43 at `10.0.0.9`. -/
def sessionNilTables : PFCPSession :=
  { newSessionRuleState stdRuntime none none with
    localFseid := some { SEID := 8, IPv4Address := some "10.0.0.1" }
    remoteFseid := some { SEID := 43, IPv4Address := some "10.0.0.9" } }

/-- The entity `coreWithPeer` holding `sessionNilTables` in its session table. -/
def coreWithNilTables : EntityCore :=
  { coreWithPeer with
    sessionsMap := { sessions := ⟨[("10.0.0.1", ⟨[(8, sessionNilTables)]⟩)]⟩ } }

/-- A Session Modification Request for local SEID 8 that creates PDR 2 and FAR 2. -/
def modificationForEight : ReceivedMessage :=
  { Message := { msgType := MsgTypeSessionModificationRequest, seid := 8, sequence := 31,
                 CreatePDR := [[2, 5, 1]], CreateFAR := [[2]] }
    SenderAddr := "10.0.0.9" }

/-- The entity built by `NewPFCPEntity("", "CP")`, with a recovery timestamp. -/
def coreUnnamed : EntityCore := { nodeID := "", kind := "CP", recoveryTimeStamp := some 1000 }

/-- The entity after `n` calls of `GetNextRemoteSessionID`. -/
def PFCPEntity.afterCalls (e : PFCPEntity) : Nat → PFCPEntity
  | 0 => e
  | n + 1 => (e.afterCalls n).GetNextRemoteSessionID.2

/-- The value returned by the `k`-th call of `GetNextRemoteSessionID` (`k` from 1). -/
def PFCPEntity.kthSessionID (e : PFCPEntity) (k : Nat) : Nat :=
  (e.afterCalls (k - 1)).GetNextRemoteSessionID.1

/-! ## Lemmas on maps -/

namespace GoMap

variable {K V : Type} [DecidableEq K]

theorem lookupList_assignList (l : List (K × V)) (k : K) (v : V) (k0 : K) :
    lookupList (assignList l k v) k0 = if k = k0 then some v else lookupList l k0 := by
  induction l with
  | nil => simp [assignList, lookupList]
  | cons hd tl ih =>
    obtain ⟨k1, v1⟩ := hd
    by_cases h1 : k1 = k
    · subst h1
      by_cases h2 : k1 = k0 <;> simp [assignList, lookupList, h2]
    · by_cases h2 : k1 = k0
      · subst h2
        simp [assignList, lookupList, h1, Ne.symm h1]
      · simp [assignList, lookupList, h1, h2, ih]

theorem get_set (m : GoMap K V) (k : K) (v : V) (k0 : K) :
    (m.set k v).get k0 = if k = k0 then some v else m.get k0 :=
  lookupList_assignList m.entries k v k0

theorem lookupList_eq_none_iff (l : List (K × V)) (k : K) :
    lookupList l k = none ↔ k ∉ l.map Prod.fst := by
  induction l with
  | nil => simp [lookupList]
  | cons hd tl ih =>
    obtain ⟨k1, v1⟩ := hd
    by_cases h : k1 = k
    · simp [lookupList, h]
    · simp [lookupList, h, ih, Ne.symm h]

theorem lookupList_mem (l : List (K × V)) (k : K) (v : V) (h : lookupList l k = some v) :
    (k, v) ∈ l := by
  induction l with
  | nil => simp [lookupList] at h
  | cons hd tl ih =>
    obtain ⟨k1, v1⟩ := hd
    by_cases h1 : k1 = k
    · simp [lookupList, h1] at h
      simp [h1, h]
    · simp [lookupList, h1] at h
      exact List.mem_cons_of_mem _ (ih h)

theorem contains_iff_mem_keys (m : GoMap K V) (k : K) :
    m.contains k = true ↔ k ∈ m.keys := by
  have h := lookupList_eq_none_iff m.entries k
  unfold contains get keys
  cases hl : lookupList m.entries k with
  | none => simpa [hl] using h.mp hl
  | some v =>
    have : ¬ (k ∉ m.entries.map Prod.fst) := fun hn => by
      rw [h.mpr hn] at hl
      exact Option.noConfusion hl
    simpa using this

theorem contains_eq_false_iff (m : GoMap K V) (k : K) :
    m.contains k = false ↔ k ∉ m.keys := by
  rw [← contains_iff_mem_keys]
  cases m.contains k <;> simp

theorem get_setAll_of_nodup (l : List (K × V)) (m : GoMap K V) (k0 : K)
    (hnd : (l.map Prod.fst).Nodup) :
    (m.setAll l).get k0 = (lookupList l k0).orElse (fun _ => m.get k0) := by
  induction l generalizing m with
  | nil => simp [setAll, lookupList]
  | cons hd tl ih =>
    obtain ⟨k1, v1⟩ := hd
    have hnd1 : k1 ∉ tl.map Prod.fst := (List.nodup_cons.mp hnd).1
    have hnd2 : (tl.map Prod.fst).Nodup := (List.nodup_cons.mp hnd).2
    have ih1 := ih (m.set k1 v1) hnd2
    have hstep : (m.setAll ((k1, v1) :: tl)) = (m.set k1 v1).setAll tl := rfl
    rw [hstep, ih1, get_set]
    by_cases h : k1 = k0
    · subst h
      rw [(lookupList_eq_none_iff tl k1).mpr hnd1]
      simp [lookupList]
    · simp [lookupList, h]

theorem get_setAll_some (l : List (K × V)) (m : GoMap K V) (k0 : K) (v : V)
    (h : (m.setAll l).get k0 = some v) : (k0, v) ∈ l ∨ m.get k0 = some v := by
  induction l generalizing m with
  | nil => exact Or.inr h
  | cons hd tl ih =>
    obtain ⟨k1, v1⟩ := hd
    have hstep : (m.setAll ((k1, v1) :: tl)) = (m.set k1 v1).setAll tl := rfl
    rw [hstep] at h
    rcases ih (m.set k1 v1) h with h1 | h1
    · exact Or.inl (List.mem_cons_of_mem _ h1)
    · rw [get_set] at h1
      by_cases h2 : k1 = k0
      · simp [h2] at h1
        subst h2
        subst h1
        exact Or.inl (List.mem_cons_self _ _)
      · simp [h2] at h1
        exact Or.inr h1

theorem keys_subset_set (m : GoMap K V) (k : K) (v : V) (k0 : K) (h : k0 ∈ m.keys) :
    k0 ∈ (m.set k v).keys := by
  rw [← contains_iff_mem_keys] at h ⊢
  unfold contains at h ⊢
  rw [get_set]
  by_cases h1 : k = k0 <;> simp [h1, h]

theorem mem_keys_set_self (m : GoMap K V) (k : K) (v : V) : k ∈ (m.set k v).keys := by
  rw [← contains_iff_mem_keys]
  unfold contains
  rw [get_set]
  simp

theorem keys_subset_setAll (l : List (K × V)) (m : GoMap K V) (k0 : K)
    (h : k0 ∈ m.keys ∨ k0 ∈ l.map Prod.fst) : k0 ∈ (m.setAll l).keys := by
  induction l generalizing m with
  | nil => simpa [setAll] using h
  | cons hd tl ih =>
    obtain ⟨k1, v1⟩ := hd
    have hstep : (m.setAll ((k1, v1) :: tl)) = (m.set k1 v1).setAll tl := rfl
    rw [hstep]
    apply ih
    rcases h with h | h
    · exact Or.inl (keys_subset_set m k1 v1 k0 h)
    · simp only [List.map_cons, List.mem_cons] at h
      rcases h with h | h
      · subst h
        exact Or.inl (mem_keys_set_self m _ v1)
      · exact Or.inr h

end GoMap

/-! ## Lemmas on the rule transaction -/

theorem Frame.leave_enter (s : PFCPSession) : (Frame.enter s).leave s = s := rfl

theorem Frame.appendSortedPDR_pdr (rt : GoRuntime) (f : Frame) (p : PDR) :
    (f.appendSortedPDR rt p).s.pdr = f.s.pdr ∧ (f.appendSortedPDR rt p).s.far = f.s.far ∧
      (f.appendSortedPDR rt p).s.timeUpdated = f.s.timeUpdated := by
  by_cases h : f.s.sortedPDR.len < f.s.sortedPDR.cap <;> simp [Frame.appendSortedPDR, h]

theorem updatePDRsStep_fold (rt : GoRuntime) (l : List (Nat × PDR)) (f : Frame) :
    (l.foldl (updatePDRsStep rt) f).s.pdr = f.s.pdr.setAll l ∧
      (l.foldl (updatePDRsStep rt) f).s.far = f.s.far := by
  induction l generalizing f with
  | nil => exact ⟨rfl, rfl⟩
  | cons hd tl ih =>
    have h := ih (updatePDRsStep rt f hd)
    have hp := Frame.appendSortedPDR_pdr rt
      { f with s := { f.s with pdr := f.s.pdr.set hd.1 hd.2 } } hd.2
    simp only [List.foldl_cons]
    refine ⟨?_, ?_⟩
    · rw [h.1]
      unfold updatePDRsStep
      rw [hp.1]
      rfl
    · rw [h.2]
      unfold updatePDRsStep
      rw [hp.2.1]

theorem updatePDRsUnsafe_tables (rt : GoRuntime) (f : Frame) (pdrs : Option PDRMap) :
    (updatePDRsUnsafe rt f pdrs).s.pdr = argSetAll f.s.pdr pdrs ∧
      (updatePDRsUnsafe rt f pdrs).s.far = f.s.far := by
  cases pdrs with
  | none => exact ⟨rfl, rfl⟩
  | some m =>
    have h := updatePDRsStep_fold rt m.entries f
    exact ⟨h.1, h.2⟩

theorem updateFARsUnsafe_tables (f : Frame) (fars : Option FARMap) :
    (updateFARsUnsafe f fars).s.far = argSetAll f.s.far fars ∧
      (updateFARsUnsafe f fars).s.pdr = f.s.pdr := by
  cases fars with
  | none => exact ⟨rfl, rfl⟩
  | some m =>
    have key : ∀ (l : List (Nat × FAR)) (g : Frame),
        (l.foldl (fun g e => { g with s := { g.s with far := g.s.far.set e.1 e.2 } }) g).s.far
            = g.s.far.setAll l ∧
        (l.foldl (fun g e => { g with s := { g.s with far := g.s.far.set e.1 e.2 } }) g).s.pdr
            = g.s.pdr := by
      intro l
      induction l with
      | nil => intro g; exact ⟨rfl, rfl⟩
      | cons hd tl ih =>
        intro g
        have h := ih { g with s := { g.s with far := g.s.far.set hd.1 hd.2 } }
        simp only [List.foldl_cons]
        exact ⟨h.1, h.2⟩
    exact key m.entries f

theorem checkPDRsLoop_eq_none_iff (s : PFCPSession) (l : List (Nat × PDR)) :
    checkPDRsLoop s l = none ↔ ∀ id ∈ l.map Prod.fst, id ∉ s.pdr.keys := by
  induction l with
  | nil => simp [checkPDRsLoop]
  | cons hd tl ih =>
    obtain ⟨k, v⟩ := hd
    by_cases h : s.pdr.contains k = true
    · have hk := (GoMap.contains_iff_mem_keys s.pdr k).mp h
      simp [checkPDRsLoop, h, hk]
    · have h1 : s.pdr.contains k = false := by simpa using h
      have hk := (GoMap.contains_eq_false_iff s.pdr k).mp h1
      simp [checkPDRsLoop, h1, hk, ih]

theorem checkFARsLoop_eq_none_iff (s : PFCPSession) (l : List (Nat × FAR)) :
    checkFARsLoop s l = none ↔ ∀ id ∈ l.map Prod.fst, id ∉ s.far.keys := by
  induction l with
  | nil => simp [checkFARsLoop]
  | cons hd tl ih =>
    obtain ⟨k, v⟩ := hd
    by_cases h : s.far.contains k = true
    · have hk := (GoMap.contains_iff_mem_keys s.far k).mp h
      simp [checkFARsLoop, h, hk]
    · have h1 : s.far.contains k = false := by simpa using h
      have hk := (GoMap.contains_eq_false_iff s.far k).mp h1
      simp [checkFARsLoop, h1, hk, ih]

theorem checkPDRsNotExistUnsafe_eq_none_iff (s : PFCPSession) (pdrs : Option PDRMap) :
    checkPDRsNotExistUnsafe s pdrs = none ↔ ∀ id ∈ argKeys pdrs, id ∉ s.pdr.keys := by
  cases pdrs with
  | none => simp [checkPDRsNotExistUnsafe, argKeys]
  | some m => exact checkPDRsLoop_eq_none_iff s m.entries

theorem checkFARsNotExistUnsafe_eq_none_iff (s : PFCPSession) (fars : Option FARMap) :
    checkFARsNotExistUnsafe s fars = none ↔ ∀ id ∈ argKeys fars, id ∉ s.far.keys := by
  cases fars with
  | none => simp [checkFARsNotExistUnsafe, argKeys]
  | some m => exact checkFARsLoop_eq_none_iff s m.entries

theorem updatePDRsUnsafe_timeUpdated (rt : GoRuntime) (f : Frame) (pdrs : Option PDRMap) :
    (updatePDRsUnsafe rt f pdrs).s.timeUpdated = f.s.timeUpdated := by
  cases pdrs with
  | none => rfl
  | some m =>
    have key : ∀ (l : List (Nat × PDR)) (g : Frame),
        (l.foldl (updatePDRsStep rt) g).s.timeUpdated = g.s.timeUpdated := by
      intro l
      induction l with
      | nil => intro g; rfl
      | cons hd tl ih =>
        intro g
        simp only [List.foldl_cons]
        rw [ih]
        unfold updatePDRsStep
        rw [(Frame.appendSortedPDR_pdr rt _ hd.2).2.2]
    exact key m.entries f

theorem updateFARsUnsafe_timeUpdated (f : Frame) (fars : Option FARMap) :
    (updateFARsUnsafe f fars).s.timeUpdated = f.s.timeUpdated := by
  cases fars with
  | none => rfl
  | some m =>
    have key : ∀ (l : List (Nat × FAR)) (g : Frame),
        (l.foldl (fun g e => { g with s := { g.s with far := g.s.far.set e.1 e.2 } }) g).s.timeUpdated
          = g.s.timeUpdated := by
      intro l
      induction l with
      | nil => intro g; rfl
      | cons hd tl ih =>
        intro g
        simp only [List.foldl_cons]
        rw [ih]
    exact key m.entries f

/-- In the frame of a transaction that returns nil, the counter of the copy is the
caller's counter plus one. -/
theorem AddUpdatePDRsFARsBody_timeUpdated (rt : GoRuntime) (s : PFCPSession)
    (createpdrs : Option PDRMap) (createfars : Option FARMap)
    (updatepdrs : Option PDRMap) (updatefars : Option FARMap)
    (h : (AddUpdatePDRsFARsBody rt (Frame.enter s) createpdrs createfars updatepdrs updatefars).1
      = none) :
    (AddUpdatePDRsFARsBody rt (Frame.enter s) createpdrs createfars updatepdrs updatefars).2.s.timeUpdated
      = (s.timeUpdated + 1) % 2 ^ 32 := by
  have e0 : (Frame.enter s).s = s := rfl
  unfold AddUpdatePDRsFARsBody at h ⊢
  simp only [e0] at h ⊢
  cases hp : checkPDRsNotExistUnsafe s createpdrs with
  | some err => simp [hp] at h
  | none =>
    cases hf : checkFARsNotExistUnsafe s createfars with
    | some err => simp [hp, hf] at h
    | none =>
      show ((updateFARsUnsafe (updatePDRsUnsafe rt (updateFARsUnsafe
        (updatePDRsUnsafe rt (Frame.enter s) createpdrs) createfars) updatepdrs)
          updatefars).s.timeUpdated + 1) % 2 ^ 32 = _
      rw [updateFARsUnsafe_timeUpdated, updatePDRsUnsafe_timeUpdated,
        updateFARsUnsafe_timeUpdated, updatePDRsUnsafe_timeUpdated]
      rfl

/-- A session whose two tables are allocated assigns to no nil table. -/
theorem assignsToNilTable_of_allocated (s : PFCPSession)
    (createpdrs : Option PDRMap) (createfars : Option FARMap)
    (updatepdrs : Option PDRMap) (updatefars : Option FARMap)
    (hp : s.pdrIsNil = false) (hf : s.farIsNil = false) :
    s.assignsToNilTable createpdrs createfars updatepdrs updatefars = false := by
  cases createpdrs <;> cases createfars <;> cases updatepdrs <;> cases updatefars <;>
    simp [PFCPSession.assignsToNilTable, PFCPSession.assignsToNilPDR,
      PFCPSession.assignsToNilFAR, hp, hf]

/-- Whatever a transaction returns is what its body returns and leaves. -/
theorem AddUpdatePDRsFARs_done (rt : GoRuntime) (s : PFCPSession)
    (createpdrs : Option PDRMap) (createfars : Option FARMap)
    (updatepdrs : Option PDRMap) (updatefars : Option FARMap)
    (r : Option Error × PFCPSession)
    (h : s.AddUpdatePDRsFARs rt createpdrs createfars updatepdrs updatefars = .done r) :
    r = ((AddUpdatePDRsFARsBody rt (Frame.enter s) createpdrs createfars updatepdrs updatefars).1,
      (AddUpdatePDRsFARsBody rt (Frame.enter s) createpdrs createfars updatepdrs
        updatefars).2.leave s) := by
  have e0 : (Frame.enter s).s = s := rfl
  unfold PFCPSession.AddUpdatePDRsFARs at h
  unfold AddUpdatePDRsFARsBody
  simp only [e0]
  cases hp : checkPDRsNotExistUnsafe s createpdrs with
  | some err =>
    simp only [hp, Run.done.injEq] at h
    rw [← h]
    rfl
  | none =>
    cases hf : checkFARsNotExistUnsafe s createfars with
    | some err =>
      simp only [hp, hf, Run.done.injEq] at h
      rw [← h]
      rfl
    | none =>
      cases hn : s.assignsToNilTable createpdrs createfars updatepdrs updatefars with
      | true => simp [hp, hf, hn] at h
      | false =>
        simp only [hp, hf, hn, Bool.false_eq_true, if_false, Run.done.injEq] at h
        rw [← h]
        unfold AddUpdatePDRsFARsBody
        simp only [e0, hp, hf]

/-- A transaction whose two checks pass and that assigns to a nil table panics. -/
theorem AddUpdatePDRsFARs_nil_table_panics (rt : GoRuntime) (s : PFCPSession)
    (createpdrs : Option PDRMap) (createfars : Option FARMap)
    (updatepdrs : Option PDRMap) (updatefars : Option FARMap)
    (hp : checkPDRsNotExistUnsafe s createpdrs = none)
    (hf : checkFARsNotExistUnsafe s createfars = none)
    (hn : s.assignsToNilTable createpdrs createfars updatepdrs updatefars = true) :
    s.AddUpdatePDRsFARs rt createpdrs createfars updatepdrs updatefars = .panic := by
  unfold PFCPSession.AddUpdatePDRsFARs
  simp [hp, hf, hn]

/-- The result of a transaction whose two checks pass and that assigns to no nil
table. -/
theorem AddUpdatePDRsFARs_of_checks (rt : GoRuntime) (s : PFCPSession)
    (createpdrs : Option PDRMap) (createfars : Option FARMap)
    (updatepdrs : Option PDRMap) (updatefars : Option FARMap)
    (hp : checkPDRsNotExistUnsafe s createpdrs = none)
    (hf : checkFARsNotExistUnsafe s createfars = none)
    (hn : s.assignsToNilTable createpdrs createfars updatepdrs updatefars = false) :
    ∃ s1, s.AddUpdatePDRsFARs rt createpdrs createfars updatepdrs updatefars = .done (none, s1) ∧
      s1.pdr = argSetAll (argSetAll s.pdr createpdrs) updatepdrs ∧
      s1.far = argSetAll (argSetAll s.far createfars) updatefars := by
  have e0 : (Frame.enter s).s = s := rfl
  refine ⟨(AddUpdatePDRsFARsBody rt (Frame.enter s) createpdrs createfars updatepdrs
    updatefars).2.leave s, ?_, ?_, ?_⟩
  · unfold PFCPSession.AddUpdatePDRsFARs
    simp only [hp, hf, hn, Bool.false_eq_true, if_false]
    unfold AddUpdatePDRsFARsBody
    simp only [e0, hp, hf]
  · unfold AddUpdatePDRsFARsBody
    simp only [e0, hp, hf]
    show (updateFARsUnsafe (updatePDRsUnsafe rt (updateFARsUnsafe
      (updatePDRsUnsafe rt (Frame.enter s) createpdrs) createfars) updatepdrs) updatefars).s.pdr = _
    rw [(updateFARsUnsafe_tables _ _).2, (updatePDRsUnsafe_tables _ _ _).1,
      (updateFARsUnsafe_tables _ _).2, (updatePDRsUnsafe_tables _ _ _).1]
    rfl
  · unfold AddUpdatePDRsFARsBody
    simp only [e0, hp, hf]
    show (updateFARsUnsafe (updatePDRsUnsafe rt (updateFARsUnsafe
      (updatePDRsUnsafe rt (Frame.enter s) createpdrs) createfars) updatepdrs) updatefars).s.far = _
    rw [(updateFARsUnsafe_tables _ _).1, (updatePDRsUnsafe_tables _ _ _).2,
      (updateFARsUnsafe_tables _ _).1, (updatePDRsUnsafe_tables _ _ _).2]
    rfl

/-- A transaction that returns nil passed both checks and assigned to no nil table. -/
theorem checks_of_AddUpdatePDRsFARs_none (rt : GoRuntime) (s : PFCPSession)
    (createpdrs : Option PDRMap) (createfars : Option FARMap)
    (updatepdrs : Option PDRMap) (updatefars : Option FARMap) (s1 : PFCPSession)
    (h : s.AddUpdatePDRsFARs rt createpdrs createfars updatepdrs updatefars = .done (none, s1)) :
    checkPDRsNotExistUnsafe s createpdrs = none ∧ checkFARsNotExistUnsafe s createfars = none ∧
      s.assignsToNilTable createpdrs createfars updatepdrs updatefars = false := by
  unfold PFCPSession.AddUpdatePDRsFARs at h
  cases hp : checkPDRsNotExistUnsafe s createpdrs with
  | some err => simp [hp] at h
  | none =>
    cases hf : checkFARsNotExistUnsafe s createfars with
    | some err => simp [hp, hf] at h
    | none =>
      cases hn : s.assignsToNilTable createpdrs createfars updatepdrs updatefars with
      | true => simp [hp, hf, hn] at h
      | false => exact ⟨rfl, rfl, rfl⟩

/-- Whatever a transaction returns, the caller's struct keeps its slice header, its
counter and its other scalar fields. -/
theorem AddUpdatePDRsFARs_scalars (rt : GoRuntime) (s : PFCPSession)
    (createpdrs : Option PDRMap) (createfars : Option FARMap)
    (updatepdrs : Option PDRMap) (updatefars : Option FARMap)
    (r : Option Error × PFCPSession)
    (h : s.AddUpdatePDRsFARs rt createpdrs createfars updatepdrs updatefars = .done r) :
    r.2.timeUpdated = s.timeUpdated ∧ r.2.sortedPDR.len = s.sortedPDR.len ∧
      r.2.sortedPDR.cap = s.sortedPDR.cap := by
  rw [AddUpdatePDRsFARs_done rt s createpdrs createfars updatepdrs updatefars r h]
  exact ⟨rfl, rfl, rfl⟩

theorem argSetAll_get {V : Type} (m : GoMap Nat V) (a : Option (GoMap Nat V)) (id : Nat)
    (hw : argWF a) : (argSetAll m a).get id = (argGet a id).orElse (fun _ => m.get id) := by
  cases a with
  | none => simp [argSetAll, argGet]
  | some a => exact GoMap.get_setAll_of_nodup a.entries m id hw

theorem argSetAll_get_some {V : Type} (m : GoMap Nat V) (a : Option (GoMap Nat V)) (id : Nat)
    (v : V) (h : (argSetAll m a).get id = some v) : (id, v) ∈ argEntries a ∨ m.get id = some v := by
  cases a with
  | none => exact Or.inr h
  | some a => exact GoMap.get_setAll_some a.entries m id v h

theorem argSetAll_keys {V : Type} (m : GoMap Nat V) (a : Option (GoMap Nat V)) (id : Nat)
    (h : id ∈ m.keys ∨ id ∈ argKeys a) : id ∈ (argSetAll m a).keys := by
  cases a with
  | none => simpa [argSetAll, argKeys] using h
  | some a => exact GoMap.keys_subset_setAll a.entries m id h

theorem argGet_eq_none {V : Type} (a : Option (GoMap Nat V)) (id : Nat) (h : id ∉ argKeys a) :
    argGet a id = none := by
  cases a with
  | none => rfl
  | some a => exact (GoMap.lookupList_eq_none_iff a.entries id).mpr h

/-! ## The claims on the rule transaction -/

/-- C1: a call of `AddUpdatePDRsFARs` in which some id of `createPDRs` is already a key
of the session's PDR map, or some id of `createFARs` is already a key of its FAR map,
returns an error, and the session is exactly what it was before the call: the same
struct, in particular the same PDR map, FAR map, precedence-sorted sequence and
modification counter. -/
theorem AddUpdatePDRsFARs_existing_id_rejected (rt : GoRuntime) (s : PFCPSession)
    (createpdrs : Option PDRMap) (createfars : Option FARMap)
    (updatepdrs : Option PDRMap) (updatefars : Option FARMap)
    (h : (∃ id ∈ argKeys createpdrs, id ∈ s.pdr.keys) ∨
         (∃ id ∈ argKeys createfars, id ∈ s.far.keys)) :
    ∃ err s1,
      s.AddUpdatePDRsFARs rt createpdrs createfars updatepdrs updatefars
        = .done (some err, s1) ∧
      s1 = s ∧ s1.pdr = s.pdr ∧ s1.far = s.far ∧ s1.GetPDRs = s.GetPDRs ∧
      s1.TimeUpdated = s.TimeUpdated := by
  cases hp : checkPDRsNotExistUnsafe s createpdrs with
  | some err =>
    refine ⟨err, s, ?_, rfl, rfl, rfl, rfl, rfl⟩
    unfold PFCPSession.AddUpdatePDRsFARs
    simp only [hp]
  | none =>
    cases hf : checkFARsNotExistUnsafe s createfars with
    | some err =>
      refine ⟨err, s, ?_, rfl, rfl, rfl, rfl, rfl⟩
      unfold PFCPSession.AddUpdatePDRsFARs
      simp only [hp, hf]
    | none =>
      exfalso
      rcases h with ⟨id, h1, h2⟩ | ⟨id, h1, h2⟩
      · exact (checkPDRsNotExistUnsafe_eq_none_iff s createpdrs).mp hp id h1 h2
      · exact (checkFARsNotExistUnsafe_eq_none_iff s createfars).mp hf id h1 h2

/-- Witness of C1: on `sessionOne`, re-creating PDR 1 is rejected. -/
theorem AddUpdatePDRsFARs_existing_id_rejected_witness :
    ((∃ id ∈ argKeys (some (⟨[(1, pdrB)]⟩ : PDRMap)), id ∈ sessionOne.pdr.keys) ∨
      (∃ id ∈ argKeys (none : Option FARMap), id ∈ sessionOne.far.keys)) ∧
    ∃ err s1,
      sessionOne.AddUpdatePDRsFARs stdRuntime (some ⟨[(1, pdrB)]⟩) none none none
        = .done (some err, s1) ∧
      s1 = sessionOne :=
  have h : (∃ id ∈ argKeys (some (⟨[(1, pdrB)]⟩ : PDRMap)), id ∈ sessionOne.pdr.keys) ∨
      (∃ id ∈ argKeys (none : Option FARMap), id ∈ sessionOne.far.keys) :=
    Or.inl ⟨1, by decide, by decide⟩
  ⟨h,
    match AddUpdatePDRsFARs_existing_id_rejected stdRuntime sessionOne (some ⟨[(1, pdrB)]⟩)
      none none none h with
    | ⟨err, s1, h1, h2, _⟩ => ⟨err, s1, h1, h2⟩⟩

/-- C2 (defect): `AddUpdatePDRsFARs` has a value receiver, so the slice header it
rebuilds by `append` is lost on return.  For every call that returns, the header
returned by `GetPDRs` afterwards has the length it had before, hence shows at most that
many rules.  On `sessionOne` (one PDR, full array) a call creating `pdrB` returns nil
and `GetPDRs` still shows `pdrA` alone; on `sessionThree` (three PDRs in an array of
capacity four) a call creating `pdrD` returns nil and `GetPDRs` then shows `pdrD`,
`pdrB`, `pdrA`: the created rule took a place and `pdrC` is no longer shown.  The
copy on which the body ran does hold `pdrB`, `pdrA` in the first case. -/
theorem GetPDRs_after_create_keeps_length :
    (∀ (rt : GoRuntime) (s : PFCPSession) (createpdrs : Option PDRMap)
        (createfars : Option FARMap) (updatepdrs : Option PDRMap) (updatefars : Option FARMap)
        (r : Option Error × PFCPSession),
      s.AddUpdatePDRsFARs rt createpdrs createfars updatepdrs updatefars = .done r →
      r.2.GetPDRs.len = s.GetPDRs.len ∧ r.2.GetPDRs.toList.length ≤ s.GetPDRs.len) ∧
    sessionOne.GetPDRs.toList = [pdrA] ∧
    (∃ s1, sessionOne.AddUpdatePDRsFARs stdRuntime (some ⟨[(2, pdrB)]⟩) none none none
        = .done (none, s1) ∧
      s1.GetPDRs.toList = [pdrA]) ∧
    (AddUpdatePDRsFARsBody stdRuntime (Frame.enter sessionOne) (some ⟨[(2, pdrB)]⟩) none none
      none).2.s.GetPDRs.toList = [pdrB, pdrA] ∧
    sessionThree.GetPDRs.toList = [pdrB, pdrA, pdrC] ∧
    (∃ s1, sessionThree.AddUpdatePDRsFARs stdRuntime (some ⟨[(4, pdrD)]⟩) none none none
        = .done (none, s1) ∧
      s1.GetPDRs.toList = [pdrD, pdrB, pdrA]) := by
  refine ⟨?_, by decide, ⟨_, rfl, by decide⟩, by decide, by decide, ⟨_, rfl, by decide⟩⟩
  intro rt s createpdrs createfars updatepdrs updatefars r hr
  have h := (AddUpdatePDRsFARs_scalars rt s createpdrs createfars updatepdrs updatefars r hr).2.1
  refine ⟨h, ?_⟩
  unfold PFCPSession.GetPDRs Slice.toList
  rw [h]
  exact List.length_take_le _ _

/-- C3 (counterexample): on `sessionOne`, whose only FAR has id 1, a transaction that
creates `pdrE`, a PDR referring to FAR 99, with no FAR at all returns nil and commits:
afterwards the PDR map holds `pdrE`, 99 is not a key of the FAR map, and referential
integrity, which held before, no longer holds. -/
theorem AddUpdatePDRsFARs_commits_dangling_reference :
    sessionOne.refsResolved ∧
    ∃ s1, sessionOne.AddUpdatePDRsFARs stdRuntime (some ⟨[(5, pdrE)]⟩) none none none
        = .done (none, s1) ∧
      s1.pdr.get 5 = some pdrE ∧
      pdrE.farid ∉ s1.far.keys ∧
      ¬ s1.refsResolved := by
  refine ⟨?_, _, rfl, by decide, by decide, ?_⟩
  · intro id p hp
    have hmem := GoMap.lookupList_mem _ _ _ hp
    have hE : sessionOne.pdr.entries = [(1, pdrA)] := by decide
    rw [hE] at hmem
    simp only [List.mem_singleton, Prod.mk.injEq] at hmem
    rw [hmem.2]
    decide
  · intro hr
    have h99 := hr 5 pdrE (by decide)
    revert h99
    decide

/-- C3 (amended): `AddUpdatePDRsFARs` checks the freshness of the created ids and
nothing else, so a transaction whose created ids are fresh and that assigns to no nil
table returns nil whatever FAR its PDRs refer to; and a call that returns nil
preserves referential integrity when every PDR of `createPDRs` and `updatePDRs` refers
to a FAR id that is a key of the session's FAR map, of `createFARs` or of
`updateFARs`. -/
theorem AddUpdatePDRsFARs_refs_preserved (rt : GoRuntime) (s : PFCPSession)
    (createpdrs : Option PDRMap) (createfars : Option FARMap)
    (updatepdrs : Option PDRMap) (updatefars : Option FARMap) :
    (((∀ id ∈ argKeys createpdrs, id ∉ s.pdr.keys) ∧ (∀ id ∈ argKeys createfars, id ∉ s.far.keys) ∧
        s.assignsToNilTable createpdrs createfars updatepdrs updatefars = false) →
      ∃ s1, s.AddUpdatePDRsFARs rt createpdrs createfars updatepdrs updatefars
        = .done (none, s1)) ∧
    (∀ s1, s.AddUpdatePDRsFARs rt createpdrs createfars updatepdrs updatefars = .done (none, s1) →
      s.refsResolved →
      (∀ e ∈ argEntries createpdrs ++ argEntries updatepdrs,
        e.2.farid ∈ s.far.keys ∨ e.2.farid ∈ argKeys createfars ∨ e.2.farid ∈ argKeys updatefars) →
      s1.refsResolved) := by
  constructor
  · intro h
    obtain ⟨s1, h1, _⟩ := AddUpdatePDRsFARs_of_checks rt s createpdrs createfars updatepdrs
      updatefars ((checkPDRsNotExistUnsafe_eq_none_iff s createpdrs).mpr h.1)
      ((checkFARsNotExistUnsafe_eq_none_iff s createfars).mpr h.2.1) h.2.2
    exact ⟨s1, h1⟩
  · intro s1 hnil hinv hsup
    have hc := checks_of_AddUpdatePDRsFARs_none rt s createpdrs createfars updatepdrs updatefars
      s1 hnil
    obtain ⟨s2, h2, hpdr, hfar2⟩ := AddUpdatePDRsFARs_of_checks rt s createpdrs createfars
      updatepdrs updatefars hc.1 hc.2.1 hc.2.2
    have hs : s2 = s1 := by
      rw [h2] at hnil
      cases hnil
      rfl
    subst hs
    have hfar : ∀ k, (k ∈ s.far.keys ∨ k ∈ argKeys createfars ∨ k ∈ argKeys updatefars) →
        k ∈ s2.far.keys := by
      intro k hk
      rw [hfar2]
      apply argSetAll_keys
      rcases hk with hk | hk | hk
      · exact Or.inl (argSetAll_keys _ _ _ (Or.inl hk))
      · exact Or.inl (argSetAll_keys _ _ _ (Or.inr hk))
      · exact Or.inr hk
    intro id p hp
    rw [hpdr] at hp
    rcases argSetAll_get_some _ _ _ _ hp with h1 | h1
    · exact hfar _ (hsup (id, p) (List.mem_append_right _ h1))
    · rcases argSetAll_get_some _ _ _ _ h1 with h3 | h3
      · exact hfar _ (hsup (id, p) (List.mem_append_left _ h3))
      · exact hfar _ (Or.inl (hinv id p h3))

/-- Witness of C3 (amended): on `sessionOne`, creating `pdrB` (which refers to FAR 1)
together with `farB`. -/
theorem AddUpdatePDRsFARs_refs_preserved_witness :
    ((∀ id ∈ argKeys mapB, id ∉ sessionOne.pdr.keys) ∧
      (∀ id ∈ argKeys mapFarB, id ∉ sessionOne.far.keys) ∧
      sessionOne.assignsToNilTable mapB mapFarB none none = false) ∧
    sessionOne.refsResolved ∧
    (∀ e ∈ argEntries mapB ++ argEntries (none : Option PDRMap),
      e.2.farid ∈ sessionOne.far.keys ∨ e.2.farid ∈ argKeys mapFarB ∨
        e.2.farid ∈ argKeys (none : Option FARMap)) ∧
    ∃ s1, sessionOne.AddUpdatePDRsFARs stdRuntime mapB mapFarB none none = .done (none, s1) ∧
      s1.refsResolved :=
  have hfresh : (∀ id ∈ argKeys mapB, id ∉ sessionOne.pdr.keys) ∧
      (∀ id ∈ argKeys mapFarB, id ∉ sessionOne.far.keys) ∧
      sessionOne.assignsToNilTable mapB mapFarB none none = false := by
    refine ⟨?_, ?_, ?_⟩ <;> decide
  have hinv : sessionOne.refsResolved := by
    intro id p hp
    have hmem := GoMap.lookupList_mem _ _ _ hp
    have hE : sessionOne.pdr.entries = [(1, pdrA)] := by decide
    rw [hE] at hmem
    simp only [List.mem_singleton, Prod.mk.injEq] at hmem
    rw [hmem.2]
    decide
  have hsup : ∀ e ∈ argEntries mapB ++ argEntries (none : Option PDRMap),
      e.2.farid ∈ sessionOne.far.keys ∨ e.2.farid ∈ argKeys mapFarB ∨
        e.2.farid ∈ argKeys (none : Option FARMap) := by
    decide
  ⟨hfresh, hinv, hsup,
    match (AddUpdatePDRsFARs_refs_preserved stdRuntime sessionOne mapB mapFarB none
      none).1 hfresh with
    | ⟨s1, h1⟩ =>
      ⟨s1, h1, (AddUpdatePDRsFARs_refs_preserved stdRuntime sessionOne mapB mapFarB none none).2
        s1 h1 hinv hsup⟩⟩

/-- C4: when no id of `createPDRs` is a key of the session's PDR map and no id of
`createFARs` a key of its FAR map, and the call assigns to no nil table (the tables of
the session are allocated, or the maps written to a nil table are empty),
`AddUpdatePDRsFARs` returns nil; afterwards the PDR map binds every id to its rule in
`updatePDRs` if it has one, else to its rule in `createPDRs` if it has one, else to the
rule it had before (so an id of both maps ends with the update value and an absent
update id is inserted); the FAR map is obtained in the same way from `createFARs` and
`updateFARs`; an id of none of the four maps keeps its old rule. -/
theorem AddUpdatePDRsFARs_fresh_ids_commit (rt : GoRuntime) (s : PFCPSession)
    (createpdrs : Option PDRMap) (createfars : Option FARMap)
    (updatepdrs : Option PDRMap) (updatefars : Option FARMap)
    (hp : ∀ id ∈ argKeys createpdrs, id ∉ s.pdr.keys)
    (hf : ∀ id ∈ argKeys createfars, id ∉ s.far.keys)
    (hn : s.assignsToNilTable createpdrs createfars updatepdrs updatefars = false)
    (wcp : argWF createpdrs) (wcf : argWF createfars)
    (wup : argWF updatepdrs) (wuf : argWF updatefars) :
    ∃ s1,
      s.AddUpdatePDRsFARs rt createpdrs createfars updatepdrs updatefars = .done (none, s1) ∧
      (∀ id, s1.pdr.get id
        = (argGet updatepdrs id).orElse
            (fun _ => (argGet createpdrs id).orElse (fun _ => s.pdr.get id))) ∧
      (∀ id, s1.far.get id
        = (argGet updatefars id).orElse
            (fun _ => (argGet createfars id).orElse (fun _ => s.far.get id))) ∧
      (∀ id, id ∉ argKeys createpdrs → id ∉ argKeys updatepdrs → s1.pdr.get id = s.pdr.get id) ∧
      (∀ id, id ∉ argKeys createfars → id ∉ argKeys updatefars →
        s1.far.get id = s.far.get id) := by
  obtain ⟨s1, hr, hpdr, hfar⟩ := AddUpdatePDRsFARs_of_checks rt s createpdrs createfars
    updatepdrs updatefars ((checkPDRsNotExistUnsafe_eq_none_iff s createpdrs).mpr hp)
    ((checkFARsNotExistUnsafe_eq_none_iff s createfars).mpr hf) hn
  have h1 : ∀ id, s1.pdr.get id
      = (argGet updatepdrs id).orElse
          (fun _ => (argGet createpdrs id).orElse (fun _ => s.pdr.get id)) := by
    intro id
    rw [hpdr, argSetAll_get _ _ _ wup, argSetAll_get _ _ _ wcp]
  have h2 : ∀ id, s1.far.get id
      = (argGet updatefars id).orElse
          (fun _ => (argGet createfars id).orElse (fun _ => s.far.get id)) := by
    intro id
    rw [hfar, argSetAll_get _ _ _ wuf, argSetAll_get _ _ _ wcf]
  refine ⟨s1, hr, h1, h2, ?_, ?_⟩
  · intro id hc hu
    rw [h1, argGet_eq_none _ _ hc, argGet_eq_none _ _ hu]
    rfl
  · intro id hc hu
    rw [h2, argGet_eq_none _ _ hc, argGet_eq_none _ _ hu]
    rfl

/-- Witness of C4: on `sessionOne`, a transaction that creates PDR 2 as `pdrB`, updates
PDR 2 to `pdrD` and PDR 3 to `pdrC`, and creates FAR 2: afterwards PDR 1 is `pdrA`,
PDR 2 is `pdrD` (the update value), PDR 3 is `pdrC` (inserted by the update). -/
theorem AddUpdatePDRsFARs_fresh_ids_commit_witness :
    (∀ id ∈ argKeys mapB, id ∉ sessionOne.pdr.keys) ∧
    (∀ id ∈ argKeys mapFarB, id ∉ sessionOne.far.keys) ∧
    sessionOne.assignsToNilTable mapB mapFarB mapDC none = false ∧
    argWF mapB ∧ argWF mapFarB ∧ argWF mapDC ∧ argWF (none : Option FARMap) ∧
    ∃ s1,
      sessionOne.AddUpdatePDRsFARs stdRuntime mapB mapFarB mapDC none = .done (none, s1) ∧
      (∀ id, s1.pdr.get id
        = (argGet mapDC id).orElse
            (fun _ => (argGet mapB id).orElse (fun _ => sessionOne.pdr.get id))) ∧
      s1.pdr.get 1 = some pdrA ∧ s1.pdr.get 2 = some pdrD ∧ s1.pdr.get 3 = some pdrC :=
  ⟨by decide, by decide, by decide, by decide, by decide, by decide, by decide,
    match AddUpdatePDRsFARs_fresh_ids_commit stdRuntime sessionOne mapB mapFarB mapDC none
      (by decide) (by decide) (by decide) (by decide) (by decide) (by decide) (by decide) with
    | ⟨s1, h0, h1, _⟩ =>
      ⟨s1, h0, h1, by rw [h1]; decide, by rw [h1]; decide, by rw [h1]; decide⟩⟩

/-- C5 (defect): a new session has modification counter 0, but `AddUpdatePDRsFARs`
increments the counter of its own copy of the struct (value receiver): for every
call that returns, also one that returns nil, `TimeUpdated` returns afterwards what it
returned before, while the counter of the copy is one greater (modulo `2 ^ 32`).  On
`sessionOne` a call with four nil maps returns nil and `TimeUpdated` is still 0. -/
theorem TimeUpdated_unchanged_by_AddUpdatePDRsFARs :
    (∀ (rt : GoRuntime) (pdrs : Option PDRMap) (fars : Option FARMap),
      (newSessionRuleState rt pdrs fars).TimeUpdated = 0) ∧
    (∀ (rt : GoRuntime) (s : PFCPSession) (createpdrs : Option PDRMap)
        (createfars : Option FARMap) (updatepdrs : Option PDRMap) (updatefars : Option FARMap)
        (r : Option Error × PFCPSession),
      s.AddUpdatePDRsFARs rt createpdrs createfars updatepdrs updatefars = .done r →
      r.2.TimeUpdated = s.TimeUpdated ∧
      (r.1 = none →
        (AddUpdatePDRsFARsBody rt (Frame.enter s) createpdrs createfars updatepdrs
          updatefars).2.s.TimeUpdated = (s.TimeUpdated + 1) % 2 ^ 32)) ∧
    sessionOne.TimeUpdated = 0 ∧
    (∃ s1, sessionOne.AddUpdatePDRsFARs stdRuntime none none none none = .done (none, s1) ∧
      s1.TimeUpdated = 0) := by
  refine ⟨?_, ?_, by decide, ⟨_, rfl, by decide⟩⟩
  · intro rt pdrs fars
    have key : ∀ (l : List (Nat × PDR)) (g : Frame),
        (l.foldl (fun g e => g.appendSortedPDR rt e.2) g).s.timeUpdated = g.s.timeUpdated := by
      intro l
      induction l with
      | nil => intro g; rfl
      | cons hd tl ih =>
        intro g
        simp only [List.foldl_cons]
        rw [ih, (Frame.appendSortedPDR_pdr rt g hd.2).2.2]
    exact key _ _
  · intro rt s createpdrs createfars updatepdrs updatefars r hr
    refine ⟨(AddUpdatePDRsFARs_scalars rt s createpdrs createfars updatepdrs updatefars r hr).1,
      fun h => ?_⟩
    have hd := AddUpdatePDRsFARs_done rt s createpdrs createfars updatepdrs updatefars r hr
    rw [hd] at h
    exact AddUpdatePDRsFARsBody_timeUpdated rt s createpdrs createfars updatepdrs updatefars h

/-- On `sessionNilTables`, the struct built from nil maps, a transaction that creates a
PDR or updates a FAR panics on the assignment to the nil table; a transaction with
four nil maps, or with four empty maps, assigns nothing and returns nil. -/
theorem AddUpdatePDRsFARs_on_nil_tables :
    sessionNilTables.AddUpdatePDRsFARs stdRuntime (some ⟨[(2, pdrB)]⟩) none none none = .panic ∧
    sessionNilTables.AddUpdatePDRsFARs stdRuntime none none none (some ⟨[(2, farB)]⟩) = .panic ∧
    (∃ s1, sessionNilTables.AddUpdatePDRsFARs stdRuntime none none none none
      = .done (none, s1)) ∧
    (∃ s1, sessionNilTables.AddUpdatePDRsFARs stdRuntime (some ⟨[]⟩) (some ⟨[]⟩) (some ⟨[]⟩)
      (some ⟨[]⟩) = .done (none, s1)) := by
  refine ⟨by decide, by decide, ⟨_, rfl⟩, ⟨_, rfl⟩⟩

/-! ## The claims on the entity and the reply path -/

theorem afterCalls_nextRemoteSessionID (e : PFCPEntity) (h1 : e.nextRemoteSessionID = 1) (n : Nat) :
    (e.afterCalls n).nextRemoteSessionID = (1 + n) % 2 ^ 64 := by
  induction n with
  | zero => simp [PFCPEntity.afterCalls, h1]
  | succ n ih =>
    show ((e.afterCalls n).nextRemoteSessionID + 1) % 2 ^ 64 = (1 + (n + 1)) % 2 ^ 64
    rw [ih]
    omega

theorem kthSessionID_eq (e : PFCPEntity) (h1 : e.nextRemoteSessionID = 1) (k : Nat)
    (hk1 : 1 ≤ k) (hk2 : k < 2 ^ 64) : e.kthSessionID k = k := by
  show (e.afterCalls (k - 1)).nextRemoteSessionID = k
  rw [afterCalls_nextRemoteSessionID e h1]
  omega

/-- C6: on an entity built by `NewPFCPEntity` the first call of
`GetNextRemoteSessionID` returns 1, the `k`-th call returns `k` for every `k` with
`1 ≤ k < 2 ^ 64`, and so of two such calls the later one returns the strictly greater
value (no value repeats). -/
theorem GetNextRemoteSessionID_kth (env : Env) (nodeID kind : String) :
    (NewPFCPEntity env nodeID kind).GetNextRemoteSessionID.1 = 1 ∧
    (∀ k, 1 ≤ k → k < 2 ^ 64 → (NewPFCPEntity env nodeID kind).kthSessionID k = k) ∧
    (∀ j k, 1 ≤ j → j < k → k < 2 ^ 64 →
      (NewPFCPEntity env nodeID kind).kthSessionID j
        < (NewPFCPEntity env nodeID kind).kthSessionID k) := by
  refine ⟨rfl, ?_, ?_⟩
  · intro k hk1 hk2
    exact kthSessionID_eq _ rfl k hk1 hk2
  · intro j k hj hjk hk
    rw [kthSessionID_eq _ rfl j hj (by omega), kthSessionID_eq _ rfl k (by omega) hk]
    exact hjk

/-- Witness of C6: the third call returns 3, more than the second. -/
theorem GetNextRemoteSessionID_kth_witness :
    (1 ≤ 3 ∧ 3 < 2 ^ 64) ∧ (1 ≤ 2 ∧ 2 < 3) ∧
    sampleEntity.kthSessionID 3 = 3 ∧ sampleEntity.kthSessionID 2 < sampleEntity.kthSessionID 3 :=
  ⟨⟨by omega, by omega⟩, ⟨by omega, by omega⟩,
   (GetNextRemoteSessionID_kth stdEnv "10.0.0.1" "UP").2.1 3 (by omega) (by omega),
   (GetNextRemoteSessionID_kth stdEnv "10.0.0.1" "UP").2.2 2 3 (by omega) (by omega) (by omega)⟩

/-- C7: whenever the received message is not of request class, or the candidate
response is not of response class, or the two sequence numbers differ, `ReplyTo`
returns an error and the entity is what it was: nothing has been handed to its send
operation. -/
theorem ReplyTo_rejects (env : Env) (receivedMessage : ReceivedMessage) (entity : EntityCore)
    (responseMessage : Message)
    (h : env.IsMessageTypeRequest receivedMessage.Message.msgType = false ∨
         env.IsMessageTypeResponse responseMessage.msgType = false ∨
         receivedMessage.Message.sequence ≠ responseMessage.sequence) :
    (receivedMessage.ReplyTo env entity responseMessage).1 ≠ none ∧
    (receivedMessage.ReplyTo env entity responseMessage).2 = entity ∧
    (receivedMessage.ReplyTo env entity responseMessage).2.writes = entity.writes := by
  have key : (receivedMessage.ReplyTo env entity responseMessage).1 ≠ none ∧
      (receivedMessage.ReplyTo env entity responseMessage).2 = entity := by
    unfold ReceivedMessage.ReplyTo
    by_cases h1 : env.IsMessageTypeRequest receivedMessage.Message.msgType = true
    · by_cases h2 : env.IsMessageTypeResponse responseMessage.msgType = true
      · by_cases h3 : receivedMessage.Message.sequence = responseMessage.sequence
        · exfalso
          rcases h with h | h | h
          · rw [h1] at h
            exact Bool.noConfusion h
          · rw [h2] at h
            exact Bool.noConfusion h
          · exact h h3
        · simp [h1, h2, h3]
      · simp [h1, h2]
    · simp [h1]
  exact ⟨key.1, key.2, by rw [key.2]⟩

/-- Witness of C7: a Session Modification Response with sequence number 8 offered in
reply to a request with sequence number 7. -/
theorem ReplyTo_rejects_witness :
    (stdEnv.IsMessageTypeRequest sampleModificationRequest.Message.msgType = false ∨
      stdEnv.IsMessageTypeResponse sampleMismatchedResponse.msgType = false ∨
      sampleModificationRequest.Message.sequence ≠ sampleMismatchedResponse.sequence) ∧
    (sampleModificationRequest.ReplyTo stdEnv sampleEntity.toEntityCore
      sampleMismatchedResponse).1 ≠ none ∧
    (sampleModificationRequest.ReplyTo stdEnv sampleEntity.toEntityCore
      sampleMismatchedResponse).2.writes = [] :=
  have hyp : stdEnv.IsMessageTypeRequest sampleModificationRequest.Message.msgType = false ∨
      stdEnv.IsMessageTypeResponse sampleMismatchedResponse.msgType = false ∨
      sampleModificationRequest.Message.sequence ≠ sampleMismatchedResponse.sequence :=
    Or.inr (Or.inr (by decide))
  have h := ReplyTo_rejects stdEnv sampleModificationRequest sampleEntity.toEntityCore
    sampleMismatchedResponse hyp
  ⟨hyp, h.1, h.2.2⟩

/-- C8 (counterexample): a Session Establishment Response (type 51) is not the response
paired with a Session Modification Request (type 52), yet with equal sequence numbers
`ReplyTo` returns nil and the response is handed to the send operation. -/
theorem ReplyTo_sends_unpaired_response :
    stdEnv.IsMessageTypeRequest sampleModificationRequest.Message.msgType = true ∧
    sampleEstablishmentResponse.msgType
      ≠ pairedResponseType sampleModificationRequest.Message.msgType ∧
    sampleModificationRequest.Message.sequence = sampleEstablishmentResponse.sequence ∧
    (sampleModificationRequest.ReplyTo stdEnv sampleEntity.toEntityCore
      sampleEstablishmentResponse).1 = none ∧
    (sampleModificationRequest.ReplyTo stdEnv sampleEntity.toEntityCore
      sampleEstablishmentResponse).2.writes = [([51, 7, 0], "peer")] := by
  refine ⟨rfl, by decide, rfl, rfl, rfl⟩

/-- C8 (amended): `ReplyTo` looks at the classes of the two message types and at the
sequence numbers, not at the pairing of the types.  For every received request and
every response of response class with the same sequence number, whatever its type,
`ReplyTo` marshals the response: if marshalling fails it returns that error and sends
nothing, otherwise it hands the bytes to the send operation, addressed to the sender,
and returns what the write returns. -/
theorem ReplyTo_checks_class_and_sequence_only (env : Env) (receivedMessage : ReceivedMessage)
    (entity : EntityCore) (responseMessage : Message)
    (h1 : env.IsMessageTypeRequest receivedMessage.Message.msgType = true)
    (h2 : env.IsMessageTypeResponse responseMessage.msgType = true)
    (h3 : receivedMessage.Message.sequence = responseMessage.sequence) :
    (∀ err, env.MarshalTo responseMessage = .error err →
      receivedMessage.ReplyTo env entity responseMessage = (some err, entity)) ∧
    (∀ b, env.MarshalTo responseMessage = .ok b →
      (receivedMessage.ReplyTo env entity responseMessage).1
        = env.WriteTo b receivedMessage.SenderAddr ∧
      (receivedMessage.ReplyTo env entity responseMessage).2.writes
        = entity.writes ++ [(b, receivedMessage.SenderAddr)]) := by
  constructor
  · intro err hm
    unfold ReceivedMessage.ReplyTo
    simp [h1, h2, h3, hm]
  · intro b hm
    unfold ReceivedMessage.ReplyTo EntityCore.sendTo
    simp only [h1, h2, h3, hm]
    cases hw : env.WriteTo b receivedMessage.SenderAddr <;> simp

/-- Witness of C8 (amended): the Session Establishment Response of the counterexample. -/
theorem ReplyTo_checks_class_and_sequence_only_witness :
    stdEnv.IsMessageTypeRequest sampleModificationRequest.Message.msgType = true ∧
    stdEnv.IsMessageTypeResponse sampleEstablishmentResponse.msgType = true ∧
    sampleModificationRequest.Message.sequence = sampleEstablishmentResponse.sequence ∧
    stdEnv.MarshalTo sampleEstablishmentResponse = .ok [51, 7, 0] ∧
    (sampleModificationRequest.ReplyTo stdEnv sampleEntity.toEntityCore
      sampleEstablishmentResponse).1 = stdEnv.WriteTo [51, 7, 0] "peer" ∧
    (sampleModificationRequest.ReplyTo stdEnv sampleEntity.toEntityCore
      sampleEstablishmentResponse).2.writes
      = sampleEntity.writes ++ [([51, 7, 0], "peer")] :=
  ⟨rfl, rfl, rfl, rfl,
   (ReplyTo_checks_class_and_sequence_only stdEnv sampleModificationRequest
    sampleEntity.toEntityCore sampleEstablishmentResponse rfl rfl rfl).2 [51, 7, 0] rfl⟩

/-- C9 (defect): in the receive loop the error of `GetHandler` is logged and the loop
body goes on to call the handler it got, which is nil: for a datagram that decodes to
a message whose type has no registered handler, the pass through the loop body ends
in a panic instead of going on to the next datagram. -/
theorem receiveStep_unregistered_type_panics (env : Env) (e : PFCPEntity) (buf : Bytes)
    (addr : Addr) (msg : Message)
    (hparse : env.Parse buf = some msg) (hno : e.handlers.get msg.msgType = none) :
    (e.GetHandler msg.msgType) = (none, some Error.unexpectedMessageType) ∧
    e.receiveStep env (.ok (buf, addr)) = LoopOutcome.panic := by
  have hg : e.GetHandler msg.msgType = (none, some Error.unexpectedMessageType) := by
    unfold PFCPEntity.GetHandler
    rw [hno]
  refine ⟨hg, ?_⟩
  unfold PFCPEntity.receiveStep
  simp only [hparse, hg]

/-- Witness of C9: an entity with the default handlers receives a Session Establishment
Request. -/
theorem receiveStep_unregistered_type_panics_witness :
    stdEnv.Parse sampleDatagram
      = some { msgType := MsgTypeSessionEstablishmentRequest, sequence := 1, seid := 0 } ∧
    sampleEntity.handlers.get MsgTypeSessionEstablishmentRequest = none ∧
    sampleEntity.receiveStep stdEnv (.ok (sampleDatagram, "peer")) = LoopOutcome.panic :=
  ⟨rfl, rfl,
   (receiveStep_unregistered_type_panics stdEnv sampleEntity sampleDatagram "peer"
      { msgType := MsgTypeSessionEstablishmentRequest, sequence := 1, seid := 0 } rfl rfl).2⟩

/-- C10: `AddHandler(t, h)` returns an error and leaves the handler registry unchanged
if and only if the recovery timestamp of the entity is set (as it is once `listen` has
run) or `t` is not a request-class type; otherwise it returns nil, `GetHandler(t)`
then returns `h` with a nil error, and `GetHandler` of every other type returns what
it returned before. -/
theorem AddHandler_spec (env : Env) (e : PFCPEntity) (t : MessageType) (h : handler) :
    (((e.AddHandler env t h).1 ≠ none ∧ (e.AddHandler env t h).2.handlers = e.handlers) ↔
      (e.recoveryTimeStamp ≠ none ∨ env.IsMessageTypeRequest t = false)) ∧
    ((e.recoveryTimeStamp ≠ none ∨ env.IsMessageTypeRequest t = false) →
      (e.AddHandler env t h).2 = e) ∧
    (¬ (e.recoveryTimeStamp ≠ none ∨ env.IsMessageTypeRequest t = false) →
      (e.AddHandler env t h).1 = none ∧
      (e.AddHandler env t h).2.GetHandler t = (h, none) ∧
      ∀ t0, t0 ≠ t → (e.AddHandler env t h).2.GetHandler t0 = e.GetHandler t0) ∧
    (∀ now, ((e.listen env now).2.AddHandler env t h).1 ≠ none) := by
  have hget : ∀ t0, ({ e with handlers := e.handlers.set t h } : PFCPEntity).GetHandler t0
      = if t = t0 then (h, none) else e.GetHandler t0 := by
    intro t0
    unfold PFCPEntity.GetHandler
    simp only [GoMap.get_set]
    by_cases ht : t = t0 <;> simp [ht]
  by_cases hs : e.recoveryTimeStamp = none
  · by_cases hr : env.IsMessageTypeRequest t = true
    · have hAdd : e.AddHandler env t h = (none, { e with handlers := e.handlers.set t h }) := by
        unfold PFCPEntity.AddHandler EntityCore.RecoveryTimeStamp
        simp [hs, hr]
      refine ⟨?_, ?_, ?_, ?_⟩
      · rw [hAdd]
        simp [hs, hr]
      · intro hc
        rcases hc with hc | hc
        · exact absurd hs hc
        · rw [hr] at hc
          exact Bool.noConfusion hc
      · intro _
        rw [hAdd]
        refine ⟨rfl, ?_, ?_⟩
        · rw [hget]
          simp
        · intro t0 ht0
          rw [hget]
          simp [Ne.symm ht0]
      · intro now
        unfold PFCPEntity.AddHandler EntityCore.RecoveryTimeStamp PFCPEntity.listen
        simp
    · have hAdd : e.AddHandler env t h = (some .onlyRequestsHaveHandler, e) := by
        unfold PFCPEntity.AddHandler EntityCore.RecoveryTimeStamp
        simp [hs, hr]
      refine ⟨?_, ?_, ?_, ?_⟩
      · rw [hAdd]
        simp [hr]
      · intro _
        rw [hAdd]
      · intro hc
        exact absurd (Or.inr (by simpa using hr)) hc
      · intro now
        unfold PFCPEntity.AddHandler EntityCore.RecoveryTimeStamp PFCPEntity.listen
        simp
  · have hAdd : e.AddHandler env t h = (some .alreadyStarted, e) := by
      unfold PFCPEntity.AddHandler EntityCore.RecoveryTimeStamp
      simp [hs]
    refine ⟨?_, ?_, ?_, ?_⟩
    · rw [hAdd]
      simp [hs]
    · intro _
      rw [hAdd]
    · intro hc
      exact absurd (Or.inl hs) hc
    · intro now
      unfold PFCPEntity.AddHandler EntityCore.RecoveryTimeStamp PFCPEntity.listen
      simp

/-- Witness of C10: registering `sampleHandler` for Session Establishment Request on an
entity that has not been started succeeds and leaves the heartbeat handler in place. -/
theorem AddHandler_spec_witness :
    (sampleEntity.AddHandler stdEnv MsgTypeSessionEstablishmentRequest sampleHandler).1 = none ∧
    (sampleEntity.AddHandler stdEnv MsgTypeSessionEstablishmentRequest sampleHandler).2.GetHandler
        MsgTypeSessionEstablishmentRequest = (sampleHandler, none) ∧
    (sampleEntity.AddHandler stdEnv MsgTypeSessionEstablishmentRequest sampleHandler).2.GetHandler
        MsgTypeHeartbeatRequest = sampleEntity.GetHandler MsgTypeHeartbeatRequest :=
  have h := (AddHandler_spec stdEnv sampleEntity MsgTypeSessionEstablishmentRequest
    sampleHandler).2.2.1
    (by
      intro hc
      rcases hc with hc | hc
      · exact hc rfl
      · exact Bool.noConfusion hc)
  ⟨h.1, h.2.1, h.2.2 MsgTypeHeartbeatRequest (by decide)⟩

/-! ## The claims on the session establishment handler -/

/-- A reply that passes the three tests of `ReplyTo` and marshals is handed to the
socket, addressed to the sender; only `writes` changes in the entity. -/
theorem ReplyTo_of_checks (env : Env) (receivedMessage : ReceivedMessage) (entity : EntityCore)
    (responseMessage : Message) (b : Bytes)
    (h1 : env.IsMessageTypeRequest receivedMessage.Message.msgType = true)
    (h2 : env.IsMessageTypeResponse responseMessage.msgType = true)
    (h3 : receivedMessage.Message.sequence = responseMessage.sequence)
    (hm : env.MarshalTo responseMessage = .ok b) :
    receivedMessage.ReplyTo env entity responseMessage
      = (env.WriteTo b receivedMessage.SenderAddr,
         { entity with writes := entity.writes ++ [(b, receivedMessage.SenderAddr)] }) := by
  unfold ReceivedMessage.ReplyTo EntityCore.sendTo
  simp only [h1, h2, h3, hm]
  cases hw : env.WriteTo b receivedMessage.SenderAddr <;> simp

/-- `ReplyTo` changes neither the session table nor the association table. -/
theorem ReplyTo_tables (env : Env) (receivedMessage : ReceivedMessage) (entity : EntityCore)
    (responseMessage : Message) :
    (receivedMessage.ReplyTo env entity responseMessage).2.sessionsMap = entity.sessionsMap ∧
    (receivedMessage.ReplyTo env entity responseMessage).2.associationsMap
      = entity.associationsMap := by
  unfold ReceivedMessage.ReplyTo EntityCore.sendTo
  split
  · exact ⟨rfl, rfl⟩
  · split
    · exact ⟨rfl, rfl⟩
    · split
      · exact ⟨rfl, rfl⟩
      · split
        · exact ⟨rfl, rfl⟩
        · split <;> exact ⟨rfl, rfl⟩

/-- The Node ID pointer of an entity built from a string that is not empty. -/
theorem EntityCore.NodeID_of_ne (e : EntityCore) (h : e.nodeID ≠ "") :
    e.NodeID = some (IE.nodeID e.nodeID) := by
  unfold EntityCore.NodeID
  simp [h]

/-- The Node ID pointer of an entity built from the empty string is nil. -/
theorem EntityCore.NodeID_of_eq (e : EntityCore) (h : e.nodeID = "") : e.NodeID = none := by
  unfold EntityCore.NodeID
  simp [h]

/-- A response constructor given a nil pointer first panics. -/
theorem constructorElements_nil_first (rest : List (Option IE)) :
    constructorElements (none :: rest) = .panic := by
  simp [constructorElements]

/-- What `replySessionEstablishmentResponse` replies, when it replies. -/
theorem replySessionEstablishmentResponse_reply (seid seq : Nat) (ies : List (Option IE))
    (entity : EntityCore) (res : Message) (e : EntityCore)
    (h : replySessionEstablishmentResponse seid seq ies entity = .reply res e) :
    res.msgType = MsgTypeSessionEstablishmentResponse ∧ res.seid = seid ∧ res.sequence = seq := by
  unfold replySessionEstablishmentResponse at h
  cases hc : constructorElements ies with
  | panic => simp [hc] at h
  | done l =>
    simp only [hc, HandlerStep.reply.injEq] at h
    rw [← h.1]
    exact ⟨rfl, rfl, rfl⟩

/-- C11: for every Session Establishment Request that carries no CP F-SEID, whatever
its other fields, its sender and the associations of the entity, the handler of an
entity that has a Node ID replies through `ReplyTo` with a Session Establishment
Response whose cause is Mandatory IE Missing, whose offending element is F-SEID, whose
header SEID is 0 and whose sequence number is that of the request; when the
classification admits the two types and the response marshals, these bytes are handed
to the socket, addressed to the sender. -/
theorem handleSessionEstablishmentRequest_missing_FSEID (env : Env) (ext : Ext)
    (msg : ReceivedMessage) (entity : EntityCore)
    (hid : entity.nodeID ≠ "")
    (ht : msg.Message.msgType = MsgTypeSessionEstablishmentRequest)
    (hf : msg.Message.CPFSEID = .absent) :
    ∃ res,
      handleSessionEstablishmentRequestStep ext msg entity = .reply res entity ∧
      handleSessionEstablishmentRequest env ext msg entity = .done (msg.ReplyTo env entity res) ∧
      res.msgType = MsgTypeSessionEstablishmentResponse ∧
      res.cause = some CauseMandatoryIEMissing ∧
      res.offendingIE = some IETypeFSEID ∧
      res.seid = 0 ∧
      res.sequence = msg.Message.sequence ∧
      (∀ b, env.IsMessageTypeRequest MsgTypeSessionEstablishmentRequest = true →
        env.IsMessageTypeResponse MsgTypeSessionEstablishmentResponse = true →
        env.MarshalTo res = .ok b →
        handleSessionEstablishmentRequest env ext msg entity
          = .done (env.WriteTo b msg.SenderAddr,
              { entity with writes := entity.writes ++ [(b, msg.SenderAddr)] })) := by
  have hnode := EntityCore.NodeID_of_ne entity hid
  have hstep : handleSessionEstablishmentRequestStep ext msg entity
      = .reply (NewSessionEstablishmentResponse 0 msg.Message.sequence
          [IE.nodeID entity.nodeID, .cause CauseMandatoryIEMissing,
            .offendingIE IETypeFSEID]) entity := by
    unfold handleSessionEstablishmentRequestStep
    simp [ht, hf, hnode, replySessionEstablishmentResponse, constructorElements]
  have hfin : handleSessionEstablishmentRequest env ext msg entity
      = .done (msg.ReplyTo env entity (NewSessionEstablishmentResponse 0 msg.Message.sequence
          [IE.nodeID entity.nodeID, .cause CauseMandatoryIEMissing,
            .offendingIE IETypeFSEID])) := by
    unfold handleSessionEstablishmentRequest
    rw [hstep]
    rfl
  refine ⟨_, hstep, hfin, rfl, rfl, rfl, rfl, rfl, ?_⟩
  intro b h1 h2 hm
  rw [hfin, ReplyTo_of_checks env msg entity (NewSessionEstablishmentResponse 0
    msg.Message.sequence [IE.nodeID entity.nodeID, .cause CauseMandatoryIEMissing,
      .offendingIE IETypeFSEID]) b (by rw [ht]; exact h1) h2 rfl hm]

/-- Witness of C11: `requestWithoutFSEID` received by `coreResponder`. -/
theorem handleSessionEstablishmentRequest_missing_FSEID_witness :
    coreResponder.nodeID ≠ "" ∧
    requestWithoutFSEID.Message.msgType = MsgTypeSessionEstablishmentRequest ∧
    requestWithoutFSEID.Message.CPFSEID = .absent ∧
    ∃ res,
      handleSessionEstablishmentRequestStep stdExt requestWithoutFSEID coreResponder
        = .reply res coreResponder ∧
      res.cause = some CauseMandatoryIEMissing ∧ res.offendingIE = some IETypeFSEID ∧
      res.seid = 0 ∧ res.sequence = 9 :=
  ⟨by decide, rfl, rfl,
    match handleSessionEstablishmentRequest_missing_FSEID stdEnv stdExt requestWithoutFSEID
      coreResponder (by decide) rfl rfl with
    | ⟨res, h1, _, _, h4, h5, h6, h7, _⟩ => ⟨res, h1, h4, h5, h6, h7⟩⟩

/-- The entity of an arriving request was started by `Start`, whose `listen` reads the
Node ID through the pointer, so it has one.  For an entity built from the empty string
the pointer is nil and the handler, called on a Session Establishment Request, panics
in the response constructor where it would reply: without CP F-SEID, and with a CP
F-SEID from a sender that has no association. -/
theorem handleSessionEstablishmentRequest_nil_NodeID (env : Env) (ext : Ext)
    (msg : ReceivedMessage) (entity : EntityCore)
    (hid : entity.nodeID = "")
    (ht : msg.Message.msgType = MsgTypeSessionEstablishmentRequest) :
    (msg.Message.CPFSEID = .absent →
      handleSessionEstablishmentRequest env ext msg entity = .panic) ∧
    (∀ f, msg.Message.CPFSEID = .present f →
      entity.associationsMap.associations.get (ext.IPString msg.SenderAddr) = none →
      handleSessionEstablishmentRequest env ext msg entity = .panic) := by
  have hnode := EntityCore.NodeID_of_eq entity hid
  constructor
  · intro hf
    unfold handleSessionEstablishmentRequest handleSessionEstablishmentRequestStep
    simp [ht, hf, hnode, replySessionEstablishmentResponse, constructorElements,
      HandlerStep.finish]
  · intro f hf hs
    have hc : checkSenderAssociation ext entity msg.SenderAddr = .error .noActiveAssociation := by
      unfold checkSenderAssociation EntityCore.GetPFCPAssociation AssociationsMap.Get
      rw [hs]
    unfold handleSessionEstablishmentRequest handleSessionEstablishmentRequestStep
    simp [ht, hf, hc, hnode, replySessionEstablishmentResponse, constructorElements,
      HandlerStep.finish]

theorem checkSenderAssociation_of_absent (ext : Ext) (entity : EntityCore) (senderAddr : Addr)
    (h : entity.associationsMap.associations.get (ext.IPString senderAddr) = none) :
    checkSenderAssociation ext entity senderAddr = .error .noActiveAssociation := by
  unfold checkSenderAssociation EntityCore.GetPFCPAssociation AssociationsMap.Get
  rw [h]

theorem checkSenderAssociation_of_present (ext : Ext) (entity : EntityCore) (senderAddr : Addr)
    (a : PFCPAssociation)
    (h : entity.associationsMap.associations.get (ext.IPString senderAddr) = some a) :
    checkSenderAssociation ext entity senderAddr = .ok a := by
  unfold checkSenderAssociation EntityCore.GetPFCPAssociation AssociationsMap.Get
  rw [h]

theorem GetPFCPAssociation_of_absent (entity : EntityCore) (nid : String)
    (h : entity.associationsMap.associations.get nid = none) :
    entity.GetPFCPAssociation nid = .error .noActiveAssociation := by
  unfold EntityCore.GetPFCPAssociation AssociationsMap.Get
  rw [h]

theorem GetPFCPAssociation_of_present (entity : EntityCore) (nid : String) (a : PFCPAssociation)
    (h : entity.associationsMap.associations.get nid = some a) :
    entity.GetPFCPAssociation nid = .ok a := by
  unfold EntityCore.GetPFCPAssociation AssociationsMap.Get
  rw [h]

theorem isEmpty_eq_false_of_ne_nil {α : Type} (l : List α) (h : l ≠ []) : l.isEmpty = false := by
  cases l with
  | nil => exact absurd rfl h
  | cons a t => rfl

/-- C12 (counterexample): `requestWithoutFSEID` comes from the sender `10.0.0.9`, for
which `coreResponder` has no association, and it carries no CP F-SEID: the response
cause is Mandatory IE Missing, not No Established PFCP Association. -/
theorem handleSessionEstablishmentRequest_FSEID_checked_before_association :
    requestWithoutFSEID.Message.msgType = MsgTypeSessionEstablishmentRequest ∧
    coreResponder.associationsMap.associations.get
      (stdExt.IPString requestWithoutFSEID.SenderAddr) = none ∧
    checkSenderAssociation stdExt coreResponder requestWithoutFSEID.SenderAddr
      = .error .noActiveAssociation ∧
    handleSessionEstablishmentRequestStep stdExt requestWithoutFSEID coreResponder
      = .reply (NewSessionEstablishmentResponse 0 9
          [IE.nodeID "10.0.0.1", .cause CauseMandatoryIEMissing,
            .offendingIE IETypeFSEID]) coreResponder ∧
    (NewSessionEstablishmentResponse 0 9
          [IE.nodeID "10.0.0.1", .cause CauseMandatoryIEMissing,
            .offendingIE IETypeFSEID]).cause = some CauseMandatoryIEMissing ∧
    CauseMandatoryIEMissing ≠ CauseNoEstablishedPFCPAssociation := by
  refine ⟨rfl, rfl, rfl, by decide, rfl, by decide⟩

/-- C12 (amended): for every Session Establishment Request whose CP F-SEID is present
and decodes and whose sender address has no association in the association table of
the entity, the handler of an entity that has a Node ID replies with a Session
Establishment Response whose cause is No Established PFCP Association (no Offending
IE, the peer's SEID in the header, the sequence number of the request), whatever the
rest of the request contains. -/
theorem handleSessionEstablishmentRequest_no_sender_association (ext : Ext)
    (msg : ReceivedMessage) (entity : EntityCore) (f : FSEID)
    (hid : entity.nodeID ≠ "")
    (ht : msg.Message.msgType = MsgTypeSessionEstablishmentRequest)
    (hf : msg.Message.CPFSEID = .present f)
    (hs : entity.associationsMap.associations.get (ext.IPString msg.SenderAddr) = none) :
    (handleSessionEstablishmentRequestStep ext msg entity).repliesWith entity
      MsgTypeSessionEstablishmentResponse f.SEID msg.Message.sequence
      CauseNoEstablishedPFCPAssociation none := by
  have hnode := EntityCore.NodeID_of_ne entity hid
  have hc := checkSenderAssociation_of_absent ext entity msg.SenderAddr hs
  have hstep : handleSessionEstablishmentRequestStep ext msg entity
      = .reply (NewSessionEstablishmentResponse f.SEID msg.Message.sequence
          [IE.nodeID entity.nodeID, .cause CauseNoEstablishedPFCPAssociation])
          entity := by
    unfold handleSessionEstablishmentRequestStep
    simp [ht, hf, hc, hnode, replySessionEstablishmentResponse, constructorElements]
  rw [hstep]
  exact ⟨_, rfl, rfl, rfl, rfl, rfl, rfl⟩

/-- Witness of C12 (amended): `requestWithFSEID` received by `coreResponder`, which has
no association for the sender. -/
theorem handleSessionEstablishmentRequest_no_sender_association_witness :
    coreResponder.nodeID ≠ "" ∧
    requestWithFSEID.Message.msgType = MsgTypeSessionEstablishmentRequest ∧
    requestWithFSEID.Message.CPFSEID = .present { SEID := 42, IPv4Address := some "10.0.0.9" } ∧
    coreResponder.associationsMap.associations.get (stdExt.IPString requestWithFSEID.SenderAddr)
      = none ∧
    (handleSessionEstablishmentRequestStep stdExt requestWithFSEID coreResponder).repliesWith
      coreResponder MsgTypeSessionEstablishmentResponse 42 9 CauseNoEstablishedPFCPAssociation
      none :=
  ⟨by decide, rfl, rfl, rfl,
    handleSessionEstablishmentRequest_no_sender_association stdExt requestWithFSEID coreResponder
      { SEID := 42, IPv4Address := some "10.0.0.9" } (by decide) rfl rfl rfl⟩

/-- C13: for an entity that has a Node ID, the cause and the offending element of the
Session Establishment Response are those of the first check that fails, in the order
CP F-SEID present and decodable, an association stored for the text of the sender
address, Node ID present and decodable, an association stored for that Node ID, Create
PDR list non-empty, Create FAR list non-empty.  A request that passes the first four
checks with an empty Create PDR list is answered Mandatory IE Missing with offending
element Create PDR whatever its Create FAR list.  Every reply made once the F-SEID
decoded is a Session Establishment Response with the peer's SEID in its header and the
sequence number of the request; before that the header SEID is 0. -/
theorem handleSessionEstablishmentRequest_validation_order (ext : Ext) (msg : ReceivedMessage)
    (entity : EntityCore) (hid : entity.nodeID ≠ "")
    (ht : msg.Message.msgType = MsgTypeSessionEstablishmentRequest) :
    (msg.Message.CPFSEID = .absent →
      (handleSessionEstablishmentRequestStep ext msg entity).repliesWith entity
        MsgTypeSessionEstablishmentResponse 0 msg.Message.sequence
        CauseMandatoryIEMissing (some IETypeFSEID)) ∧
    (∀ err, msg.Message.CPFSEID = .malformed err →
      (handleSessionEstablishmentRequestStep ext msg entity).repliesWith entity
        MsgTypeSessionEstablishmentResponse 0 msg.Message.sequence
        (decodeFailureCause err) (some IETypeFSEID)) ∧
    (∀ f, msg.Message.CPFSEID = .present f →
      entity.associationsMap.associations.get (ext.IPString msg.SenderAddr) = none →
      (handleSessionEstablishmentRequestStep ext msg entity).repliesWith entity
        MsgTypeSessionEstablishmentResponse f.SEID msg.Message.sequence
        CauseNoEstablishedPFCPAssociation none) ∧
    (∀ f a, msg.Message.CPFSEID = .present f →
      entity.associationsMap.associations.get (ext.IPString msg.SenderAddr) = some a →
      msg.Message.NodeID = .absent →
      (handleSessionEstablishmentRequestStep ext msg entity).repliesWith entity
        MsgTypeSessionEstablishmentResponse f.SEID msg.Message.sequence
        CauseMandatoryIEMissing (some IETypeNodeID)) ∧
    (∀ f a err, msg.Message.CPFSEID = .present f →
      entity.associationsMap.associations.get (ext.IPString msg.SenderAddr) = some a →
      msg.Message.NodeID = .malformed err →
      (handleSessionEstablishmentRequestStep ext msg entity).repliesWith entity
        MsgTypeSessionEstablishmentResponse f.SEID msg.Message.sequence
        (decodeFailureCause err) (some IETypeNodeID)) ∧
    (∀ f a nid, msg.Message.CPFSEID = .present f →
      entity.associationsMap.associations.get (ext.IPString msg.SenderAddr) = some a →
      msg.Message.NodeID = .present nid →
      entity.associationsMap.associations.get nid = none →
      (handleSessionEstablishmentRequestStep ext msg entity).repliesWith entity
        MsgTypeSessionEstablishmentResponse f.SEID msg.Message.sequence
        CauseNoEstablishedPFCPAssociation none) ∧
    (∀ f a nid association, msg.Message.CPFSEID = .present f →
      entity.associationsMap.associations.get (ext.IPString msg.SenderAddr) = some a →
      msg.Message.NodeID = .present nid →
      entity.associationsMap.associations.get nid = some association →
      msg.Message.CreatePDR = [] →
      (handleSessionEstablishmentRequestStep ext msg entity).repliesWith entity
        MsgTypeSessionEstablishmentResponse f.SEID msg.Message.sequence
        CauseMandatoryIEMissing (some IETypeCreatePDR)) ∧
    (∀ f a nid association, msg.Message.CPFSEID = .present f →
      entity.associationsMap.associations.get (ext.IPString msg.SenderAddr) = some a →
      msg.Message.NodeID = .present nid →
      entity.associationsMap.associations.get nid = some association →
      msg.Message.CreatePDR ≠ [] →
      msg.Message.CreateFAR = [] →
      (handleSessionEstablishmentRequestStep ext msg entity).repliesWith entity
        MsgTypeSessionEstablishmentResponse f.SEID msg.Message.sequence
        CauseMandatoryIEMissing (some IETypeCreateFAR)) ∧
    (∀ f res e, msg.Message.CPFSEID = .present f →
      handleSessionEstablishmentRequestStep ext msg entity = .reply res e →
      res.msgType = MsgTypeSessionEstablishmentResponse ∧ res.seid = f.SEID ∧
        res.sequence = msg.Message.sequence) := by
  have hnode := EntityCore.NodeID_of_ne entity hid
  refine ⟨?_, ?_, ?_, ?_, ?_, ?_, ?_, ?_, ?_⟩
  · intro hf
    have hstep : handleSessionEstablishmentRequestStep ext msg entity
        = .reply (NewSessionEstablishmentResponse 0 msg.Message.sequence
            [IE.nodeID entity.nodeID, .cause CauseMandatoryIEMissing,
              .offendingIE IETypeFSEID]) entity := by
      unfold handleSessionEstablishmentRequestStep
      simp [ht, hf, hnode, replySessionEstablishmentResponse, constructorElements]
    rw [hstep]
    exact ⟨_, rfl, rfl, rfl, rfl, rfl, rfl⟩
  · intro err hf
    have hstep : handleSessionEstablishmentRequestStep ext msg entity
        = .reply (NewSessionEstablishmentResponse 0 msg.Message.sequence
            [IE.nodeID entity.nodeID, .cause (decodeFailureCause err),
              .offendingIE IETypeFSEID]) entity := by
      unfold handleSessionEstablishmentRequestStep
      simp [ht, hf, hnode, replySessionEstablishmentResponse, constructorElements]
    rw [hstep]
    exact ⟨_, rfl, rfl, rfl, rfl, rfl, rfl⟩
  · intro f hf hs0
    have hs := checkSenderAssociation_of_absent ext entity msg.SenderAddr hs0
    have hstep : handleSessionEstablishmentRequestStep ext msg entity
        = .reply (NewSessionEstablishmentResponse f.SEID msg.Message.sequence
            [IE.nodeID entity.nodeID, .cause CauseNoEstablishedPFCPAssociation])
            entity := by
      unfold handleSessionEstablishmentRequestStep
      simp [ht, hf, hs, hnode, replySessionEstablishmentResponse, constructorElements]
    rw [hstep]
    exact ⟨_, rfl, rfl, rfl, rfl, rfl, rfl⟩
  · intro f a hf hs0 hn
    have hs := checkSenderAssociation_of_present ext entity msg.SenderAddr a hs0
    have hstep : handleSessionEstablishmentRequestStep ext msg entity
        = .reply (NewSessionEstablishmentResponse f.SEID msg.Message.sequence
            [IE.nodeID entity.nodeID, .cause CauseMandatoryIEMissing,
              .offendingIE IETypeNodeID]) entity := by
      unfold handleSessionEstablishmentRequestStep
      simp [ht, hf, hs, hn, hnode, replySessionEstablishmentResponse, constructorElements]
    rw [hstep]
    exact ⟨_, rfl, rfl, rfl, rfl, rfl, rfl⟩
  · intro f a err hf hs0 hn
    have hs := checkSenderAssociation_of_present ext entity msg.SenderAddr a hs0
    have hstep : handleSessionEstablishmentRequestStep ext msg entity
        = .reply (NewSessionEstablishmentResponse f.SEID msg.Message.sequence
            [IE.nodeID entity.nodeID, .cause (decodeFailureCause err),
              .offendingIE IETypeNodeID]) entity := by
      unfold handleSessionEstablishmentRequestStep
      simp [ht, hf, hs, hn, hnode, replySessionEstablishmentResponse, constructorElements]
    rw [hstep]
    exact ⟨_, rfl, rfl, rfl, rfl, rfl, rfl⟩
  · intro f a nid hf hs0 hn hg0
    have hs := checkSenderAssociation_of_present ext entity msg.SenderAddr a hs0
    have hg := GetPFCPAssociation_of_absent entity nid hg0
    have hstep : handleSessionEstablishmentRequestStep ext msg entity
        = .reply (NewSessionEstablishmentResponse f.SEID msg.Message.sequence
            [IE.nodeID entity.nodeID, .cause CauseNoEstablishedPFCPAssociation])
            entity := by
      unfold handleSessionEstablishmentRequestStep
      simp [ht, hf, hs, hn, hg, hnode, replySessionEstablishmentResponse, constructorElements]
    rw [hstep]
    exact ⟨_, rfl, rfl, rfl, rfl, rfl, rfl⟩
  · intro f a nid association hf hs0 hn hg0 hp
    have hs := checkSenderAssociation_of_present ext entity msg.SenderAddr a hs0
    have hg := GetPFCPAssociation_of_present entity nid association hg0
    have hstep : handleSessionEstablishmentRequestStep ext msg entity
        = .reply (NewSessionEstablishmentResponse f.SEID msg.Message.sequence
            [IE.nodeID entity.nodeID, .cause CauseMandatoryIEMissing,
              .offendingIE IETypeCreatePDR]) entity := by
      unfold handleSessionEstablishmentRequestStep
      simp [ht, hf, hs, hn, hg, hp, hnode, replySessionEstablishmentResponse,
        constructorElements]
    rw [hstep]
    exact ⟨_, rfl, rfl, rfl, rfl, rfl, rfl⟩
  · intro f a nid association hf hs0 hn hg0 hp hfar
    have hs := checkSenderAssociation_of_present ext entity msg.SenderAddr a hs0
    have hg := GetPFCPAssociation_of_present entity nid association hg0
    have hp1 := isEmpty_eq_false_of_ne_nil _ hp
    have hstep : handleSessionEstablishmentRequestStep ext msg entity
        = .reply (NewSessionEstablishmentResponse f.SEID msg.Message.sequence
            [IE.nodeID entity.nodeID, .cause CauseMandatoryIEMissing,
              .offendingIE IETypeCreateFAR]) entity := by
      unfold handleSessionEstablishmentRequestStep
      simp [ht, hf, hs, hn, hg, hp1, hfar, hnode, replySessionEstablishmentResponse,
        constructorElements]
    rw [hstep]
    exact ⟨_, rfl, rfl, rfl, rfl, rfl, rfl⟩
  · intro f res e hf hstep
    unfold handleSessionEstablishmentRequestStep at hstep
    simp only [ht, hf, ne_eq, not_true_eq_false, if_false] at hstep
    repeat' split at hstep
    all_goals first
      | exact replySessionEstablishmentResponse_reply _ _ _ _ _ _ hstep
      | exact HandlerStep.noConfusion hstep

/-- Witness of C13: `requestWithoutRules` passes the first four checks at
`coreWithPeer` and has both create lists empty: the answer names Create PDR. -/
theorem handleSessionEstablishmentRequest_validation_order_witness :
    coreWithPeer.nodeID ≠ "" ∧
    requestWithoutRules.Message.msgType = MsgTypeSessionEstablishmentRequest ∧
    requestWithoutRules.Message.CPFSEID = .present { SEID := 42, IPv4Address := some "10.0.0.9" } ∧
    coreWithPeer.associationsMap.associations.get
      (stdExt.IPString requestWithoutRules.SenderAddr) = some { nodeID := "10.0.0.9" } ∧
    requestWithoutRules.Message.NodeID = .present "10.0.0.9" ∧
    coreWithPeer.associationsMap.associations.get "10.0.0.9" = some { nodeID := "10.0.0.9" } ∧
    requestWithoutRules.Message.CreatePDR = [] ∧
    requestWithoutRules.Message.CreateFAR = [] ∧
    (handleSessionEstablishmentRequestStep stdExt requestWithoutRules coreWithPeer).repliesWith
      coreWithPeer MsgTypeSessionEstablishmentResponse 42 9 CauseMandatoryIEMissing
      (some IETypeCreatePDR) :=
  ⟨by decide, rfl, rfl, rfl, rfl, rfl, rfl, rfl,
    (handleSessionEstablishmentRequest_validation_order stdExt requestWithoutRules coreWithPeer
      (by decide) rfl).2.2.2.2.2.2.1 { SEID := 42, IPv4Address := some "10.0.0.9" }
      { nodeID := "10.0.0.9" } "10.0.0.9" { nodeID := "10.0.0.9" } rfl rfl rfl rfl rfl⟩

/-! ## The claims on the session modification handler -/

theorem GetPFCPSession_of_not_hasKey (sm : SessionsMap) (localIP : String) (seid : Nat)
    (h : ¬ sm.hasKey localIP seid) : sm.GetPFCPSession localIP seid = .error .sessionNotFound := by
  cases h1 : sm.sessions.get localIP with
  | none => simp [SessionsMap.GetPFCPSession, h1]
  | some inner =>
    cases h2 : inner.get seid with
    | none => simp [SessionsMap.GetPFCPSession, h1, h2]
    | some session =>
      exfalso
      apply h
      refine ⟨inner, h1, ?_⟩
      rw [← GoMap.contains_iff_mem_keys]
      unfold GoMap.contains
      rw [h2]
      rfl

theorem finish_tables (env : Env) (msg : ReceivedMessage) (st : HandlerStep) (res : Message)
    (entity : EntityCore) (h : st = .reply res entity) :
    st.finish env msg = .done (msg.ReplyTo env entity res) ∧
    (msg.ReplyTo env entity res).2.sessionsMap = entity.sessionsMap ∧
    (msg.ReplyTo env entity res).2.associationsMap = entity.associationsMap := by
  subst h
  exact ⟨rfl, (ReplyTo_tables env msg entity res).1, (ReplyTo_tables env msg entity res).2⟩

/-- C14: for every Session Modification Request whose pair (text of the local address
of the entity, header SEID) is not a key of the session table of the entity, the
handler replies through `ReplyTo` with a Session Modification Response whose cause is
Session Context Not Found (header SEID 0, the sequence number of the request); the
entity it leaves has the session table it had, so no rule state of any session has
changed. -/
theorem handleSessionModificationRequest_unknown_session (rt : GoRuntime) (env : Env) (ext : Ext)
    (msg : ReceivedMessage) (entity : EntityCore) (localnodeid localip : String)
    (ht : msg.Message.msgType = MsgTypeSessionModificationRequest)
    (hn : ext.NodeIDValue entity.nodeID = .ok localnodeid)
    (hl : localIPOfNodeID ext entity localnodeid = .ok localip)
    (hk : ¬ entity.sessionsMap.hasKey localip msg.Message.seid) :
    (handleSessionModificationRequestStep rt ext msg entity).repliesWith entity
      MsgTypeSessionModificationResponse 0 msg.Message.sequence CauseSessionContextNotFound none ∧
    (∃ res, handleSessionModificationRequest rt env ext msg entity
        = .done (msg.ReplyTo env entity res) ∧
      res.msgType = MsgTypeSessionModificationResponse ∧
      res.cause = some CauseSessionContextNotFound ∧
      (msg.ReplyTo env entity res).2.sessionsMap = entity.sessionsMap) := by
  have hg : entity.GetPFCPSession localip msg.Message.seid = .error .sessionNotFound :=
    GetPFCPSession_of_not_hasKey entity.sessionsMap localip msg.Message.seid hk
  have hstep : handleSessionModificationRequestStep rt ext msg entity
      = .reply (NewSessionModificationResponse 0 msg.Message.sequence
          [.cause CauseSessionContextNotFound]) entity := by
    unfold handleSessionModificationRequestStep
    simp [ht, hn, hl, hg]
  have hfin := finish_tables env msg _ _ _ hstep
  refine ⟨?_, ⟨_, hfin.1, rfl, rfl, hfin.2.1⟩⟩
  rw [hstep]
  exact ⟨_, rfl, rfl, rfl, rfl, rfl, rfl⟩

/-- Witness of C14: `modificationForSix` received by `coreWithSession`, whose only
session has local SEID 5. -/
theorem handleSessionModificationRequest_unknown_session_witness :
    modificationForSix.Message.msgType = MsgTypeSessionModificationRequest ∧
    stdExt.NodeIDValue coreWithSession.nodeID = .ok "10.0.0.1" ∧
    localIPOfNodeID stdExt coreWithSession "10.0.0.1" = .ok "10.0.0.1" ∧
    ¬ coreWithSession.sessionsMap.hasKey "10.0.0.1" modificationForSix.Message.seid ∧
    (handleSessionModificationRequestStep stdRuntime stdExt modificationForSix
      coreWithSession).repliesWith coreWithSession MsgTypeSessionModificationResponse 0 13
      CauseSessionContextNotFound none :=
  have hk : ¬ coreWithSession.sessionsMap.hasKey "10.0.0.1" modificationForSix.Message.seid := by
    rintro ⟨inner, h1, h2⟩
    have hi : inner = ⟨[(5, sessionFive)]⟩ := by
      have : coreWithSession.sessionsMap.sessions.get "10.0.0.1" = some ⟨[(5, sessionFive)]⟩ := by
        decide
      rw [this] at h1
      exact (Option.some.inj h1).symm
    subst hi
    revert h2
    decide
  ⟨rfl, rfl, rfl, hk,
    (handleSessionModificationRequest_unknown_session stdRuntime stdEnv stdExt modificationForSix
      coreWithSession "10.0.0.1" "10.0.0.1" rfl rfl rfl hk).1⟩

/-- A transaction that assigns to no nil table returns. -/
theorem AddUpdatePDRsFARs_returns (rt : GoRuntime) (s : PFCPSession)
    (createpdrs : Option PDRMap) (createfars : Option FARMap)
    (updatepdrs : Option PDRMap) (updatefars : Option FARMap)
    (hn : s.assignsToNilTable createpdrs createfars updatepdrs updatefars = false) :
    ∃ r, s.AddUpdatePDRsFARs rt createpdrs createfars updatepdrs updatefars = .done r := by
  unfold PFCPSession.AddUpdatePDRsFARs
  cases hp : checkPDRsNotExistUnsafe s createpdrs with
  | some err => exact ⟨_, rfl⟩
  | none =>
    cases hf : checkFARsNotExistUnsafe s createfars with
    | some err => exact ⟨_, rfl⟩
    | none =>
      simp only [hn, Bool.false_eq_true, if_false]
      exact ⟨_, rfl⟩

/-- C15: for every Session Modification Request that resolves to a session of the
session table whose remote F-SEID is set, and whose four rule lists parse and index
without error: whenever the call of `AddUpdatePDRsFARs` on the session with the four
maps returns, the handler replies with a Session Modification Response carrying the
remote SEID of the session in its header and the sequence number of the request; its
cause is Request Accepted if and only if the call returned nil, and Request Rejected
otherwise.  The call returns when it assigns to no nil table, in particular when the
two tables of the session are allocated; when the call panics, so does the handler. -/
theorem handleSessionModificationRequest_cause (rt : GoRuntime) (ext : Ext)
    (msg : ReceivedMessage) (entity : EntityCore) (localnodeid localip : String)
    (session : PFCPSession) (rf : FSEID)
    (createpdrsmap updatepdrsmap : PDRMap) (createfarsmap updatefarsmap : FARMap)
    (ht : msg.Message.msgType = MsgTypeSessionModificationRequest)
    (hn : ext.NodeIDValue entity.nodeID = .ok localnodeid)
    (hl : localIPOfNodeID ext entity localnodeid = .ok localip)
    (hs : entity.GetPFCPSession localip msg.Message.seid = .ok session)
    (hr : session.remoteFseid = some rf)
    (h1 : pdrStage ext msg.Message.CreatePDR = .ok createpdrsmap)
    (h2 : farStage ext msg.Message.CreateFAR = .ok createfarsmap)
    (h3 : pdrStage ext msg.Message.UpdatePDR = .ok updatepdrsmap)
    (h4 : farStage ext msg.Message.UpdateFAR = .ok updatefarsmap) :
    (∀ r, session.AddUpdatePDRsFARs rt (some createpdrsmap) (some createfarsmap)
        (some updatepdrsmap) (some updatefarsmap) = .done r →
      ∃ res entity1,
        handleSessionModificationRequestStep rt ext msg entity = .reply res entity1 ∧
        res.msgType = MsgTypeSessionModificationResponse ∧
        res.seid = rf.SEID ∧
        res.sequence = msg.Message.sequence ∧
        (res.cause = some CauseRequestAccepted ↔ r.1 = none) ∧
        (r.1 ≠ none → res.cause = some CauseRequestRejected)) ∧
    (session.assignsToNilTable (some createpdrsmap) (some createfarsmap) (some updatepdrsmap)
        (some updatefarsmap) = false →
      ∃ r, session.AddUpdatePDRsFARs rt (some createpdrsmap) (some createfarsmap)
        (some updatepdrsmap) (some updatefarsmap) = .done r) ∧
    (session.pdrIsNil = false → session.farIsNil = false →
      ∃ r, session.AddUpdatePDRsFARs rt (some createpdrsmap) (some createfarsmap)
        (some updatepdrsmap) (some updatefarsmap) = .done r) ∧
    (session.AddUpdatePDRsFARs rt (some createpdrsmap) (some createfarsmap)
        (some updatepdrsmap) (some updatefarsmap) = .panic →
      handleSessionModificationRequestStep rt ext msg entity = .panic) := by
  have hrs : session.RemoteSEID = .done (.ok rf.SEID) := by
    unfold PFCPSession.RemoteSEID storedFSEID
    rw [hr]
  refine ⟨?_, ?_, ?_, ?_⟩
  · intro r hcall
    obtain ⟨err, s1⟩ := r
    cases err with
    | none =>
      refine ⟨NewSessionModificationResponse rf.SEID msg.Message.sequence
        [.cause CauseRequestAccepted],
        { entity with sessionsMap := (entity.sessionsMap.store localip msg.Message.seid s1) },
        ?_, rfl, rfl, rfl, ?_, ?_⟩
      · unfold handleSessionModificationRequestStep
        simp only [ht, hn, hl, hs, hrs, h1, h2, h3, h4, hcall, ne_eq, not_true_eq_false, if_false]
      · exact ⟨fun _ => rfl, fun _ => rfl⟩
      · intro hne
        exact absurd rfl hne
    | some err =>
      refine ⟨NewSessionModificationResponse rf.SEID msg.Message.sequence
        [.cause CauseRequestRejected],
        { entity with sessionsMap := (entity.sessionsMap.store localip msg.Message.seid s1) },
        ?_, rfl, rfl, rfl, ?_, ?_⟩
      · unfold handleSessionModificationRequestStep
        simp only [ht, hn, hl, hs, hrs, h1, h2, h3, h4, hcall, ne_eq, not_true_eq_false, if_false]
      · constructor
        · intro hc
          have hc1 : (some CauseRequestRejected : Option Nat) = some CauseRequestAccepted := hc
          exact absurd (Option.some.inj hc1) (by decide)
        · intro hc
          exact Option.noConfusion hc
      · intro _
        rfl
  · intro hnil
    exact AddUpdatePDRsFARs_returns rt session _ _ _ _ hnil
  · intro hpn hfn
    exact AddUpdatePDRsFARs_returns rt session _ _ _ _
      (assignsToNilTable_of_allocated session _ _ _ _ hpn hfn)
  · intro hcall
    unfold handleSessionModificationRequestStep
    simp only [ht, hn, hl, hs, hrs, h1, h2, h3, h4, hcall, ne_eq, not_true_eq_false, if_false]

/-- Witness of C15: `modificationForFive` received by `coreWithSession` creates PDR 2
and FAR 2 on `sessionFive`, whose tables are allocated; the call returns nil and the
reply carries the remote SEID 42 and the cause Request Accepted. -/
theorem handleSessionModificationRequest_cause_witness :
    modificationForFive.Message.msgType = MsgTypeSessionModificationRequest ∧
    coreWithSession.GetPFCPSession "10.0.0.1" modificationForFive.Message.seid = .ok sessionFive ∧
    sessionFive.remoteFseid = some { SEID := 42, IPv4Address := some "10.0.0.9" } ∧
    pdrStage stdExt modificationForFive.Message.CreatePDR = .ok ⟨[(2, pdrB)]⟩ ∧
    farStage stdExt modificationForFive.Message.CreateFAR = .ok ⟨[(2, farB)]⟩ ∧
    pdrStage stdExt modificationForFive.Message.UpdatePDR = .ok ⟨[]⟩ ∧
    farStage stdExt modificationForFive.Message.UpdateFAR = .ok ⟨[]⟩ ∧
    sessionFive.pdrIsNil = false ∧ sessionFive.farIsNil = false ∧
    ∃ s1 res entity1,
      sessionFive.AddUpdatePDRsFARs stdRuntime (some ⟨[(2, pdrB)]⟩) (some ⟨[(2, farB)]⟩)
        (some ⟨[]⟩) (some ⟨[]⟩) = .done (none, s1) ∧
      handleSessionModificationRequestStep stdRuntime stdExt modificationForFive coreWithSession
        = .reply res entity1 ∧
      res.msgType = MsgTypeSessionModificationResponse ∧
      res.seid = 42 ∧
      res.sequence = 11 ∧
      res.cause = some CauseRequestAccepted :=
  have hcall : sessionFive.AddUpdatePDRsFARs stdRuntime (some ⟨[(2, pdrB)]⟩) (some ⟨[(2, farB)]⟩)
      (some ⟨[]⟩) (some ⟨[]⟩)
      = .done (none, ((AddUpdatePDRsFARsBody stdRuntime (Frame.enter sessionFive)
          (some ⟨[(2, pdrB)]⟩) (some ⟨[(2, farB)]⟩) (some ⟨[]⟩) (some ⟨[]⟩)).2.leave
            sessionFive)) := rfl
  ⟨rfl, rfl, rfl, rfl, rfl, rfl, rfl, rfl, rfl,
    match (handleSessionModificationRequest_cause stdRuntime stdExt modificationForFive
      coreWithSession "10.0.0.1" "10.0.0.1" sessionFive
      { SEID := 42, IPv4Address := some "10.0.0.9" } ⟨[(2, pdrB)]⟩ ⟨[]⟩ ⟨[(2, farB)]⟩ ⟨[]⟩
      rfl rfl rfl rfl rfl rfl rfl rfl rfl).1 _ hcall with
    | ⟨res, entity1, h1, h2, h3, h4, h5, _⟩ => ⟨_, res, entity1, hcall, h1, h2, h3, h4, h5.mpr rfl⟩⟩

/-- The request `modificationForEight` resolves to `sessionNilTables` at
`coreWithNilTables` and its lists parse; the call of `AddUpdatePDRsFARs` assigns to the
nil PDR table, so the handler panics and sends nothing. -/
theorem handleSessionModificationRequest_on_nil_tables :
    coreWithNilTables.GetPFCPSession "10.0.0.1" modificationForEight.Message.seid
      = .ok sessionNilTables ∧
    pdrStage stdExt modificationForEight.Message.CreatePDR = .ok ⟨[(2, pdrB)]⟩ ∧
    farStage stdExt modificationForEight.Message.CreateFAR = .ok ⟨[(2, farB)]⟩ ∧
    handleSessionModificationRequest stdRuntime stdEnv stdExt modificationForEight
      coreWithNilTables = .panic := by
  refine ⟨rfl, rfl, rfl, by decide⟩

/-! ## The claim on the association setup handler -/

/-- What `replyAssociationSetupResponse` does for an entity that has a Node ID and a
recovery timestamp. -/
theorem replyAssociationSetupResponse_started (seq cause ts : Nat) (e : EntityCore)
    (hid : e.nodeID ≠ "") (hts : e.recoveryTimeStamp = some ts) :
    replyAssociationSetupResponse seq
        [e.NodeID, some (.cause cause), e.RecoveryTimeStamp.map IE.recoveryTimeStamp] e
      = .reply (NewAssociationSetupResponse seq
          [IE.nodeID e.nodeID, .cause cause, .recoveryTimeStamp ts]) e := by
  simp [replyAssociationSetupResponse, constructorElements, EntityCore.NodeID_of_ne e hid,
    EntityCore.RecoveryTimeStamp, hts]

/-- An entity built from the empty string has no Node ID element: the handler returns
the error of the case `msg.Entity.NodeID() == nil`, replies nothing and adds nothing. -/
theorem handleAssociationSetupRequest_nil_NodeID (ext : Ext) (msg : ReceivedMessage)
    (entity : EntityCore)
    (ht : msg.Message.msgType = MsgTypeAssociationSetupRequest)
    (hid : entity.nodeID = "") :
    handleAssociationSetupRequestStep ext msg entity = .ret (some .entityNodeIDIsNil) entity := by
  unfold handleAssociationSetupRequestStep
  simp [ht, EntityCore.NodeID_of_eq entity hid]

/-- C16: an Association Setup Request with node identity `nid` received by a started
entity: `listen` went through, so the entity has a Node ID element and a recovery
timestamp.  If no association is stored for `nid` and the creation succeeds (the peer
and its association `a` are built and `a` can be added), the handler replies Request
Accepted with the node identity and the recovery timestamp of the entity, and the
association table is the old one with `a` added: `a` is found under its identity and
every other identity finds what it found before.  If an association is stored for
`nid`, the handler replies Request Rejected and the entity, with its association
table, is what it was. -/
theorem handleAssociationSetupRequest_spec (ext : Ext) (msg : ReceivedMessage)
    (entity : EntityCore) (ts : Nat) (nid : String)
    (ht : msg.Message.msgType = MsgTypeAssociationSetupRequest)
    (hid : entity.nodeID ≠ "")
    (hstart : entity.recoveryTimeStamp = some ts)
    (hnid : msg.Message.NodeID = .present nid) :
    (∀ peer a, entity.associationsMap.associations.contains nid = false →
      ext.newPFCPPeerUP entity (.present nid) = .ok peer →
      ext.NewEstablishedPFCPAssociation peer = .ok a →
      entity.associationsMap.associations.contains a.nodeID = false →
      ∃ res entity1,
        handleAssociationSetupRequestStep ext msg entity = .reply res entity1 ∧
        res.msgType = MsgTypeAssociationSetupResponse ∧
        res.sequence = msg.Message.sequence ∧
        res.ies = [IE.nodeID entity.nodeID, IE.cause CauseRequestAccepted,
          IE.recoveryTimeStamp ts] ∧
        entity1 = { entity with associationsMap :=
          { associations := entity.associationsMap.associations.set a.nodeID a } } ∧
        entity1.GetPFCPAssociation a.nodeID = .ok a ∧
        (∀ other, other ≠ a.nodeID →
          entity1.GetPFCPAssociation other = entity.GetPFCPAssociation other)) ∧
    (entity.associationsMap.associations.contains nid = true →
      ∃ res,
        handleAssociationSetupRequestStep ext msg entity = .reply res entity ∧
        res.msgType = MsgTypeAssociationSetupResponse ∧
        res.sequence = msg.Message.sequence ∧
        res.ies = [IE.nodeID entity.nodeID, IE.cause CauseRequestRejected,
          IE.recoveryTimeStamp ts]) := by
  have hrt : entity.RecoveryTimeStamp = some ts := hstart
  have hn0 : entity.NodeID ≠ none := by
    rw [EntityCore.NodeID_of_ne entity hid]
    exact Option.some_ne_none _
  have hr0 : entity.RecoveryTimeStamp ≠ none := by
    rw [hrt]
    exact Option.some_ne_none _
  constructor
  · intro peer a hfree hpeer hassoc hadd
    have hnew : entity.NewEstablishedPFCPAssociation ext (.present nid)
        = .done (.ok a, { entity with associationsMap :=
            { associations := entity.associationsMap.associations.set a.nodeID a } }) := by
      unfold EntityCore.NewEstablishedPFCPAssociation AssociationsMap.CheckNonExist
        AssociationsMap.Add
      simp [hpeer, hfree, hassoc, hadd]
    refine ⟨NewAssociationSetupResponse msg.Message.sequence
        [IE.nodeID entity.nodeID, .cause CauseRequestAccepted, IE.recoveryTimeStamp ts],
      { entity with associationsMap :=
          { associations := entity.associationsMap.associations.set a.nodeID a } },
      ?_, rfl, rfl, rfl, rfl, ?_, ?_⟩
    · unfold handleAssociationSetupRequestStep
      simp only [ht, hnid, hnew, hn0, hr0, ne_eq, not_true_eq_false, if_false]
      exact replyAssociationSetupResponse_started msg.Message.sequence CauseRequestAccepted ts
        { entity with associationsMap :=
          { associations := entity.associationsMap.associations.set a.nodeID a } } hid hstart
    · unfold EntityCore.GetPFCPAssociation AssociationsMap.Get
      simp [GoMap.get_set]
    · intro other hother
      unfold EntityCore.GetPFCPAssociation AssociationsMap.Get
      simp [GoMap.get_set, Ne.symm hother]
  · intro hexists
    have hnew : ∃ err, entity.NewEstablishedPFCPAssociation ext (.present nid)
        = .done (.error err, entity) := by
      unfold EntityCore.NewEstablishedPFCPAssociation AssociationsMap.CheckNonExist
      cases hpeer : ext.newPFCPPeerUP entity (.present nid) with
      | error err => exact ⟨err, rfl⟩
      | ok peer => exact ⟨.associationAlreadyExists, by simp [hexists]⟩
    obtain ⟨err, hnew⟩ := hnew
    refine ⟨NewAssociationSetupResponse msg.Message.sequence
        [IE.nodeID entity.nodeID, .cause CauseRequestRejected, IE.recoveryTimeStamp ts],
        ?_, rfl, rfl, rfl⟩
    unfold handleAssociationSetupRequestStep
    simp only [ht, hnid, hnew, hn0, hr0, ne_eq, not_true_eq_false, if_false]
    exact replyAssociationSetupResponse_started msg.Message.sequence CauseRequestRejected ts
      entity hid hstart

/-- Witness of C16: `setupRequestFromPeer` is accepted by `coreResponder`, which has
no association, and rejected by `coreWithPeer`, which has one for `10.0.0.9`. -/
theorem handleAssociationSetupRequest_spec_witness :
    setupRequestFromPeer.Message.msgType = MsgTypeAssociationSetupRequest ∧
    coreResponder.nodeID ≠ "" ∧
    coreResponder.recoveryTimeStamp = some 1000 ∧
    setupRequestFromPeer.Message.NodeID = .present "10.0.0.9" ∧
    (∃ res entity1,
      handleAssociationSetupRequestStep stdExt setupRequestFromPeer coreResponder
        = .reply res entity1 ∧
      res.ies = [IE.nodeID "10.0.0.1", IE.cause CauseRequestAccepted, IE.recoveryTimeStamp 1000] ∧
      entity1.GetPFCPAssociation "10.0.0.9" = .ok associationNine) ∧
    (∃ res,
      handleAssociationSetupRequestStep stdExt setupRequestFromPeer coreWithPeer
        = .reply res coreWithPeer ∧
      res.ies = [IE.nodeID "10.0.0.1", IE.cause CauseRequestRejected,
        IE.recoveryTimeStamp 1000]) :=
  ⟨rfl, by decide, rfl, rfl,
    match (handleAssociationSetupRequest_spec stdExt setupRequestFromPeer coreResponder 1000
      "10.0.0.9" rfl (by decide) rfl rfl).1 { nodeID := "10.0.0.9" } associationNine
      rfl rfl rfl rfl with
    | ⟨res, entity1, h1, _, _, h4, _, h6, _⟩ => ⟨res, entity1, h1, h4, h6⟩,
    match (handleAssociationSetupRequest_spec stdExt setupRequestFromPeer coreWithPeer 1000
      "10.0.0.9" rfl (by decide) rfl rfl).2 rfl with
    | ⟨res, h1, _, _, h4⟩ => ⟨res, h1, h4⟩⟩

/-- The entity `coreUnnamed`, built from the empty string, has no Node ID element: the
session establishment handler panics where it would reply, and the association setup
handler returns the error of its case `msg.Entity.NodeID() == nil` and leaves the
entity as it was. -/
theorem handlers_of_unnamed_entity :
    coreUnnamed.NodeID = none ∧
    handleSessionEstablishmentRequest stdEnv stdExt requestWithoutFSEID coreUnnamed = .panic ∧
    handleSessionEstablishmentRequest stdEnv stdExt requestWithFSEID coreUnnamed = .panic ∧
    handleAssociationSetupRequest stdEnv stdExt setupRequestFromPeer coreUnnamed
      = .done (some .entityNodeIDIsNil, coreUnnamed) := by
  refine ⟨by decide, by decide, by decide, by decide⟩

/-! ## The claim on `CreateSession` -/

/-- C17 (defect): `CreateSession` tests its two lists against nil only.  With a nil
list it returns an error (unless `getFSEID` panics) and the association is what it was;
but with two non-nil lists of length zero, once the local F-SEID is built, it returns a
session and no error, and the session table of the association holds that session
under `rseid`. -/
theorem CreateSession_accepts_empty_lists (rt : GoRuntime) (ext : Ext) (entity : EntityCore)
    (association : PFCPAssociation) (seid rseid : Nat) :
    (∀ fars r, PFCPAssociation.CreateSession rt ext entity association seid rseid none fars
        = .done r → (∃ err, r.1 = .error err) ∧ r.2 = association) ∧
    (∀ pdrs r, PFCPAssociation.CreateSession rt ext entity association seid rseid pdrs none
        = .done r → (∃ err, r.1 = .error err) ∧ r.2 = association) ∧
    (∀ localFseid, PFCPAssociation.getFSEID ext entity seid = .done (.ok localFseid) →
      PFCPAssociation.CreateSession rt ext entity association seid rseid (some []) (some [])
        = .done (.ok (NewPFCPSession rt localFseid rseid GoMap.empty GoMap.empty),
            { association with
              sessions := (association.sessions.set rseid
                (NewPFCPSession rt localFseid rseid GoMap.empty GoMap.empty)) }) ∧
      (association.sessions.set rseid
          (NewPFCPSession rt localFseid rseid GoMap.empty GoMap.empty)).get rseid
        = some (NewPFCPSession rt localFseid rseid GoMap.empty GoMap.empty)) := by
  refine ⟨?_, ?_, ?_⟩
  · intro fars r h
    unfold PFCPAssociation.CreateSession at h
    cases hg : PFCPAssociation.getFSEID ext entity seid with
    | panic => simp [hg] at h
    | done g =>
      cases g with
      | error err =>
        simp only [hg] at h
        cases h
        exact ⟨⟨err, rfl⟩, rfl⟩
      | ok lf =>
        simp only [hg] at h
        cases h
        exact ⟨⟨_, rfl⟩, rfl⟩
  · intro pdrs r h
    unfold PFCPAssociation.CreateSession at h
    cases hg : PFCPAssociation.getFSEID ext entity seid with
    | panic => simp [hg] at h
    | done g =>
      cases g with
      | error err =>
        simp only [hg] at h
        cases h
        exact ⟨⟨err, rfl⟩, rfl⟩
      | ok lf =>
        simp only [hg] at h
        cases pdrs with
        | none =>
          cases h
          exact ⟨⟨_, rfl⟩, rfl⟩
        | some l =>
          simp only at h
          cases hm : rulesToMap ext.PDRID l GoMap.empty with
          | error err =>
            simp only [hm] at h
            cases h
            exact ⟨⟨err, rfl⟩, rfl⟩
          | ok m =>
            simp only [hm] at h
            cases h
            exact ⟨⟨_, rfl⟩, rfl⟩
  · intro localFseid hg
    constructor
    · unfold PFCPAssociation.CreateSession
      simp only [hg, rulesToMap]
    · simp [GoMap.get_set]

/-- Witness of C17: `CreateSession(1, 2, []*PDR{}, []*FAR{})` on `associationNine`, the
entity being `coreResponder`, whose node identity is the IPv4 address `10.0.0.1`. -/
theorem CreateSession_accepts_empty_lists_witness :
    PFCPAssociation.getFSEID stdExt coreResponder 1
      = .done (.ok (some { SEID := 1, IPv4Address := some "10.0.0.1" })) ∧
    PFCPAssociation.CreateSession stdRuntime stdExt coreResponder associationNine 1 2
        (some []) (some [])
      = .done (.ok (NewPFCPSession stdRuntime (some { SEID := 1, IPv4Address := some "10.0.0.1" })
            2 GoMap.empty GoMap.empty),
          { associationNine with
            sessions := (associationNine.sessions.set 2
              (NewPFCPSession stdRuntime (some { SEID := 1, IPv4Address := some "10.0.0.1" }) 2
                GoMap.empty GoMap.empty)) }) ∧
    associationNine.sessions.get 2 = none :=
  ⟨rfl,
   ((CreateSession_accepts_empty_lists stdRuntime stdExt coreResponder associationNine 1 2).2.2
      (some { SEID := 1, IPv4Address := some "10.0.0.1" }) rfl).1,
   rfl⟩

/-! ## The claims on session setup and the F-SEID accessors -/

theorem Frame.appendSortedPDR_isEstablished (rt : GoRuntime) (f : Frame) (p : PDR) :
    (f.appendSortedPDR rt p).s.isEstablished = f.s.isEstablished := by
  by_cases h : f.s.sortedPDR.len < f.s.sortedPDR.cap <;> simp [Frame.appendSortedPDR, h]

theorem newSessionRuleState_isEstablished (rt : GoRuntime) (pdrs : Option PDRMap)
    (fars : Option FARMap) :
    (newSessionRuleState rt pdrs fars).isEstablished = false := by
  have key : ∀ (l : List (Nat × PDR)) (g : Frame),
      (l.foldl (fun g e => g.appendSortedPDR rt e.2) g).s.isEstablished = g.s.isEstablished := by
    intro l
    induction l with
    | nil => intro g; rfl
    | cons hd tl ih =>
      intro g
      simp only [List.foldl_cons]
      rw [ih, Frame.appendSortedPDR_isEstablished]
  exact key _ _

/-- Whatever `Setup` returns, the caller's struct is what it was. -/
theorem Setup_caller_unchanged (ext : Ext) (entity : EntityCore) (s : PFCPSession)
    (r : Option Error × PFCPSession) (h : s.Setup ext entity = .done r) : r.2 = s := by
  unfold PFCPSession.Setup at h
  cases hb : SetupBody ext entity s with
  | panic => simp [hb] at h
  | done b =>
    simp only [hb] at h
    cases h
    rfl

/-- C18 (defect): `Setup` has a value receiver, so it marks a copy as established.  In
the responder branch (`IsUserPlane()` holds) a call on a session that is not
established returns nil, the copy the body ran on is marked established, and the
session itself is what it was: still not established, so that a later `Setup` returns
nil again instead of the error.  A session returned by `newEstablishedPFCPSession` is
not marked established. -/
theorem Setup_marks_only_its_copy :
    (∀ (ext : Ext) (entity : EntityCore) (s : PFCPSession),
      s.isEstablished = false → entity.IsUserPlane = true →
      SetupBody ext entity s = .done (none, { s with isEstablished := true }) ∧
      s.Setup ext entity = .done (none, s) ∧
      (∀ r, s.Setup ext entity = .done r →
        r.2.isEstablished = false ∧ r.2.Setup ext entity = .done (none, r.2))) ∧
    (∀ (rt : GoRuntime) (ext : Ext) (entity : EntityCore) (fseid rfseid : IEField FSEID)
        (pdrs : Option PDRMap) (fars : Option FARMap) (s : PFCPSession) (entity1 : EntityCore),
      newEstablishedPFCPSession rt ext entity fseid rfseid pdrs fars = .done (.ok s, entity1) →
      s.isEstablished = false) ∧
    coreResponder.IsUserPlane = true ∧
    sessionFive.isEstablished = false ∧
    sessionFive.Setup stdExt coreResponder = .done (none, sessionFive) ∧
    (∃ s entity1, newEstablishedPFCPSession stdRuntime stdExt coreResponder
        (.present { SEID := 5, IPv4Address := some "10.0.0.1" })
        (.present { SEID := 42, IPv4Address := some "10.0.0.9" })
        (some ⟨[(1, pdrA)]⟩) (some ⟨[(1, farA)]⟩)
        = .done (.ok s, entity1) ∧ s.isEstablished = false) := by
  refine ⟨?_, ?_, by decide, by decide, by decide, ⟨_, _, rfl, by decide⟩⟩
  · intro ext entity s hs hu
    have hb : SetupBody ext entity s = .done (none, { s with isEstablished := true }) := by
      unfold SetupBody
      simp [hs, hu]
    have hsetup : s.Setup ext entity = .done (none, s) := by
      unfold PFCPSession.Setup
      rw [hb]
    refine ⟨hb, hsetup, ?_⟩
    intro r hr
    have h2 := Setup_caller_unchanged ext entity s r hr
    rw [h2]
    exact ⟨hs, hsetup⟩
  · intro rt ext entity fseid rfseid pdrs fars s entity1 h
    unfold newEstablishedPFCPSession at h
    cases h1 : copyFSEID fseid with
    | panic => simp [h1] at h
    | done lf =>
      cases h2 : copyFSEID rfseid with
      | panic => simp [h1, h2] at h
      | done rf =>
        simp only [h1, h2] at h
        cases h3 : PFCPSession.Setup ext entity
            { newSessionRuleState rt pdrs fars with localFseid := lf, remoteFseid := rf } with
        | panic => simp [h3] at h
        | done r =>
          have hr := Setup_caller_unchanged ext entity _ r h3
          obtain ⟨e, s1⟩ := r
          cases e with
          | some err => simp [h3] at h
          | none =>
            simp only [h3] at h
            cases h4 : entity.AddEstablishedPFCPSession s1 with
            | panic => simp [h4] at h
            | done e1 =>
              simp only [h4] at h
              cases h
              have hr1 : s = { newSessionRuleState rt pdrs fars with
                  localFseid := lf, remoteFseid := rf } := hr
              rw [hr1]
              exact newSessionRuleState_isEstablished rt pdrs fars

/-- C19 (defect): in the initiator branch of `Setup` a response that is not a Session
Establishment Response is only logged; the body goes on to read the F-SEID through the
nil result of the type assertion, and `Setup` panics instead of returning an error. -/
theorem Setup_unexpected_response_panics (ext : Ext) (entity : EntityCore) (s : PFCPSession)
    (resp : Message)
    (hs : s.isEstablished = false)
    (hu : entity.IsUserPlane = false)
    (hc : entity.IsControlPlane = true)
    (hsend : ext.Send (setupRequest ext entity s) = .ok resp)
    (hresp : resp.msgType ≠ MsgTypeSessionEstablishmentResponse) :
    s.Setup ext entity = .panic := by
  unfold PFCPSession.Setup SetupBody
  cases hce : constructorElements [entity.NodeID, s.localFseid.map IE.fseid] <;>
    simp [hs, hu, hc, hsend, hresp, hce]

/-- Witness of C19: `sessionFive` set up by `coreInitiator` with a peer that answers
with a Heartbeat Response. -/
theorem Setup_unexpected_response_panics_witness :
    sessionFive.isEstablished = false ∧
    coreInitiator.IsUserPlane = false ∧
    coreInitiator.IsControlPlane = true ∧
    (wrongAnswerExt.Send (setupRequest wrongAnswerExt coreInitiator sessionFive)
      = .ok { msgType := MsgTypeHeartbeatResponse, sequence := 0 }) ∧
    MsgTypeHeartbeatResponse ≠ MsgTypeSessionEstablishmentResponse ∧
    sessionFive.Setup wrongAnswerExt coreInitiator = .panic :=
  ⟨rfl, rfl, rfl, rfl, by decide,
    Setup_unexpected_response_panics wrongAnswerExt coreInitiator sessionFive
      { msgType := MsgTypeHeartbeatResponse, sequence := 0 } rfl rfl rfl rfl (by decide)⟩

/-- C20 (defect): the four accessors call `FSEID()` on the stored pointer without
testing it, so on a session whose F-SEID has not been set they panic instead of
returning an error.  When the F-SEID is set, `LocalSEID` and `RemoteSEID` return its
SEID, and `LocalIPAddress` and `RemoteIPAddress` return the IPv6 address if there is
one, otherwise the IPv4 address, and an error if there is neither.  A session built by
`newEstablishedPFCPSession` without remote F-SEID is such a session. -/
theorem accessors_panic_without_FSEID :
    (∀ s : PFCPSession, s.localFseid = none →
      s.LocalSEID = .panic ∧ s.LocalIPAddress = .panic) ∧
    (∀ s : PFCPSession, s.remoteFseid = none →
      s.RemoteSEID = .panic ∧ s.RemoteIPAddress = .panic) ∧
    (∀ (s : PFCPSession) (f : FSEID), s.localFseid = some f →
      s.LocalSEID = .done (.ok f.SEID) ∧
      (∀ a, f.IPv6Address = some a → s.LocalIPAddress = .done (.ok a)) ∧
      (∀ a, f.IPv6Address = none → f.IPv4Address = some a → s.LocalIPAddress = .done (.ok a)) ∧
      (f.IPv6Address = none → f.IPv4Address = none →
        s.LocalIPAddress = .done (.error .localIPNotSet))) ∧
    (∀ (s : PFCPSession) (f : FSEID), s.remoteFseid = some f →
      s.RemoteSEID = .done (.ok f.SEID) ∧
      (∀ a, f.IPv6Address = some a → s.RemoteIPAddress = .done (.ok a)) ∧
      (∀ a, f.IPv6Address = none → f.IPv4Address = some a → s.RemoteIPAddress = .done (.ok a)) ∧
      (f.IPv6Address = none → f.IPv4Address = none →
        s.RemoteIPAddress = .done (.error .remoteIPNotSet))) ∧
    (∃ s entity1, newEstablishedPFCPSession stdRuntime stdExt coreResponder
        (.present { SEID := 5, IPv4Address := some "10.0.0.1" }) .absent
        (some ⟨[(1, pdrA)]⟩) (some ⟨[(1, farA)]⟩) = .done (.ok s, entity1) ∧
      s.RemoteSEID = .panic ∧ s.RemoteIPAddress = .panic) := by
  refine ⟨?_, ?_, ?_, ?_, ⟨_, _, rfl, rfl, rfl⟩⟩
  · intro s h
    unfold PFCPSession.LocalSEID PFCPSession.LocalIPAddress storedFSEID
    rw [h]
    exact ⟨rfl, rfl⟩
  · intro s h
    unfold PFCPSession.RemoteSEID PFCPSession.RemoteIPAddress storedFSEID
    rw [h]
    exact ⟨rfl, rfl⟩
  · intro s f h
    unfold PFCPSession.LocalSEID PFCPSession.LocalIPAddress storedFSEID FSEID.pickAddress
    rw [h]
    refine ⟨rfl, ?_, ?_, ?_⟩
    · intro a h6
      simp [h6]
    · intro a h6 h4
      simp [h6, h4]
    · intro h6 h4
      simp [h6, h4]
  · intro s f h
    unfold PFCPSession.RemoteSEID PFCPSession.RemoteIPAddress storedFSEID FSEID.pickAddress
    rw [h]
    refine ⟨rfl, ?_, ?_, ?_⟩
    · intro a h6
      simp [h6]
    · intro a h6 h4
      simp [h6, h4]
    · intro h6 h4
      simp [h6, h4]

/-! ## The claim on the session table -/

theorem GoMap.mem_assignList {K V : Type} [DecidableEq K] (l : List (K × V)) (k : K) (v : V) :
    (k, v) ∈ GoMap.assignList l k v := by
  induction l with
  | nil => simp [GoMap.assignList]
  | cons hd tl ih =>
    obtain ⟨k1, v1⟩ := hd
    by_cases h : k1 = k
    · simp [GoMap.assignList, h]
    · simp only [GoMap.assignList, h, if_false]
      exact List.mem_cons_of_mem _ ih

theorem GoMap.get_empty {K V : Type} [DecidableEq K] (k : K) :
    (GoMap.empty : GoMap K V).get k = none := rfl

theorem mem_GetPFCPSessions (sm : SessionsMap) (s : PFCPSession) :
    s ∈ sm.GetPFCPSessions ↔ ∃ e ∈ sm.sessions.entries, s ∈ e.2.entries.map Prod.snd := by
  have key : ∀ (l : List (String × GoMap Nat PFCPSession)) (acc : List PFCPSession),
      s ∈ l.foldl (fun acc byseid => acc ++ byseid.2.entries.map Prod.snd) acc ↔
        s ∈ acc ∨ ∃ e ∈ l, s ∈ e.2.entries.map Prod.snd := by
    intro l
    induction l with
    | nil => intro acc; simp
    | cons hd tl ih =>
      intro acc
      simp only [List.foldl_cons]
      rw [ih]
      simp only [List.mem_append, List.mem_cons, exists_eq_or_imp]
      tauto
  have h := key sm.sessions.entries []
  simpa [SessionsMap.GetPFCPSessions] using h

/-- What `Add` does once both accessors returned a value. -/
theorem SessionsMap.Add_of_keys (sm : SessionsMap) (s : PFCPSession) (localIP : String)
    (localSEID : Nat) (hip : s.LocalIPAddress = .done (.ok localIP))
    (hseid : s.LocalSEID = .done (.ok localSEID)) :
    sm.Add s = .done (none,
      { sessions :=
          (if sm.sessions.contains localIP then sm.sessions
            else sm.sessions.set localIP GoMap.empty).set localIP
            ((((if sm.sessions.contains localIP then sm.sessions
                else sm.sessions.set localIP GoMap.empty).get localIP).getD GoMap.empty).set
              localSEID s) }) := by
  unfold SessionsMap.Add
  rw [hip]
  simp only [hseid]

/-- C21: for every session table `sm` and session `s`: if `LocalIPAddress` returns the
address `localIP` and `LocalSEID` returns `localSEID`, then `Add` returns nil and the
table afterwards holds `s` under `localIP` / `localSEID`, holds under every other key
pair what it held before, and `GetPFCPSessions` contains `s`; if `LocalIPAddress`
returns an error, `Add` returns that error and the table is what it was.  The two
accessors decode the same stored F-SEID, so once `LocalIPAddress` returned an address
`LocalSEID` returns a value too, and the second error return of `Add` is not reached
for a `PFCPSession`. -/
theorem SessionsMap_Add_spec (sm : SessionsMap) (s : PFCPSession) :
    (∀ localIP localSEID, s.LocalIPAddress = .done (.ok localIP) →
      s.LocalSEID = .done (.ok localSEID) →
      ∃ sm1, sm.Add s = .done (none, sm1) ∧
        sm1.lookup localIP localSEID = some s ∧
        (∀ ip seid, (ip, seid) ≠ (localIP, localSEID) → sm1.lookup ip seid = sm.lookup ip seid) ∧
        s ∈ sm1.GetPFCPSessions) ∧
    (∀ err, s.LocalIPAddress = .done (.error err) → sm.Add s = .done (some err, sm)) ∧
    (∀ localIP, s.LocalIPAddress = .done (.ok localIP) →
      ∃ localSEID, s.LocalSEID = .done (.ok localSEID)) := by
  refine ⟨?_, ?_, ?_⟩
  · intro localIP localSEID hip hseid
    refine ⟨_, SessionsMap.Add_of_keys sm s localIP localSEID hip hseid, ?_, ?_, ?_⟩
    · simp [SessionsMap.lookup, GoMap.get_set]
    · intro ip seid hne
      by_cases h1 : localIP = ip
      · subst h1
        have h2 : localSEID ≠ seid := fun h => hne (by rw [h])
        cases hc : sm.sessions.get localIP with
        | none =>
          have hcont : sm.sessions.contains localIP = false := by simp [GoMap.contains, hc]
          simp [SessionsMap.lookup, GoMap.get_set, hcont, hc, h2, GoMap.get_empty]
        | some inner =>
          have hcont : sm.sessions.contains localIP = true := by simp [GoMap.contains, hc]
          simp [SessionsMap.lookup, GoMap.get_set, hcont, hc, h2]
      · cases hc : sm.sessions.contains localIP <;>
          simp [SessionsMap.lookup, GoMap.get_set, hc, h1]
    · rw [mem_GetPFCPSessions]
      refine ⟨(localIP, _), GoMap.mem_assignList _ localIP _, ?_⟩
      exact List.mem_map.mpr ⟨(localSEID, s), GoMap.mem_assignList _ localSEID s, rfl⟩
  · intro err hip
    unfold SessionsMap.Add
    rw [hip]
  · intro localIP hip
    unfold PFCPSession.LocalIPAddress at hip
    unfold PFCPSession.LocalSEID
    cases hf : storedFSEID s.localFseid with
    | panic => simp [hf] at hip
    | done r =>
      cases r with
      | error e =>
        cases hl : s.localFseid <;> simp [storedFSEID, hl] at hf
      | ok f => exact ⟨f.SEID, rfl⟩

/-- Witness of C21: `sessionSix` added to a table that holds `sessionFive` under the
same address, and `sessionNoAddress`, whose local F-SEID has no address. -/
theorem SessionsMap_Add_spec_witness :
    sessionSix.LocalIPAddress = .done (.ok "10.0.0.1") ∧
    sessionSix.LocalSEID = .done (.ok 6) ∧
    (∃ sm1, tableWithFive.Add sessionSix = .done (none, sm1) ∧
      sm1.lookup "10.0.0.1" 6 = some sessionSix ∧
      (∀ ip seid, (ip, seid) ≠ ("10.0.0.1", 6) →
        sm1.lookup ip seid = tableWithFive.lookup ip seid) ∧
      sessionSix ∈ sm1.GetPFCPSessions) ∧
    sessionNoAddress.LocalIPAddress = .done (.error .localIPNotSet) ∧
    tableWithFive.Add sessionNoAddress = .done (some .localIPNotSet, tableWithFive) :=
  ⟨rfl, rfl, (SessionsMap_Add_spec tableWithFive sessionSix).1 "10.0.0.1" 6 rfl rfl, rfl,
    (SessionsMap_Add_spec tableWithFive sessionNoAddress).2.1 .localIPNotSet rfl⟩

/-! ## The claim on the sorted sequence after an update -/

theorem Frame.appendSortedPDR_len (rt : GoRuntime) (f : Frame) (p : PDR) :
    (f.appendSortedPDR rt p).s.sortedPDR.len = f.s.sortedPDR.len + 1 := by
  by_cases h : f.s.sortedPDR.len < f.s.sortedPDR.cap <;> simp [Frame.appendSortedPDR, h]

theorem updatePDRsUnsafe_len (rt : GoRuntime) (f : Frame) (pdrs : Option PDRMap) :
    (updatePDRsUnsafe rt f pdrs).s.sortedPDR.len
      = f.s.sortedPDR.len + (argEntries pdrs).length := by
  cases pdrs with
  | none => simp [updatePDRsUnsafe, argEntries]
  | some m =>
    have key : ∀ (l : List (Nat × PDR)) (g : Frame),
        (l.foldl (updatePDRsStep rt) g).s.sortedPDR.len = g.s.sortedPDR.len + l.length := by
      intro l
      induction l with
      | nil => intro g; simp
      | cons hd tl ih =>
        intro g
        simp only [List.foldl_cons, List.length_cons]
        rw [ih]
        unfold updatePDRsStep
        rw [Frame.appendSortedPDR_len]
        simp only
        omega
    simp only [updatePDRsUnsafe, argEntries, Frame.sortSortedPDR]
    exact key m.entries f

/-- C23 (defect): `updatePDRsUnsafe` appends one entry to the sorted sequence for every
binding of its argument, whether or not the session already has a rule with that id, and
removes none: the length of the sequence of the struct it works on grows by the number
of bindings.  On `sessionOne` (map and sequence hold `pdrA` for id 1) a call of
`AddUpdatePDRsFARs` updating id 1 to `pdrA2` returns nil; the map then holds `pdrA2`,
the sequence of the copy the body ran on holds `pdrA2` and the stale `pdrA`, and the
sequence returned by `GetPDRs` afterwards holds the stale `pdrA` alone.  A call that
creates id 2 as `pdrB` and updates id 2 to `pdrB2` leaves both in the sequence of the
copy.  On `sessionThree` (spare capacity) the update of id 1 leaves `GetPDRs` showing
`pdrA2` and the stale `pdrA`, and no entry for id 3, which the map still holds. -/
theorem updatePDRs_leaves_stale_entries :
    (∀ (rt : GoRuntime) (f : Frame) (pdrs : Option PDRMap),
      (updatePDRsUnsafe rt f pdrs).s.sortedPDR.len
        = f.s.sortedPDR.len + (argEntries pdrs).length) ∧
    sessionOne.pdr.entries = [(1, pdrA)] ∧
    sessionOne.GetPDRs.toList = [pdrA] ∧
    (∃ s1, sessionOne.AddUpdatePDRsFARs stdRuntime none none (some ⟨[(1, pdrA2)]⟩) none
        = .done (none, s1) ∧
      s1.pdr.entries = [(1, pdrA2)] ∧
      s1.GetPDRs.toList = [pdrA]) ∧
    (AddUpdatePDRsFARsBody stdRuntime (Frame.enter sessionOne) none none (some ⟨[(1, pdrA2)]⟩)
      none).2.s.GetPDRs.toList = [pdrA2, pdrA] ∧
    (AddUpdatePDRsFARsBody stdRuntime (Frame.enter sessionOne) (some ⟨[(2, pdrB)]⟩) none
      (some ⟨[(2, pdrB2)]⟩) none).1 = none ∧
    (AddUpdatePDRsFARsBody stdRuntime (Frame.enter sessionOne) (some ⟨[(2, pdrB)]⟩) none
      (some ⟨[(2, pdrB2)]⟩) none).2.s.pdr.entries = [(1, pdrA), (2, pdrB2)] ∧
    (AddUpdatePDRsFARsBody stdRuntime (Frame.enter sessionOne) (some ⟨[(2, pdrB)]⟩) none
      (some ⟨[(2, pdrB2)]⟩) none).2.s.GetPDRs.toList = [pdrB, pdrA, pdrB2] ∧
    sessionThree.GetPDRs.toList = [pdrB, pdrA, pdrC] ∧
    (∃ s1, sessionThree.AddUpdatePDRsFARs stdRuntime none none (some ⟨[(1, pdrA2)]⟩) none
        = .done (none, s1) ∧
      s1.pdr.entries = [(1, pdrA2), (2, pdrB), (3, pdrC)] ∧
      s1.GetPDRs.toList = [pdrA2, pdrB, pdrA]) := by
  refine ⟨updatePDRsUnsafe_len, by decide, by decide, ⟨_, rfl, by decide, by decide⟩, by decide,
    by decide, by decide, by decide, by decide, ⟨_, rfl, by decide, by decide⟩⟩

/-! ## The claim on the replies of the session modification handler -/

theorem stageFailureStep_reply (entity : EntityCore) (rseid seq : Nat) (f : StageFailure)
    (res : Message) (entity1 : EntityCore)
    (h : stageFailureStep entity rseid seq f = .reply res entity1) :
    res.sequence = seq ∧ res.msgType = MsgTypeSessionEstablishmentResponse := by
  cases f with
  | parse cause offendingie =>
    simp only [stageFailureStep, HandlerStep.reply.injEq] at h
    rw [← h.1]
    exact ⟨rfl, rfl⟩
  | id err => simp [stageFailureStep] at h

/-- C24 (defect): on the four paths of `handleSessionModificationRequest` where a rule
list fails to parse, the message handed to `ReplyTo` is built by
`message.NewSessionEstablishmentResponse`: it is a Session Establishment Response
(type 51), not a Session Modification Response (type 53).  Every message the handler
hands to `ReplyTo` carries the sequence number of the request and has one of these two
types; when the session is found and `pfcprule.NewPDRs` fails on the Create PDR list,
it is the Session Establishment Response with the remote SEID, the node identity, the
cause and the offending element type.  Four sample requests, one per list, each get a
reply of type 51, and the entity writes that reply to the sender. -/
theorem handleSessionModificationRequest_parse_failure_reply :
    (∀ (rt : GoRuntime) (ext : Ext) (msg : ReceivedMessage) (entity : EntityCore)
        (res : Message) (entity1 : EntityCore),
      handleSessionModificationRequestStep rt ext msg entity = .reply res entity1 →
      res.sequence = msg.Message.sequence ∧
      (res.msgType = MsgTypeSessionModificationResponse ∨
        res.msgType = MsgTypeSessionEstablishmentResponse)) ∧
    (∀ (rt : GoRuntime) (ext : Ext) (msg : ReceivedMessage) (entity : EntityCore)
        (localnodeid localip : String) (session : PFCPSession) (rf : FSEID)
        (err : Error) (cause offendingie : Nat),
      msg.Message.msgType = MsgTypeSessionModificationRequest →
      ext.NodeIDValue entity.nodeID = .ok localnodeid →
      localIPOfNodeID ext entity localnodeid = .ok localip →
      entity.GetPFCPSession localip msg.Message.seid = .ok session →
      session.remoteFseid = some rf →
      ext.NewPDRs msg.Message.CreatePDR = .error (err, cause, offendingie) →
      handleSessionModificationRequestStep rt ext msg entity
        = .reply (NewSessionEstablishmentResponse rf.SEID msg.Message.sequence
            [IE.nodeID entity.nodeID, .cause cause, .offendingIE offendingie]) entity) ∧
    MsgTypeSessionEstablishmentResponse ≠ MsgTypeSessionModificationResponse ∧
    (handleSessionModificationRequestStep stdRuntime stdExt modificationBadCreatePDR
        coreWithSession).repliesWith coreWithSession MsgTypeSessionEstablishmentResponse 42 21
      CauseMandatoryIEIncorrect (some IETypeCreatePDR) ∧
    (handleSessionModificationRequestStep stdRuntime stdExt modificationBadCreateFAR
        coreWithSession).repliesWith coreWithSession MsgTypeSessionEstablishmentResponse 42 22
      CauseMandatoryIEIncorrect (some IETypeCreateFAR) ∧
    (handleSessionModificationRequestStep stdRuntime stdExt modificationBadUpdatePDR
        coreWithSession).repliesWith coreWithSession MsgTypeSessionEstablishmentResponse 42 23
      CauseMandatoryIEIncorrect (some IETypeCreatePDR) ∧
    (handleSessionModificationRequestStep stdRuntime stdExt modificationBadUpdateFAR
        coreWithSession).repliesWith coreWithSession MsgTypeSessionEstablishmentResponse 42 24
      CauseMandatoryIEIncorrect (some IETypeCreateFAR) ∧
    handleSessionModificationRequest stdRuntime stdEnv stdExt modificationBadCreatePDR
        coreWithSession
      = .done (none, { coreWithSession with
          writes := [([MsgTypeSessionEstablishmentResponse, 21, 42], "10.0.0.9")] }) := by
  refine ⟨?_, ?_, by decide, ⟨_, rfl, rfl, rfl, rfl, rfl, rfl⟩, ⟨_, rfl, rfl, rfl, rfl, rfl, rfl⟩,
    ⟨_, rfl, rfl, rfl, rfl, rfl, rfl⟩, ⟨_, rfl, rfl, rfl, rfl, rfl, rfl⟩, by decide⟩
  · intro rt ext msg entity res entity1 h
    unfold handleSessionModificationRequestStep at h
    simp only at h
    split at h
    · simp at h
    · split at h
      · simp at h
      · split at h
        · simp at h
        · split at h
          · simp only [HandlerStep.reply.injEq] at h
            rw [← h.1]
            exact ⟨rfl, Or.inl rfl⟩
          · split at h
            · simp at h
            · simp at h
            · split at h
              · have := stageFailureStep_reply _ _ _ _ _ _ h
                exact ⟨this.1, Or.inr this.2⟩
              · split at h
                · have := stageFailureStep_reply _ _ _ _ _ _ h
                  exact ⟨this.1, Or.inr this.2⟩
                · split at h
                  · have := stageFailureStep_reply _ _ _ _ _ _ h
                    exact ⟨this.1, Or.inr this.2⟩
                  · split at h
                    · have := stageFailureStep_reply _ _ _ _ _ _ h
                      exact ⟨this.1, Or.inr this.2⟩
                    · split at h
                      · simp at h
                      · split at h
                        · simp only [HandlerStep.reply.injEq] at h
                          rw [← h.1]
                          exact ⟨rfl, Or.inl rfl⟩
                        · simp only [HandlerStep.reply.injEq] at h
                          rw [← h.1]
                          exact ⟨rfl, Or.inl rfl⟩
  · intro rt ext msg entity localnodeid localip session rf err cause offendingie ht hn hl hs hr hp
    have hrs : session.RemoteSEID = .done (.ok rf.SEID) := by
      unfold PFCPSession.RemoteSEID storedFSEID
      rw [hr]
    have h1 : pdrStage ext msg.Message.CreatePDR = .error (.parse cause offendingie) := by
      unfold pdrStage
      rw [hp]
    unfold handleSessionModificationRequestStep
    simp only [ht, hn, hl, hs, hrs, h1, ne_eq, not_true_eq_false, if_false, stageFailureStep]

/-! ## The claim on the F-SEID of an entity named by an FQDN -/

/-- C25 (defect): in the FQDN case `getFSEID` gives up only when both resolutions
failed, and then reads `ip4.IP` and `ip6.IP` both.  For an entity whose node identity
is an FQDN: if the name resolves for both families the result is the F-SEID with the
given SEID and both addresses; if it resolves for neither the result is the error
"Cannot resolve NodeID"; if it resolves for exactly one family the call panics on the
nil result of the other resolution. -/
theorem getFSEID_FQDN_one_family_panics (ext : Ext) (entity : EntityCore) (seid : Nat)
    (nodeID : String)
    (hv : ext.NodeIDValue entity.nodeID = .ok nodeID)
    (ht : ext.NodeIDType entity.nodeID = 2) :
    (∀ ip4 ip6, ext.ResolveIPAddr "ip4" nodeID = .ok ip4 →
      ext.ResolveIPAddr "ip6" nodeID = .ok ip6 →
      PFCPAssociation.getFSEID ext entity seid
        = .done (.ok (some { SEID := seid, IPv4Address := some ip4, IPv6Address := some ip6 }))) ∧
    (∀ err4 err6, ext.ResolveIPAddr "ip4" nodeID = .error err4 →
      ext.ResolveIPAddr "ip6" nodeID = .error err6 →
      PFCPAssociation.getFSEID ext entity seid = .done (.error .cannotResolveNodeID)) ∧
    (∀ ip4 err6, ext.ResolveIPAddr "ip4" nodeID = .ok ip4 →
      ext.ResolveIPAddr "ip6" nodeID = .error err6 →
      PFCPAssociation.getFSEID ext entity seid = .panic) ∧
    (∀ err4 ip6, ext.ResolveIPAddr "ip4" nodeID = .error err4 →
      ext.ResolveIPAddr "ip6" nodeID = .ok ip6 →
      PFCPAssociation.getFSEID ext entity seid = .panic) := by
  refine ⟨?_, ?_, ?_, ?_⟩ <;>
  · intro a b h4 h6
    unfold PFCPAssociation.getFSEID
    simp [hv, ht, h4, h6]

/-- Witness of C25: the entity `coreFQDN`, whose name resolves for IPv4 only. -/
theorem getFSEID_FQDN_one_family_panics_witness :
    stdExt.NodeIDValue coreFQDN.nodeID = .ok "upf.example.org" ∧
    stdExt.NodeIDType coreFQDN.nodeID = 2 ∧
    stdExt.ResolveIPAddr "ip4" "upf.example.org" = .ok "10.0.0.1" ∧
    stdExt.ResolveIPAddr "ip6" "upf.example.org" = .error .resolveFailed ∧
    PFCPAssociation.getFSEID stdExt coreFQDN 1 = .panic :=
  ⟨rfl, rfl, rfl, rfl,
    (getFSEID_FQDN_one_family_panics stdExt coreFQDN 1 "upf.example.org" rfl rfl).2.2.1
      "10.0.0.1" .resolveFailed rfl rfl⟩

/-! ## The claim on concurrent calls on one session -/

theorem Frame.refresh_enter (s : PFCPSession) : (Frame.enter s).refresh s = Frame.enter s := rfl

theorem Frame.linked_enter (s : PFCPSession) : (Frame.enter s).linked := fun _ => rfl

theorem Frame.refresh_leave (f : Frame) (shared : PFCPSession) (h : f.linked) :
    f.refresh (f.leave shared) = f := by
  obtain ⟨s, callerArr, aliased⟩ := f
  cases aliased with
  | false => rfl
  | true =>
    have h1 : s.sortedPDR.arr = callerArr := h rfl
    subst h1
    rfl

theorem Frame.leave_leave (f g : Frame) (shared : PFCPSession) :
    f.leave (g.leave shared) = f.leave shared := rfl

theorem Frame.appendSortedPDR_linked (rt : GoRuntime) (f : Frame) (p : PDR) :
    (f.appendSortedPDR rt p).linked := by
  intro ha
  by_cases hc : f.s.sortedPDR.len < f.s.sortedPDR.cap
  · have hal : f.aliased = true := by simpa [Frame.appendSortedPDR, hc] using ha
    simp [Frame.appendSortedPDR, hc, hal]
  · simp [Frame.appendSortedPDR, hc] at ha

theorem Frame.sortSortedPDR_linked (rt : GoRuntime) (f : Frame) :
    (f.sortSortedPDR rt).linked := by
  intro ha
  have hal : f.aliased = true := ha
  simp [Frame.sortSortedPDR, hal]

theorem updatePDRsUnsafe_linked (rt : GoRuntime) (f : Frame) (pdrs : Option PDRMap)
    (h : f.linked) : (updatePDRsUnsafe rt f pdrs).linked := by
  cases pdrs with
  | none => exact h
  | some m => exact Frame.sortSortedPDR_linked rt _

theorem updateFARsUnsafe_linked (f : Frame) (fars : Option FARMap) (h : f.linked) :
    (updateFARsUnsafe f fars).linked := by
  cases fars with
  | none => exact h
  | some m =>
    have key : ∀ (l : List (Nat × FAR)) (g : Frame), g.linked →
        (l.foldl (fun g e => { g with s := { g.s with far := g.s.far.set e.1 e.2 } }) g).linked := by
      intro l
      induction l with
      | nil => intro g hg; exact hg
      | cons hd tl ih =>
        intro g hg
        simp only [List.foldl_cons]
        exact ih _ hg
    exact key m.entries f h

/-- A call that runs alone, statement by statement, does what `AddUpdatePDRsFARs`
does when it returns: the shared struct afterwards and the value returned are the
same. -/
theorem Machine.run_single (rt : GoRuntime) (s : PFCPSession)
    (createpdrs : Option PDRMap) (createfars : Option FARMap)
    (updatepdrs : Option PDRMap) (updatefars : Option FARMap)
    (r : Option Error × PFCPSession)
    (h : s.AddUpdatePDRsFARs rt createpdrs createfars updatepdrs updatefars = .done r) :
    ((Machine.single s createpdrs createfars updatepdrs updatefars).run rt
        [0, 0, 0, 0, 0, 0, 0, 0, 0]).session = r.2 ∧
    ((Machine.single s createpdrs createfars updatepdrs updatefars).run rt
        [0, 0, 0, 0, 0, 0, 0, 0, 0]).calls.map Call.returnedValue = [some r.1] := by
  have e0 : (Frame.enter s).s = s := rfl
  rw [AddUpdatePDRsFARs_done rt s createpdrs createfars updatepdrs updatefars r h]
  unfold AddUpdatePDRsFARsBody
  simp only [e0]
  cases h1 : checkPDRsNotExistUnsafe s createpdrs with
  | some err =>
    simp [Machine.run, Machine.step, Machine.single, Call.step, Call.start, RWMutex.Lock,
      Frame.refresh_enter, e0, h1, Call.returnedValue, Frame.leave_enter]
  | none =>
    cases h2 : checkFARsNotExistUnsafe s createfars with
    | some err =>
      simp [Machine.run, Machine.step, Machine.single, Call.step, Call.start, RWMutex.Lock,
        Frame.refresh_enter, e0, h1, h2, Call.returnedValue, Frame.leave_enter]
    | none =>
      have l1 := updatePDRsUnsafe_linked rt (Frame.enter s) createpdrs (Frame.linked_enter s)
      have l2 := updateFARsUnsafe_linked _ createfars l1
      have l3 := updatePDRsUnsafe_linked rt _ updatepdrs l2
      have l4 := updateFARsUnsafe_linked _ updatefars l3
      simp [Machine.run, Machine.step, Machine.single, Call.step, Call.start, RWMutex.Lock,
        Frame.refresh_enter, e0, h1, h2, Call.returnedValue, Frame.refresh_leave, l1, l2, l3, l4,
        Frame.leave_leave]
      rfl

theorem Machine.run_atomicMu (rt : GoRuntime) (m : Machine) (schedule : List Nat) :
    (m.run rt schedule).atomicMu = m.atomicMu := by
  unfold Machine.run
  induction schedule generalizing m with
  | nil => rfl
  | cons i rest ih =>
    simp only [List.foldl_cons]
    rw [ih]
    unfold Machine.step
    cases m.calls[i]? <;> rfl

/-- C22 (defect): `AddUpdatePDRsFARs`, `GetPDRs` and `GetFAR` have a value receiver, so
`s.atomicMu` is the mutex of the copy of the struct that the call works on: every call
locks a mutex of its own, and the mutex of the struct the calls are made on is never
taken.  A call made on a struct whose mutex is free takes its lock at once, whatever the
other calls are doing.  With two calls made on `sessionOne` that both create a PDR
under id 2 and run in turns, one statement each, both are past `Lock` after the first
two steps, both pass the check, both return nil, and the table ends with the rule of
the second call under id 2; run one after the other, in either order, the second call
returns the error "PDR with ID 2 already exists".  With one call that creates FAR 2
and updates FAR 1, a `GetFAR` between the two statements on FARs finds FAR 2 (absent
before the call) and the old FAR 1 (replaced after the call): a state that is neither
the one before the transaction nor the one after it. -/
theorem AddUpdatePDRsFARs_calls_interleave :
    (∀ (rt : GoRuntime) (m : Machine) (i : Nat) (c : Call),
      m.calls[i]? = some c → c.pc = .lock → c.atomicMu = {} →
      ((m.step rt i).calls[i]?).map (fun c1 => c1.pc) = some .checkPDRs) ∧
    (∀ (rt : GoRuntime) (m : Machine) (schedule : List Nat),
      (m.run rt schedule).atomicMu = m.atomicMu) ∧
    (twoCreators.run stdRuntime [0, 1]).calls.map (fun c => (c.pc, c.atomicMu.writer))
      = [(.checkPDRs, true), (.checkPDRs, true)] ∧
    (twoCreators.run stdRuntime takingTurns).calls.map Call.returnedValue
      = [some none, some none] ∧
    (twoCreators.run stdRuntime takingTurns).session.pdr.entries = [(1, pdrA), (2, pdrB2)] ∧
    (∃ s1 s2,
      sessionOne.AddUpdatePDRsFARs stdRuntime (some ⟨[(2, pdrB)]⟩) none none none
        = .done (none, s1) ∧
      s1.AddUpdatePDRsFARs stdRuntime (some ⟨[(2, pdrB2)]⟩) none none none
        = .done (some (.pdrAlreadyExists 2), s2)) ∧
    (∃ s1 s2,
      sessionOne.AddUpdatePDRsFARs stdRuntime (some ⟨[(2, pdrB2)]⟩) none none none
        = .done (none, s1) ∧
      s1.AddUpdatePDRsFARs stdRuntime (some ⟨[(2, pdrB)]⟩) none none none
        = .done (some (.pdrAlreadyExists 2), s2)) ∧
    oneWriter.GetFAR 1 = some (.ok farA) ∧
    oneWriter.GetFAR 2 = some (.error (.noFARWithId 2)) ∧
    (oneWriter.run stdRuntime [0, 0, 0, 0, 0]).GetFAR 1 = some (.ok farA) ∧
    (oneWriter.run stdRuntime [0, 0, 0, 0, 0]).GetFAR 2 = some (.ok farB) ∧
    (oneWriter.run stdRuntime [0, 0, 0, 0, 0, 0, 0, 0, 0]).GetFAR 1 = some (.ok farA2) ∧
    (oneWriter.run stdRuntime [0, 0, 0, 0, 0, 0, 0, 0, 0]).GetFAR 2 = some (.ok farB) ∧
    (oneWriter.run stdRuntime [0, 0, 0, 0, 0, 0, 0, 0, 0]).calls.map Call.returnedValue
      = [some none] := by
  refine ⟨?_, Machine.run_atomicMu, by decide, by decide, by decide, ⟨_, _, rfl, rfl⟩,
    ⟨_, _, rfl, rfl⟩, rfl, rfl, rfl, rfl, rfl, rfl, by decide⟩
  intro rt m i c hc hpc hmu
  have hi : i < m.calls.length := by
    rcases Nat.lt_or_ge i m.calls.length with h | h
    · exact h
    · rw [List.getElem?_eq_none h] at hc
      exact Option.noConfusion hc
  unfold Machine.step
  simp only [hc]
  rw [List.getElem?_set_eq_of_lt _ hi]
  simp [Call.step, hpc, hmu, RWMutex.Lock]

end Pfcp
